import Mathlib

/-!
# APIRest-Lodgerin: tokens, sessions and the request middlewares

A shallow embedding of the authentication core of the repository:

* `src/Utils/messages.js`        : the message constants,
* `src/Utils/responseUtils.js`   : `serverResponse`, `formatError`,
* `src/Helpers/jwtHelper.js`     : `generate`, `verify` and the three token classes,
* `src/Services/authServices.js` : `authenticateUser`, `logoutUser`,
* `src/Services/passwordService.js` : `sendPasswordResetEmail`, `resetPassword`,
* `src/Services/userService.js`  : `createUser`, `getAllUsers`, `getUserById`, `updateUser`,
* `src/Middlewares/auth.middleware.js` : `authenticateToken`, `authenticateResetToken`,
* `src/Middlewares/validateUser.middleware.js` : `validateUserCreation`, `validateUserUpdate`.

Conventions of the embedding.

* Time is the clock in whole seconds (`Date.now() / 1000` rounded down), passed as `now`.
  One call of a function is taken to run within one clock second.
* The library `jsonwebtoken` is modelled symbolically: a signed token records the key it was
  signed with and its claims, and a signature verifies exactly under the key that made it.
* The tables `users` and `sessions` are lists of rows in table order; the queries of the ORM
  are list operations. Storage failures are outside the model.
* `process.env` is the record `Env`.
* The user service takes ids as numbers (its documented type) and request bodies whose known
  keys hold values of the type of their column; foreign keys are not checked.
* Functions of `joi`, `sanitize-html` and PostgreSQL are the parameters in `Externals`; the
  text of a validator's error message is not modelled.
-/

namespace Lodgerin

/-! ## Messages (`src/Utils/messages.js`) -/

namespace AUTH
def NO_TOKEN : String := "Sin autorización"
def INVALID_TOKEN : String := "Token inválido"
def FORBIDDEN : String := "No tienes permisos para acceder a este recurso"
def UNAUTHORIZED : String := "Acceso no permitido"
def ACCESS_DENIED : String := "No autorizado"
def INVALID_CREDENTIALS : String := "Usuario o contraseña incorrectos"
def BLOCKED : String := "Su cuenta está bloqueada. Contacte al administrador."
def RESET_INVALID : String :=
  "Este enlace de restablecimiento de contraseña expiró, o ya ha sido utilizado. Por favor, solicita un nuevo enlace."
def SESSION_NOT_FOUND : String :=
  "No se encontró una sesión activa. Es posible que ya haya cerrado sesión."
def LOGOUT_SUCCESS : String := "Sesión cerrada correctamente. ¡Hasta pronto!"
/-- The object `AUTH` has no key `INVALID_EMAIL`: reading it gives `undefined`. -/
def INVALID_EMAIL : Option String := none
end AUTH

namespace USER
def NOT_FOUND : String := "Usuario no encontrado"
def PASSWORD_CHANGED_SUCCES : String := "Contraseña cambiada exitosamente"
def PASSWORD_RESET_SUCCESS : String := "Contraseña restablecida con éxito."
def RESET_EMAIL_SENT : String := "Correo de restablecimiento de contraseña enviado exitosamente."
def EMAIL_EXIST : String := "Correo en uso, intente con otro correo por favor."
/-- The object `USER` has no key `AUTH_SUCCESS`: reading it gives `undefined`. -/
def AUTH_SUCCESS : Option String := none
def CREATED : String := "Usuario creado exitosamente"
def EXISTED_ERROR : String := "El suario ya existe"
/-- The object `USER` has no key `FOUND`: reading it gives `undefined`. -/
def FOUND : Option String := none
/-- The object `USER` has no key `UPDATED` (the key is in `ADMIN`): reading it gives
`undefined`. -/
def UPDATED : Option String := none
end USER

namespace GENERAL
def SERVER_ERROR : String := "Error interno del servidor"
def SUCCESS : String := "Operación realizada con éxito"
def FAILURE : String := "La operación no pudo completarse"
def MAINTENANCE : String := "El sistema está actualmente en mantenimiento."
def NOT_FOUND : String := "Ruta no encontrada"
end GENERAL

/-! ## The environment (`process.env`) -/

/-- The variables of `process.env` read by the modelled files. -/
structure Env where
  JWT_SECRET : String
  JWT_REFRESH_SECRET : String
  JWT_RESET_PASSWORD_SECRET : String
  MAINTENANCE_MODE : Option String
  SALT_ROUNDS : Option Nat
deriving DecidableEq, Repr

/-! ## Token codec (`src/Helpers/jwtHelper.js`) -/

/-- The object under the key `user` of a token payload, after the JSON round trip of the token:
a key whose value was `undefined` when the token was signed is absent. -/
structure UserPayload where
  id : Nat
  username : Option String
deriving DecidableEq, Repr

/-- The claims of a signed token: the payload `{ user }` plus `iat` and `exp` (seconds). -/
structure Claims where
  user : UserPayload
  iat : Nat
  exp : Nat
deriving DecidableEq, Repr

/-- A string in a place where a token is expected: either the compact form of a token signed
with `secret`, or any other text (`raw`), which is no well-formed signed token. -/
inductive Token where
  | raw (text : String)
  | jwt (secret : String) (claims : Claims)
deriving DecidableEq, Repr

/-- JavaScript truthiness of a string: only the empty string is falsy. -/
def Token.truthy : Token → Bool
  | .raw text => text != ""
  | .jwt _ _ => true

/-- The `name` of the errors thrown by `jwt.verify`. -/
inductive JwtError where
  | TokenExpiredError
  | JsonWebTokenError
deriving DecidableEq, Repr

/-- A JavaScript `Error` object with the properties the code reads and writes. -/
structure JsError where
  name : String
  message : String
  stack : String
  status : Option Nat
  consoled : Bool
deriving DecidableEq, Repr

/-- The value of `new Error(message)`. -/
def JsError.new (message : String) : JsError :=
  { name := "Error", message := message, stack := "Error: " ++ message,
    status := none, consoled := false }

/-- The two properties that `generate` reads from its argument `user`. A property the object
does not have reads as `undefined` (`none`). -/
structure TokenSubject where
  id : Nat
  first_name : Option String
deriving DecidableEq, Repr

/-- A decoded payload object `{ id, username }` passed as the `user` argument of `generate`:
it has no property `first_name`. -/
def UserPayload.asSubject (p : UserPayload) : TokenSubject :=
  { id := p.id, first_name := none }

/-- Lifetime `1h` in seconds. -/
def oneHour : Nat := 3600

/-- Lifetime `2h` in seconds. -/
def twoHours : Nat := 7200

/-- Library call `jwt.sign(payload, secretKey, { expiresIn })` made at second `now`. -/
def jwtSign (now : Nat) (payload : UserPayload) (secretKey : String) (expiresIn : Nat) : Token :=
  .jwt secretKey { user := payload, iat := now, exp := now + expiresIn }

/-- Library call `jwt.verify(token, secretKey)` made at second `now`: the signature is checked
before the expiry, and every failure other than expiry is a `JsonWebTokenError`. -/
def jwtVerify (now : Nat) (token : Option Token) (secretKey : String) : Except JwtError Claims :=
  match token with
  | none => .error .JsonWebTokenError
  | some (.raw _) => .error .JsonWebTokenError
  | some (.jwt secret claims) =>
    if secret = secretKey then
      if claims.exp ≤ now then .error .TokenExpiredError else .ok claims
    else .error .JsonWebTokenError

/-- Source: `generate(user, secretKey, expiresIn)`. -/
def generate (now : Nat) (user : TokenSubject) (secretKey : String) (expiresIn : Nat) : Token :=
  jwtSign now { id := user.id, username := user.first_name } secretKey expiresIn

/-- Source: `verify(token, secretKey)`, returning `decoded.user`. -/
def verify (now : Nat) (token : Option Token) (secretKey : String) : Except JwtError UserPayload :=
  match jwtVerify now token secretKey with
  | .ok decoded => .ok decoded.user
  | .error e => .error e

def generateToken (env : Env) (now : Nat) (user : TokenSubject) : Token :=
  generate now user env.JWT_SECRET oneHour

def generateRefreshToken (env : Env) (now : Nat) (user : TokenSubject) : Token :=
  generate now user env.JWT_REFRESH_SECRET twoHours

def generateResetToken (env : Env) (now : Nat) (user : TokenSubject) : Token :=
  generate now user env.JWT_RESET_PASSWORD_SECRET oneHour

/-- The message of the error thrown by the three verifiers. -/
def invalidOrExpired : String := "Invalid or expired token"

/-- The object returned by `verifyToken`. -/
structure VerifyResult where
  user : UserPayload
  newToken : Option Token
  newRefreshToken : Option Token
deriving DecidableEq, Repr

/-- Source: `verifyToken(token, refreshToken)`. -/
def verifyToken (env : Env) (now : Nat) (token refreshToken : Option Token) :
    Except JsError VerifyResult :=
  match verify now token env.JWT_SECRET with
  | .ok user => .ok { user := user, newToken := none, newRefreshToken := none }
  | .error .TokenExpiredError =>
    match verify now refreshToken env.JWT_REFRESH_SECRET with
    | .ok user =>
      .ok { user := user
            newToken := some (generateToken env now user.asSubject)
            newRefreshToken := some (generateRefreshToken env now user.asSubject) }
    | .error _ => .error (JsError.new invalidOrExpired)
  | .error _ => .error (JsError.new invalidOrExpired)

/-- Source: `verifyRefreshToken(token)`. -/
def verifyRefreshToken (env : Env) (now : Nat) (token : Option Token) :
    Except JsError UserPayload :=
  match verify now token env.JWT_REFRESH_SECRET with
  | .ok user => .ok user
  | .error _ => .error (JsError.new invalidOrExpired)

/-- Source: `verifyResetToken(token)`. -/
def verifyResetToken (env : Env) (now : Nat) (token : Option Token) :
    Except JsError UserPayload :=
  match verify now token env.JWT_RESET_PASSWORD_SECRET with
  | .ok user => .ok user
  | .error _ => .error (JsError.new invalidOrExpired)

/-! ## Responses and errors (`src/Utils/responseUtils.js`) -/

/-- The object `{ status, success, message, body }` returned by the services and passed to
`serverResponse`; an absent key is `none`. -/
structure Envelope (β : Type) where
  status : Nat
  success : Option Bool
  message : Option String
  body : Option β
deriving DecidableEq, Repr

/-- What `res.json` serialises. `Object.assign` with the target `false` (when `success` is
`undefined`) gives a Boolean wrapper object, serialised as the primitive `false`. -/
inductive JsonSent (β : Type) where
  | object (success : Bool) (message : Option String) (body : Option β)
  | wrappedFalse
deriving DecidableEq, Repr

/-- The status code and JSON document sent by `res.status(status).json(response)`. -/
structure HttpResponse (β : Type) where
  status : Nat
  json : JsonSent β
deriving DecidableEq, Repr

/-- Source: `serverResponse(res, { status, success, message, body })`. -/
def serverResponse {β : Type} (options : Envelope β) : HttpResponse β :=
  { status := options.status
    json := match options.success with
      | some success => .object success options.message options.body
      | none => .wrappedFalse }

/-- JavaScript truthiness of an optional number (`undefined` and `0` are falsy). -/
def truthyNat : Option Nat → Bool
  | some n => n != 0
  | none => false

/-- Source: `formatError(error, location, status, message)`; the second component lists what
was written with `console.error`. -/
def formatError (error : JsError) (location : String) (status : Nat) (message : String) :
    JsError × List String :=
  let error1 : JsError :=
    if !truthyNat error.status then { error with status := some status, message := message }
    else error
  if !error1.consoled then
    ({ error1 with consoled := true },
      ["❌ Error en " ++ location ++ ": " ++ error1.name ++ ": " ++ error1.message, error1.stack])
  else (error1, [])

/-! ## Tables (`Db/Models/User.js`, `Db/Models/Session.js`) -/

/-- A row of the table `users`. -/
structure User where
  id : Nat
  email : String
  password : String
  first_name : String
  last_name : String
  role_id : Nat
  is_blocked : Bool
  reset_password_token : Token
  reset_password_token_used : Bool
  created_by : Option Nat
  updated_by : Option Nat
  created_at : Nat
  updated_at : Nat
deriving DecidableEq, Repr

/-- The model `User` defines no attribute `IsBlocked` (the column is `is_blocked`), so reading
`userDb.IsBlocked` on an instance gives `undefined`. -/
def User.IsBlocked (_userDb : User) : Option Bool := none

/-- A row of `users` passed as the `user` argument of `generate`. -/
def User.asSubject (u : User) : TokenSubject :=
  { id := u.id, first_name := some u.first_name }

/-- A row of the table `sessions`. -/
structure Session where
  id : Nat
  user_id : Nat
  access_token : Token
  refresh_token : Token
  device_info : Option String
  ip_address : Option String
  created_at : Nat
  updated_at : Nat
deriving DecidableEq, Repr

/-- The stored state: both tables and the next values of their auto-increment keys. -/
structure Db where
  users : List User
  sessions : List Session
  nextUserId : Nat
  nextSessionId : Nat
deriving DecidableEq, Repr

/-- The primary key of `sessions`: ids are pairwise distinct and below the next key. -/
def Db.SessionsKeyed (db : Db) : Prop :=
  (db.sessions.map (fun s => s.id)).Nodup ∧ ∀ s ∈ db.sessions, s.id < db.nextSessionId

instance (db : Db) : Decidable db.SessionsKeyed := by
  unfold Db.SessionsKeyed; infer_instance

/-- Query `Session.destroy({ where })`. -/
def Session.destroyWhere (db : Db) (cond : Session → Bool) : Db :=
  { db with sessions := db.sessions.filter (fun s => !cond s) }

/-- Instance method `session.destroy()`: deletes by primary key. -/
def Session.destroy (db : Db) (session : Session) : Db :=
  Session.destroyWhere db (fun s => s.id = session.id)

/-- Query `Session.create({ ... })`: the row gets the next key. -/
def Session.create (db : Db) (user_id : Nat) (access_token refresh_token : Token)
    (ip_address device_info : Option String) (now : Nat) : Db :=
  { db with
    sessions := db.sessions ++
      [{ id := db.nextSessionId, user_id := user_id, access_token := access_token,
         refresh_token := refresh_token, device_info := device_info,
         ip_address := ip_address, created_at := now, updated_at := now }]
    nextSessionId := db.nextSessionId + 1 }

/-- Instance method `session.update({ access_token, refresh_token })`: writes by primary key. -/
def Session.update (db : Db) (session : Session) (access_token refresh_token : Token)
    (now : Nat) : Db :=
  { db with
    sessions := db.sessions.map (fun s =>
      if s.id = session.id then
        { s with access_token := access_token, refresh_token := refresh_token,
                 updated_at := now }
      else s) }

/-- Instance method `user.update(values)`: writes by primary key; `values` is the change of
the named columns. -/
def User.update (db : Db) (user : User) (values : User → User) (now : Nat) : Db :=
  { db with
    users := db.users.map (fun u =>
      if u.id = user.id then { values u with updated_at := now } else u) }

/-! ## Library `bcrypt` -/

/-- The two calls of `bcrypt` the services make. `hash data rounds salt` is the hash computed
with the salt drawn on that call; no property of the functions is assumed. -/
structure Bcrypt where
  hash : String → Nat → String → String
  compare : String → String → Bool

/-! ## Authentication service (`src/Services/authServices.js`) -/

/-- The argument `data` of `authenticateUser`. -/
structure LoginData where
  email : String
  password : String
  ip_address : Option String
  device_info : Option String
deriving DecidableEq, Repr

/-- The body `{ token, refreshToken }` of a successful login. -/
structure LoginBody where
  token : Token
  refreshToken : Token
deriving DecidableEq, Repr

/-- JavaScript `value || fallback` on an optional string. -/
def orElse (value : Option String) (fallback : String) : String :=
  match value with
  | some v => if v = "" then fallback else v
  | none => fallback

/-- The `where` clause `{ user_id, ip_address, device_info }` of `authenticateUser`. -/
def sameDevice (user_id : Nat) (ip_address device_info : String) (s : Session) : Bool :=
  decide (s.user_id = user_id) && decide (s.ip_address = some ip_address)
    && decide (s.device_info = some device_info)

/-- Source: `authenticateUser(data)`, run at second `now` on the stored state `db`. -/
def authenticateUser (env : Env) (bcrypt : Bcrypt) (now : Nat) (db : Db) (data : LoginData) :
    Envelope LoginBody × Db :=
  match db.users.find? (fun u => decide (u.email = data.email)) with
  | none =>
    ({ status := 401, success := some false, message := some AUTH.INVALID_CREDENTIALS,
       body := none }, db)
  | some user =>
    let isPasswordValid := bcrypt.compare data.password user.password
    if !isPasswordValid then
      ({ status := 401, success := some false, message := some AUTH.INVALID_CREDENTIALS,
         body := none }, db)
    else
      let token := generateToken env now user.asSubject
      let refreshToken := generateRefreshToken env now user.asSubject
      let ip := orElse data.ip_address "Desconocido"
      let device := orElse data.device_info "Desconocido"
      let existingSessions := db.sessions.filter (sameDevice user.id ip device)
      let db1 :=
        if existingSessions.length > 0 then Session.destroyWhere db (sameDevice user.id ip device)
        else db
      let db2 := Session.create db1 user.id token refreshToken (some ip) (some device) now
      ({ status := 200, success := some true, message := USER.AUTH_SUCCESS,
         body := some { token := token, refreshToken := refreshToken } }, db2)

/-- Source: `logoutUser(token)`. -/
def logoutUser (db : Db) (token : Token) : Envelope Unit × Db :=
  match db.sessions.find? (fun s => decide (s.access_token = token)) with
  | none =>
    ({ status := 404, success := some false, message := some AUTH.SESSION_NOT_FOUND,
       body := none }, db)
  | some session =>
    ({ status := 200, success := some true, message := some AUTH.LOGOUT_SUCCESS,
       body := none }, Session.destroy db session)

/-! ## Password service (`src/Services/passwordService.js`) -/

/-- Source: `SALT_ROUNDS = parseInt(process.env.SALT_ROUNDS) || 10`. -/
def SALT_ROUNDS (env : Env) : Nat :=
  match env.SALT_ROUNDS with
  | some n => if n = 0 then 10 else n
  | none => 10

/-- The body `{ resetToken }` of `sendPasswordResetEmail`. -/
structure ResetBody where
  resetToken : Token
deriving DecidableEq, Repr

/-- A call `sendEmail(to, subject, templateName, variables)`; of the variables only the name
shown and the token put in the content are kept. -/
structure Mail where
  to_ : String
  subject : String
  templateName : String
  NombreCompleto : String
  token : Token
deriving DecidableEq, Repr

/-- What `sendPasswordResetEmail` leaves behind: its result or the error it throws, the stored
state, and the mails handed to the transport. -/
structure ResetEmailRun where
  result : Except JsError (Envelope ResetBody)
  db : Db
  sent : List Mail

/-- Source: `sendPasswordResetEmail(email)`; `delivered` says whether the mail transport
accepts the mail (`sendEmail` throws when it does not). -/
def sendPasswordResetEmail (env : Env) (now : Nat) (delivered : Bool) (db : Db)
    (email : String) : ResetEmailRun :=
  match db.users.find? (fun u => decide (u.email = email)) with
  | none =>
    { result := .ok { status := 404, success := some false, message := AUTH.INVALID_EMAIL,
                      body := none }
      db := db, sent := [] }
  | some user =>
    let token := generateResetToken env now user.asSubject
    let db1 := User.update db user
      (fun u => { u with reset_password_token := token, reset_password_token_used := false }) now
    let mail : Mail :=
      { to_ := email, subject := "Restablecimiento de contraseña",
        templateName := "customTemplate",
        NombreCompleto := orElse (some user.first_name) "Usuari@", token := token }
    if delivered then
      { result := .ok { status := 200, success := some true,
                        message := some USER.RESET_EMAIL_SENT,
                        body := some { resetToken := token } }
        db := db1, sent := [mail] }
    else
      { result := .error (formatError (JsError.new "No se pudo enviar el correo electrónico")
          "sendPasswordResetEmail-passwordService" 500 GENERAL.FAILURE).1
        db := db1, sent := [] }

/-- Source: `resetPassword(user, new_password)`; `salt` is the salt `bcrypt.hash` draws. -/
def resetPassword (env : Env) (bcrypt : Bcrypt) (now : Nat) (salt : String) (db : Db)
    (user : User) (new_password : String) : Envelope Unit × Db :=
  let hashedPassword := bcrypt.hash new_password (SALT_ROUNDS env) salt
  ({ status := 200, success := some true, message := some USER.PASSWORD_RESET_SUCCESS,
     body := none },
   User.update db user
     (fun u => { u with password := hashedPassword, reset_password_token_used := true,
                        updated_by := some user.id }) now)

/-! ## Request middlewares (`src/Middlewares/auth.middleware.js`) -/

/-- The parts of the Express request the middlewares read and write. The header
`authorization` is kept as its pieces between single spaces (what `split` returns), the scheme
word being a `raw` piece. -/
structure Request where
  authorization : Option (List Token)
  x_refresh_token : Option Token
  x_reset_token : Option Token
  user : Option User
  rol : Option Nat
deriving DecidableEq, Repr

/-- A value given to `res.header` or `res.setHeader`. -/
inductive HeaderValue where
  | token (t : Token)
  | number (n : Nat)
  | text (s : String)
deriving DecidableEq, Repr

/-- How a middleware call ends. -/
inductive Outcome where
  -- a response was sent with `serverResponse`; the handler is not called
  | responded (res : HttpResponse Unit)
  -- `next()`: the request goes on to the handler
  | next
  -- `next(error)`: the request goes to the error handler
  | nextError (error : JsError)
  -- the middleware threw: its promise rejects, nothing is sent and `next` is not called
  | threw (error : JsError)
deriving DecidableEq, Repr

/-- The state after a middleware call. -/
structure MiddlewareRun where
  outcome : Outcome
  db : Db
  req : Request
  resHeaders : List (String × HeaderValue)
deriving DecidableEq, Repr

/-- A run that answers with `serverResponse` and changes nothing else. -/
def respond (db : Db) (req : Request) (status : Nat) (message : String) : MiddlewareRun :=
  { outcome := .responded
      (serverResponse { status := status, success := some false, message := some message,
                        body := none })
    db := db, req := req, resHeaders := [] }

/-- Source: the table `rolePermissions` of `authenticateToken`, by required role. -/
def rolePermissions : Nat → Option (List Nat)
  | 1 => some [1]
  | 2 => some [1, 2]
  | 3 => some [1, 2, 3]
  | _ => none

/-- Source: `rolePermissions[authorizedRole]?.includes(dbUserRoleId)`, read as a condition. -/
def roleAllowed (authorizedRole dbUserRoleId : Nat) : Bool :=
  match rolePermissions authorizedRole with
  | some allowed => allowed.contains dbUserRoleId
  | none => false

/-- Source: `authenticateToken(rol)` applied to a request at second `now`. The required role
and the stored `role_id` are integers, on which `parseInt(_, 10)` is the identity. -/
def authenticateToken (env : Env) (rol : Nat) (now : Nat) (db : Db) (req : Request) :
    MiddlewareRun :=
  let authHeader := req.authorization
  let refreshToken := req.x_refresh_token
  let token : Option Token := authHeader.bind (fun pieces => pieces[1]?)
  if env.MAINTENANCE_MODE = some "true" then
    { outcome := .responded
        (serverResponse { status := 503, success := some false,
                          message := some GENERAL.MAINTENANCE, body := none })
      db := db, req := req, resHeaders := [("x-maintenance-mode", .text "true")] }
  else
    match token.filter Token.truthy with
    | none =>
      -- `messages` is not declared in this file: evaluating `messages.AUTH.NO_TOKEN` throws
      { outcome := .threw { name := "ReferenceError", message := "messages is not defined",
                            stack := "ReferenceError: messages is not defined",
                            status := none, consoled := false }
        db := db, req := req, resHeaders := [] }
    | some token =>
      match verifyToken env now (some token) refreshToken with
      | .error error =>
        if error.message = invalidOrExpired then respond db req 401 AUTH.INVALID_CREDENTIALS
        else
          { outcome := .nextError (formatError error "auth.middleware" 500
              "Error interno del servidor").1
            db := db, req := req, resHeaders := [] }
      | .ok result =>
        let user := result.user
        match db.users.find? (fun u => decide (u.id = user.id)) with
        | none => respond db req 401 AUTH.UNAUTHORIZED
        | some userDb =>
          if userDb.IsBlocked = some true then respond db req 401 AUTH.BLOCKED
          else
            match db.sessions.find?
              (fun s => decide (s.user_id = user.id) && decide (s.access_token = token)) with
            | none => respond db req 401 AUTH.SESSION_NOT_FOUND
            | some session =>
              let authorizedRole := rol
              let dbUserRoleId := userDb.role_id
              if !roleAllowed authorizedRole dbUserRoleId then
                respond db req 401 AUTH.UNAUTHORIZED
              else
                let req1 := { req with user := some userDb, rol := some dbUserRoleId }
                match result.newToken.filter Token.truthy with
                | none => { outcome := .next, db := db, req := req1, resHeaders := [] }
                | some newToken =>
                  match result.newRefreshToken with
                  | none =>
                    -- `refresh_token` does not allow null: the update is refused
                    { outcome := .nextError (formatError
                        { name := "SequelizeValidationError"
                          message := "notNull Violation: Session.refresh_token cannot be null"
                          stack := "SequelizeValidationError", status := none
                          consoled := false }
                        "auth.middleware" 500 "Error interno del servidor").1
                      db := db, req := req1, resHeaders := [] }
                  | some newRefreshToken =>
                    { outcome := .next
                      db := Session.update db session newToken newRefreshToken now
                      req := { req1 with
                        authorization := some [.raw "Bearer", newToken]
                        x_refresh_token := some newRefreshToken }
                      resHeaders :=
                        [("x-new-token", .token newToken),
                         ("x-new-refresh-token", .token newRefreshToken),
                         ("x-user-permissions", .number dbUserRoleId)] }

/-- Source: `authenticateResetToken(req, res, next)` at second `now`. -/
def authenticateResetToken (env : Env) (now : Nat) (db : Db) (req : Request) : MiddlewareRun :=
  match req.x_reset_token.filter Token.truthy with
  | none => respond db req 401 AUTH.NO_TOKEN
  | some token =>
    match verifyResetToken env now (some token) with
    | .ok payload =>
      match db.users.find? (fun u =>
          decide (u.id = payload.id) && decide (u.reset_password_token = token)
            && decide (u.reset_password_token_used = false)) with
      | none => respond db req 401 AUTH.RESET_INVALID
      | some userDb =>
        { outcome := .next, db := db, req := { req with user := some userDb },
          resHeaders := [] }
    | .error error =>
      if error.message = invalidOrExpired then respond db req 401 AUTH.RESET_INVALID
      else
        { outcome := .nextError (formatError error "auth.middleware" 500
            "Error interno del servidor").1
          db := db, req := req, resHeaders := [] }

/-- The conditions under which `authenticateToken` renews silently: maintenance mode is off,
the header carries `token`, `verifyToken` returned `result` with the new pair, the user and
the session are found and the role gate passes. -/
def SilentRenewal (env : Env) (rol now : Nat) (db : Db) (req : Request) (token : Token)
    (result : VerifyResult) (userDb : User) (session : Session)
    (newToken newRefreshToken : Token) : Prop :=
  env.MAINTENANCE_MODE ≠ some "true"
  ∧ (req.authorization.bind (fun pieces => pieces[1]?)).filter Token.truthy = some token
  ∧ verifyToken env now (some token) req.x_refresh_token = .ok result
  ∧ result.newToken = some newToken
  ∧ result.newRefreshToken = some newRefreshToken
  ∧ db.users.find? (fun u => decide (u.id = result.user.id)) = some userDb
  ∧ db.sessions.find?
      (fun s => decide (s.user_id = result.user.id) && decide (s.access_token = token))
      = some session
  ∧ roleAllowed rol userDb.role_id = true

/-! ## Table `roles` (`Db/Models/Role.js`) and external functions -/

/-- A row of the table `roles`. -/
structure Role where
  id : Nat
  name : String
deriving DecidableEq, Repr

/-- The rows inserted by `Db/Seeders/20250303004200-create-roles.js`. -/
def seededRoles : List Role :=
  [{ id := 1, name := "SuperAdmin" }, { id := 2, name := "Admin" }, { id := 3, name := "Guest" }]

/-- Functions of the platform and of the libraries `sanitize-html`, `joi` and PostgreSQL that
the user service and the validators call. They are parameters: no property of them is
assumed. -/
structure Externals where
  -- `sanitizeHtml(text, options)` with no tag allowed
  sanitizeHtml : String → String
  -- `String.prototype.trim`
  trim : String → String
  -- `String.prototype.toLocaleLowerCase`
  toLowerCase : String → String
  -- the rule `Joi.string().email()`
  isEmail : String → Bool
  -- the integer that `Joi.number().integer()` reads from a string, if any
  integerOfString : String → Option Int
  -- the operator `value ILIKE pattern` of PostgreSQL
  iLike : String → String → Bool

/-- A JSON value in a request body; `other` stands for a number that is no integer, an
array or an object. -/
inductive JsVal where
  | str (s : String)
  | num (n : Int)
  | bool (b : Bool)
  | null
  | other
deriving DecidableEq, Repr

/-- The property `length` of a JavaScript string: its number of UTF-16 code units. -/
def utf16Length (s : String) : Nat :=
  s.data.foldl (fun n c => n + (if c.toNat < 65536 then 1 else 2)) 0

/-- A line terminator, which `.` does not match in a regular expression. -/
def isLineTerminator (c : Char) : Bool :=
  c.toNat = 10 || c.toNat = 13 || c.toNat = 8232 || c.toNat = 8233

/-- Source: the password pattern `^(?=.*[a-z])(?=.*[A-Z])(?=.*\\d).+$`: a non-empty line
with a letter `a-z`, a letter `A-Z` and a digit `0-9`. -/
def passwordPattern (s : String) : Bool :=
  !s.data.isEmpty && !s.data.any isLineTerminator && s.data.any Char.isLower
    && s.data.any Char.isUpper && s.data.any Char.isDigit

/-! ## Validators of user creation (`src/Middlewares/validateUser.middleware.js`) -/

/-- How a validator ends: `next()` with the body it leaves in `req.body`, or a response with
status 400, `success: false` and a message of the validator (its text is not modelled). -/
inductive Validated (β : Type) where
  | next (body : β)
  | badRequest
deriving DecidableEq, Repr

/-- The keys of a creation request body that the schemas know; an absent key is `none`.
Other keys are removed by `stripUnknown` before the body goes on. -/
structure CreateBody where
  email : Option JsVal
  password : Option JsVal
  first_name : Option JsVal
  last_name : Option JsVal
  role_id : Option JsVal
deriving DecidableEq, Repr

/-- The validated body handed to `createUser`. -/
structure CreateData where
  email : String
  password : String
  first_name : String
  last_name : String
  role_id : Nat
deriving DecidableEq, Repr

/-- Source: `sanitizeInput` on one value: a string is trimmed when `isPassword`, and
sanitised then trimmed otherwise; other values are kept. -/
def sanitizeValue (ext : Externals) (isPassword : Bool) : JsVal → JsVal
  | .str s => if isPassword then .str (ext.trim s) else .str (ext.trim (ext.sanitizeHtml s))
  | v => v

/-- Source: `sanitizeInput(data)`. -/
def sanitizeInput (ext : Externals) (data : CreateBody) : CreateBody :=
  { email := data.email.map (sanitizeValue ext false)
    password := data.password.map (sanitizeValue ext true)
    first_name := data.first_name.map (sanitizeValue ext false)
    last_name := data.last_name.map (sanitizeValue ext false)
    role_id := data.role_id.map (sanitizeValue ext false) }

/-- The rule `Joi.string().email().trim().lowercase().required()`: the converted value, or
`none` on an error. -/
def joiEmail (ext : Externals) : Option JsVal → Option String
  | some (.str s) =>
    let v := ext.trim (ext.toLowerCase s)
    if v ≠ "" ∧ ext.isEmail v then some v else none
  | _ => none

/-- The rule `Joi.string().min(8).max(32).required().pattern(...)` of `password`. -/
def joiPassword : Option JsVal → Option String
  | some (.str s) =>
    if 8 ≤ utf16Length s ∧ utf16Length s ≤ 32 ∧ passwordPattern s then some s else none
  | _ => none

/-- The rule `Joi.string().trim().min(2).max(50).required()` of the two names. -/
def joiName (ext : Externals) : Option JsVal → Option String
  | some (.str s) =>
    let v := ext.trim s
    if 2 ≤ utf16Length v ∧ utf16Length v ≤ 50 then some v else none
  | _ => none

/-- The rule `Joi.number().integer().valid(...allowed).required()` of `role_id`: a number,
or a string that converts to one, among the allowed values. -/
def joiRole (ext : Externals) (allowed : List Nat) : Option JsVal → Option Nat
  | some (.num n) => if 0 ≤ n ∧ allowed.contains n.toNat then some n.toNat else none
  | some (.str s) =>
    match ext.integerOfString s with
    | some n => if 0 ≤ n ∧ allowed.contains n.toNat then some n.toNat else none
    | none => none
  | _ => none

/-- A creation schema: `baseUserSchema` with the values allowed for `role_id`. -/
structure CreateSchema where
  roles : List Nat
deriving DecidableEq, Repr

def baseUserSchema : CreateSchema := { roles := [3] }
def adminUserSchema : CreateSchema := { roles := [3] }
def superAdminUserSchema : CreateSchema := { roles := [1, 2, 3] }
def firstUserSchema : CreateSchema := { roles := [1] }

/-- Source: `schema.validate(body, { abortEarly: false, stripUnknown: true })`: the value,
or `none` when some rule fails. -/
def CreateSchema.validate (ext : Externals) (schema : CreateSchema) (body : CreateBody) :
    Option CreateData :=
  match joiEmail ext body.email, joiPassword body.password, joiName ext body.first_name,
      joiName ext body.last_name, joiRole ext schema.roles body.role_id with
  | some email, some password, some first_name, some last_name, some role_id =>
    some { email := email, password := password, first_name := first_name,
           last_name := last_name, role_id := role_id }
  | _, _, _, _, _ => none

/-- Source: `validateUserCreation(req, res, next)`, with `rol` the value of `req.rol`
(`none` when no authentication middleware ran). -/
def validateUserCreation (ext : Externals) (db : Db) (rol : Option Nat) (body : CreateBody) :
    Validated CreateData :=
  let totalUsers := db.users.length
  let body1 := sanitizeInput ext body
  let chosen : CreateBody × CreateSchema :=
    if totalUsers = 0 then ({ body1 with role_id := some (.num 1) }, firstUserSchema)
    else if !truthyNat rol then ({ body1 with role_id := some (.num 3) }, baseUserSchema)
    else if rol = some 2 then (body1, adminUserSchema)
    else if rol = some 1 then (body1, superAdminUserSchema)
    else (body1, baseUserSchema)
  match chosen.2.validate ext chosen.1 with
  | none => .badRequest
  | some value => .next value

/-! ## User service (`src/Services/userService.js`) -/

/-- JavaScript `user?.id || null`: the id of the caller, `null` when there is no caller or
the id is `0`. -/
def callerId : Option User → Option Nat
  | some user => if user.id = 0 then none else some user.id
  | none => none

/-- Query `User.create({ ... })` followed by the hook `afterCreate` of the model: the row gets
the next key and the column defaults, and when `created_by` is empty the hook writes the own
id into `created_by` and `updated_by`. -/
def User.create (db : Db) (email password first_name last_name : String) (role_id : Nat)
    (created_by : Option Nat) (now : Nat) : User :=
  let id := db.nextUserId
  let own := !truthyNat created_by
  { id := id, email := email, password := password, first_name := first_name,
    last_name := last_name, role_id := role_id, is_blocked := false,
    reset_password_token := .raw "", reset_password_token_used := false,
    created_by := if own then some id else created_by
    updated_by := if own then some id else none
    created_at := now, updated_at := now }

/-- Source: `createUser(data, user)`; `user` is `none` for the default `null`, `salt` is the
salt `bcrypt.hash` draws. The body of a success is the new row. -/
def createUser (env : Env) (bcrypt : Bcrypt) (now : Nat) (salt : String) (db : Db)
    (data : CreateData) (user : Option User) : Envelope User × Db :=
  if (user.map (fun u => u.role_id)) = some 3 then
    ({ status := 403, success := some false, message := some AUTH.UNAUTHORIZED,
       body := none }, db)
  else
    match db.users.find? (fun u => decide (u.email = data.email)) with
    | some _existingUser =>
      ({ status := 400, success := some false, message := some USER.EXISTED_ERROR,
         body := none }, db)
    | none =>
      let hashedPassword := bcrypt.hash data.password (SALT_ROUNDS env) salt
      let newUser := User.create db data.email hashedPassword data.first_name data.last_name
        data.role_id (callerId user) now
      ({ status := 201, success := some true, message := some USER.CREATED,
         body := some newUser },
       { db with users := db.users ++ [newUser], nextUserId := db.nextUserId + 1 })

/-- The value of `role_id` in a search query: one number or an array of numbers. -/
inductive RoleFilter where
  | one (role_id : Nat)
  | many (role_ids : List Nat)
deriving DecidableEq, Repr

/-- The argument `query` of `getAllUsers`, with values of the types `userQuerySchema`
describes; an absent key is `none`. -/
structure UserQuery where
  page : Option Int
  limit : Option Int
  name : Option String
  role_id : Option RoleFilter
  is_blocked : Option Bool
deriving DecidableEq, Repr

/-- The object `whereCondition` of `getAllUsers`: `role_id IN (...)`, `is_blocked = ...`, and
the name pattern of the `Op.or` pair. -/
structure WhereCondition where
  role_id : Option (List Nat)
  is_blocked : Option Bool
  namePattern : Option String
deriving DecidableEq, Repr

/-- Whether a row of `users` satisfies the condition. -/
def WhereCondition.holds (ext : Externals) (w : WhereCondition) (u : User) : Bool :=
  (match w.role_id with
    | some roles => roles.contains u.role_id
    | none => true)
  && (match w.is_blocked with
    | some b => u.is_blocked == b
    | none => true)
  && (match w.namePattern with
    | some pattern => ext.iLike u.first_name pattern || ext.iLike u.last_name pattern
    | none => true)

/-- The body of a successful `getAllUsers`. `totalPages` is `Math.ceil(count / limit)`, which
is no finite number (`none`) when `limit` is `0`. -/
structure UserPage where
  users : List User
  total : Nat
  page : Int
  limit : Int
  totalPages : Option Int
deriving DecidableEq, Repr

/-- Source: the condition `getAllUsers` builds from the role of the caller and the query. -/
def whereCondition (rol : Nat) (query : UserQuery) : WhereCondition :=
  let start : Option (List Nat) := if rol = 1 then none else some [2, 3]
  { role_id :=
      match query.role_id with
      | some (.many role_ids) => some role_ids
      | some (.one role_id) => if role_id = 0 then start else some [role_id]
      | none => start
    is_blocked := query.is_blocked
    namePattern :=
      match query.name with
      | some name => if name = "" then none else some ("%" ++ name ++ "%")
      | none => none }

/-- Source: `getAllUsers(rol, query)`. PostgreSQL refuses a negative `LIMIT` or `OFFSET`; the
error is thrown on through `formatError`. -/
def getAllUsers (ext : Externals) (db : Db) (rol : Nat) (query : UserQuery) :
    Except JsError (Envelope UserPage) :=
  if rol = 3 then
    .ok { status := 403, success := some false, message := some AUTH.UNAUTHORIZED,
          body := none }
  else
    let page := query.page.getD 1
    let limit := query.limit.getD 10
    let offset := (page - 1) * limit
    if limit < 0 ∨ offset < 0 then
      .error (formatError
        { name := "SequelizeDatabaseError", message := "LIMIT or OFFSET must not be negative"
          stack := "SequelizeDatabaseError", status := none, consoled := false }
        "getAllUsers-userService" 500 GENERAL.FAILURE).1
    else
      let selected := db.users.filter ((whereCondition rol query).holds ext)
      let users := (selected.drop offset.toNat).take limit.toNat
      let count := selected.length
      .ok { status := 200, success := some true, message := USER.FOUND
            body := some
              { users := users, total := count, page := page, limit := limit
                totalPages := if limit = 0 then none else some ((count + limit - 1) / limit) } }

/-- The nested object `role` of a privileged view: `role_name` is the name of the joined
row of `roles`, `null` when there is none. -/
structure RoleView where
  role_name : Option String
deriving DecidableEq, Repr

/-- The plain object `getUserById` returns as body. An absent key is `none`; `created_by`
and `updated_by` may be present with the value `null` (`some none`). -/
structure UserView where
  id : Option Nat
  first_name : String
  last_name : String
  email : String
  is_blocked : Option Bool
  created_by : Option (Option Nat)
  updated_by : Option (Option Nat)
  role : Option RoleView
deriving DecidableEq, Repr

/-- Source: `getUserById(searchId, user)` on the tables `users` (in `db`) and `roles`. The ids
are numbers, as the service documents and `getSelf` passes. -/
def getUserById (roles : List Role) (db : Db) (searchId : Nat) (user : User) :
    Envelope UserView :=
  if user.role_id = 3 ∧ user.id ≠ searchId then
    { status := 403, success := some false, message := some AUTH.UNAUTHORIZED, body := none }
  else
    let privileged := decide (user.role_id ≠ 3)
    match db.users.find? (fun u => decide (u.id = searchId)) with
    | none =>
      { status := 404, success := some false, message := some USER.NOT_FOUND, body := none }
    | some row =>
      -- `userById.role_id` is selected only for a privileged caller
      let selectedRole : Option Nat := if privileged then some row.role_id else none
      if user.role_id = 2 ∧ selectedRole = some 1 then
        { status := 403, success := some false, message := some AUTH.UNAUTHORIZED,
          body := none }
      else
        let userById : UserView :=
          { id := if user.role_id ≠ 1 then none else some row.id
            first_name := row.first_name, last_name := row.last_name, email := row.email
            is_blocked := if privileged then some row.is_blocked else none
            created_by := if privileged then some row.created_by else none
            updated_by := if privileged then some row.updated_by else none
            role :=
              if privileged then
                some { role_name :=
                  (roles.find? (fun r => decide (r.id = row.role_id))).map (fun r => r.name) }
              else none }
        { status := 200, success := some true, message := USER.FOUND, body := some userById }

/-- The model attributes a request body can set through `userToUpdate.update(data)`, with
values of the type of their column; an absent key is `none`. The key, the timestamps and
`updated_by` (overwritten by the service) are not among them. -/
structure UpdateData where
  email : Option String
  password : Option String
  first_name : Option String
  last_name : Option String
  role_id : Option Nat
  is_blocked : Option Bool
  reset_password_token : Option Token
  reset_password_token_used : Option Bool
  created_by : Option (Option Nat)
deriving DecidableEq, Repr

/-- The columns written by `userToUpdate.update(data)` after `data.updated_by = user.id`. -/
def UpdateData.apply (data : UpdateData) (updated_by : Nat) (u : User) : User :=
  { u with
    email := data.email.getD u.email
    password := data.password.getD u.password
    first_name := data.first_name.getD u.first_name
    last_name := data.last_name.getD u.last_name
    role_id := data.role_id.getD u.role_id
    is_blocked := data.is_blocked.getD u.is_blocked
    reset_password_token := data.reset_password_token.getD u.reset_password_token
    reset_password_token_used :=
      data.reset_password_token_used.getD u.reset_password_token_used
    created_by := data.created_by.getD u.created_by
    updated_by := some updated_by }

/-- Source: the test `data.email && data.email !== userToUpdate.email` followed by the lookup
of another user with that email. -/
def emailTaken (db : Db) (updateId : Nat) (userToUpdate : User) (data : UpdateData) : Bool :=
  match data.email with
  | some email =>
    if email ≠ "" ∧ email ≠ userToUpdate.email then
      match db.users.find? (fun u => decide (u.email = email)) with
      | some existingUser => decide (existingUser.id ≠ updateId)
      | none => false
    else false
  | none => false

/-- Source: `updateUser(updateId, user, data)` at second `now`. The ids are numbers, as the
service documents and `updateSelf` passes. The body of a success is the updated row. -/
def updateUser (now : Nat) (db : Db) (updateId : Nat) (user : User) (data : UpdateData) :
    Envelope User × Db :=
  if user.role_id = 3 ∧ user.id ≠ updateId then
    ({ status := 403, success := some false, message := some AUTH.UNAUTHORIZED,
       body := none }, db)
  else
    match db.users.find? (fun u => decide (u.id = updateId)) with
    | none =>
      ({ status := 404, success := some false, message := some USER.NOT_FOUND,
         body := none }, db)
    | some userToUpdate =>
      if user.role_id = 2 ∧
          (userToUpdate.role_id = 1 ∨ (userToUpdate.role_id = 2 ∧ user.id ≠ updateId)) then
        ({ status := 403, success := some false, message := some AUTH.UNAUTHORIZED,
           body := none }, db)
      else if emailTaken db updateId userToUpdate data then
        ({ status := 409, success := some false, message := some USER.EMAIL_EXIST,
           body := none }, db)
      else
        ({ status := 200, success := some true, message := USER.UPDATED,
           body := some { data.apply user.id userToUpdate with updated_at := now } },
         User.update db userToUpdate (data.apply user.id) now)

/-- An update schema: `updateBaseUserSchema`, extended with `is_blocked` or not, and with
`role_id` restricted to some values or not known at all (`none`). -/
structure UpdateSchema where
  is_blocked : Bool
  role_id : Option (List Nat)
deriving DecidableEq, Repr

def updateBaseUserSchema : UpdateSchema := { is_blocked := false, role_id := none }
def updateAdminUserSchema : UpdateSchema := { is_blocked := true, role_id := none }
def updateSuperAdminUserSchema : UpdateSchema := { is_blocked := true, role_id := some [2, 3] }

/-- An optional string rule of the update schemas: absent passes. -/
def optionalRule (rule : String → Bool) : Option String → Bool
  | some s => rule s
  | none => true

/-- Source: `schema.validate(body, { abortEarly: false, stripUnknown: true })` read as
`error === undefined`. A key the schema does not know is stripped from the value and raises
no error, so it is not looked at; `is_blocked` has the type of the rule. -/
def UpdateSchema.accepts (ext : Externals) (schema : UpdateSchema) (body : UpdateData) : Bool :=
  optionalRule (fun s =>
      decide (ext.trim (ext.toLowerCase s) ≠ "") && ext.isEmail (ext.trim (ext.toLowerCase s)))
    body.email
  && optionalRule (fun s =>
      decide (2 ≤ utf16Length (ext.trim s)) && decide (utf16Length (ext.trim s) ≤ 50))
    body.first_name
  && optionalRule (fun s =>
      decide (2 ≤ utf16Length (ext.trim s)) && decide (utf16Length (ext.trim s) ≤ 50))
    body.last_name
  && (match schema.role_id, body.role_id with
    | some allowed, some role_id => allowed.contains role_id
    | _, _ => true)

/-- Source: `validateUserUpdate(req, res, next)`. The schema is chosen by the `role_id` of the
body; the validated value is not kept, so `next()` goes on with the body as it came. -/
def validateUserUpdate (ext : Externals) (body : UpdateData) : Validated UpdateData :=
  let schemaToUse : Option UpdateSchema :=
    match body.role_id with
    | none => some updateBaseUserSchema
    | some role_id =>
      if [1, 2].contains role_id then some updateAdminUserSchema
      else if [1, 2, 3].contains role_id then some updateSuperAdminUserSchema
      else none
  match schemaToUse with
  | none => .badRequest
  | some schema => if schema.accepts ext body then .next body else .badRequest

/-! ## Password change, login validation and the error handler -/

/-- The argument `data` of `changePassword`. -/
structure ChangePasswordData where
  currentPassword : String
  newPassword : String
deriving DecidableEq, Repr

/-- Source: `changePassword(userId, data)` of `passwordService.js` at second `now`; `salt` is
the salt `bcrypt.hash` draws. -/
def changePassword (env : Env) (bcrypt : Bcrypt) (now : Nat) (salt : String) (db : Db)
    (userId : Nat) (data : ChangePasswordData) : Envelope Unit × Db :=
  match db.users.find? (fun u => decide (u.id = userId)) with
  | none =>
    ({ status := 404, success := some false, message := some USER.NOT_FOUND, body := none },
     db)
  | some user =>
    let isPasswordValid := bcrypt.compare data.currentPassword user.password
    if !isPasswordValid then
      ({ status := 401, success := some false, message := some AUTH.INVALID_CREDENTIALS,
         body := none }, db)
    else
      let hashedPassword := bcrypt.hash data.newPassword (SALT_ROUNDS env) salt
      ({ status := 200, success := some true, message := some USER.PASSWORD_CHANGED_SUCCES,
         body := none },
       User.update db user
         (fun u => { u with password := hashedPassword, updated_by := some user.id }) now)

/-- The keys of a login request body that `loginSchema` knows. -/
structure LoginRequestBody where
  email : Option JsVal
  password : Option JsVal
deriving DecidableEq, Repr

/-- The validated body of a login: `{ email, password }`. -/
structure Credentials where
  email : String
  password : String
deriving DecidableEq, Repr

/-- Source: `validateLoginRequest(req, res, next)` with `loginSchema`: `email` is a string
that is an email, `password` a string of at least one character; neither is converted. -/
def validateLoginRequest (ext : Externals) (body : LoginRequestBody) : Validated Credentials :=
  match body.email, body.password with
  | some (.str email), some (.str password) =>
    if email ≠ "" ∧ ext.isEmail email ∧ 1 ≤ utf16Length password then
      .next { email := email, password := password }
    else .badRequest
  | _, _ => .badRequest

/-- Source: `loginUser` of `logIn.Controller.js` after the validator: the credentials with the
address and the device read from the request. -/
def loginData (credentials : Credentials) (ip_address device_info : Option String) :
    LoginData :=
  { email := credentials.email, password := credentials.password, ip_address := ip_address,
    device_info := device_info }

/-- Source: `errorHandler(err, req, res, next)`: the response sent and what is written with
`console.error`. -/
def errorHandler (err : JsError) : HttpResponse Unit × List String :=
  (serverResponse
    { status := if truthyNat err.status then err.status.getD 500 else 500
      success := some false
      message := some (if err.message = "" then "Error interno del servidor" else err.message)
      body := none },
   if !err.consoled then
     ["❌ Error capturado en errorHandler: " ++ err.message, err.stack]
   else [])

/-- The arguments `(location, status, message)` of one call of `formatError`. -/
structure FormatCall where
  location : String
  status : Nat
  message : String
deriving DecidableEq, Repr

/-- An error passed through nested calls of `formatError`, innermost first, with everything
written to the console on the way. -/
def formatErrors (error : JsError) : List FormatCall → JsError × List String
  | [] => (error, [])
  | call :: rest =>
    let first := formatError error call.location call.status call.message
    let later := formatErrors first.1 rest
    (later.1, first.2 ++ later.2)

/-! ## Invariants of the tables -/

/-- The primary key of `users`: ids are pairwise distinct and below the next key. -/
def Db.UsersKeyed (db : Db) : Prop :=
  (db.users.map (fun u => u.id)).Nodup ∧ ∀ u ∈ db.users, u.id < db.nextUserId

instance (db : Db) : Decidable db.UsersKeyed := by
  unfold Db.UsersKeyed; infer_instance

/-- No two rows of `users` share an email. -/
def Db.EmailsUnique (db : Db) : Prop :=
  (db.users.map (fun u => u.email)).Nodup

instance (db : Db) : Decidable db.EmailsUnique := by
  unfold Db.EmailsUnique; infer_instance

/-- The user id in the payload of a signed token. -/
def Token.subject : Token → Option Nat
  | .jwt _ claims => some claims.user.id
  | .raw _ => none

/-- Every session row holds an access token issued for its own user. -/
def Db.SessionsOwnTokens (db : Db) : Prop :=
  ∀ s ∈ db.sessions, s.access_token.subject = some s.user_id

instance (db : Db) : Decidable db.SessionsOwnTokens := by
  unfold Db.SessionsOwnTokens; infer_instance

/-! ## Writes to the tables -/

/-- A call of one of the functions of the repository that write to a table: the three
services of users and passwords that call `update`, `createUser`, login and logout, and
the session renewal inside `authenticateToken`. -/
inductive Operation where
  | create (now : Nat) (salt : String) (data : CreateData) (user : Option User)
  | update (now : Nat) (updateId : Nat) (user : User) (data : UpdateData)
  | passwordChange (now : Nat) (salt : String) (userId : Nat) (data : ChangePasswordData)
  | resetMail (now : Nat) (delivered : Bool) (email : String)
  | passwordReset (now : Nat) (salt : String) (user : User) (new_password : String)
  | login (now : Nat) (data : LoginData)
  | logout (token : Token)
  | request (rol now : Nat) (req : Request)

/-- The stored state after one operation. -/
def applyOperation (env : Env) (bcrypt : Bcrypt) (db : Db) : Operation → Db
  | .create now salt data user => (createUser env bcrypt now salt db data user).2
  | .update now updateId user data => (updateUser now db updateId user data).2
  | .passwordChange now salt userId data => (changePassword env bcrypt now salt db userId data).2
  | .resetMail now delivered email => (sendPasswordResetEmail env now delivered db email).db
  | .passwordReset now salt user new_password =>
    (resetPassword env bcrypt now salt db user new_password).2
  | .login now data => (authenticateUser env bcrypt now db data).2
  | .logout token => (logoutUser db token).2
  | .request rol now req => (authenticateToken env rol now db req).db

/-- The stored state after a sequence of operations, first to last. -/
def applyOperations (env : Env) (bcrypt : Bcrypt) (db : Db) (ops : List Operation) : Db :=
  ops.foldl (applyOperation env bcrypt) db

/-- The operation is neither a reset mail sent in second `t0` nor an update whose data has
the key `reset_password_token` or `reset_password_token_used`. -/
def Operation.leavesResetColumns (t0 : Nat) : Operation → Bool
  | .update _ _ _ data =>
    data.reset_password_token.isNone && data.reset_password_token_used.isNone
  | .resetMail now _ _ => now != t0
  | _ => true

/-- No row with the key `id` holds `token` as an unused reset token. -/
def Db.ResetSpent (db : Db) (id : Nat) (token : Token) : Prop :=
  ∀ x ∈ db.users, x.id = id → x.reset_password_token = token →
    x.reset_password_token_used = true

instance (db : Db) (id : Nat) (token : Token) : Decidable (db.ResetSpent id token) := by
  unfold Db.ResetSpent; infer_instance

/-! ## Sample data -/

/-- An environment with three different secrets and maintenance mode off. -/
def sampleEnv : Env :=
  { JWT_SECRET := "access-key", JWT_REFRESH_SECRET := "refresh-key",
    JWT_RESET_PASSWORD_SECRET := "reset-key", MAINTENANCE_MODE := none, SALT_ROUNDS := none }

/-- The subject `{ id: 1, first_name: "Ana" }`. -/
def ana : TokenSubject := { id := 1, first_name := some "Ana" }

/-- A stored administrator (role 2) with id 2. -/
def admin : User :=
  { id := 2, email := "berta@example.com", password := "hash:Secreta123",
    first_name := "Berta", last_name := "Ruiz", role_id := 2, is_blocked := false,
    reset_password_token := .raw "", reset_password_token_used := false,
    created_by := some 2, updated_by := some 2, created_at := 0, updated_at := 0 }

/-- A stored guest (role 3) with id 3. -/
def guest : User :=
  { id := 3, email := "caro@example.com", password := "hash:Clave456",
    first_name := "Caro", last_name := "Paz", role_id := 3, is_blocked := false,
    reset_password_token := .raw "", reset_password_token_used := false,
    created_by := some 2, updated_by := some 2, created_at := 0, updated_at := 0 }

/-- A stand-in for `bcrypt` on the sample data: the hash of `data` is `hash:data`. -/
def sampleBcrypt : Bcrypt :=
  { hash := fun data _rounds _salt => "hash:" ++ data
    compare := fun data encrypted => "hash:" ++ data == encrypted }

/-- The session of the administrator opened at second 0 from `1.2.3.4` with `UA-X`. -/
def adminSession : Session :=
  { id := 1, user_id := 2, access_token := generateToken sampleEnv 0 admin.asSubject,
    refresh_token := generateRefreshToken sampleEnv 0 admin.asSubject,
    device_info := some "UA-X", ip_address := some "1.2.3.4", created_at := 0, updated_at := 0 }

/-- The session of the guest opened at second 0 from `5.6.7.8` with `UA-Y`. -/
def guestSession : Session :=
  { id := 2, user_id := 3, access_token := generateToken sampleEnv 0 guest.asSubject,
    refresh_token := generateRefreshToken sampleEnv 0 guest.asSubject,
    device_info := some "UA-Y", ip_address := some "5.6.7.8", created_at := 0, updated_at := 0 }

/-- A stored state with two users and one session each. -/
def sampleDb : Db :=
  { users := [admin, guest], sessions := [adminSession, guestSession],
    nextUserId := 4, nextSessionId := 3 }

/-- The administrator logging in from `1.2.3.4` with `UA-X`. -/
def adminLogin : LoginData :=
  { email := "berta@example.com", password := "Secreta123", ip_address := some "1.2.3.4",
    device_info := some "UA-X" }

/-- A request of the administrator at her stored session, without refresh token. -/
def adminRequest : Request :=
  { authorization := some [.raw "Bearer", adminSession.access_token]
    x_refresh_token := none, x_reset_token := none, user := none, rol := none }

/-- A request of the guest at her stored session, without refresh token. -/
def guestRequest : Request :=
  { authorization := some [.raw "Bearer", guestSession.access_token]
    x_refresh_token := none, x_reset_token := none, user := none, rol := none }

/-- A request of the administrator at her stored session, with its refresh token. -/
def adminRenewRequest : Request :=
  { adminRequest with x_refresh_token := some adminSession.refresh_token }

/-- A request presenting the reset token issued for the guest at second 100. -/
def resetRequest : Request :=
  { authorization := none, x_refresh_token := none
    x_reset_token := some (generateResetToken sampleEnv 100 guest.asSubject)
    user := none, rol := none }

/-- The row of the guest once that reset token has been stored. -/
def guestWithToken : User :=
  { guest with
    reset_password_token := generateResetToken sampleEnv 100 guest.asSubject
    reset_password_token_used := false, updated_at := 100 }

/-- A stored super administrator (role 1) with id 1. -/
def root : User :=
  { id := 1, email := "ana@example.com", password := "hash:Clave123",
    first_name := "Ana", last_name := "Sol", role_id := 1, is_blocked := false,
    reset_password_token := .raw "", reset_password_token_used := false,
    created_by := some 1, updated_by := some 1, created_at := 0, updated_at := 0 }

/-- The sample state with the super administrator added. -/
def fullDb : Db := { sampleDb with users := [root, admin, guest] }

/-- The guest of the sample state, blocked. -/
def blockedGuest : User := { guest with is_blocked := true }

/-- The sample state with the guest blocked. -/
def blockedDb : Db := { sampleDb with users := [admin, blockedGuest] }

/-- A request with no `Authorization` header. -/
def noHeaderRequest : Request :=
  { authorization := none, x_refresh_token := none, x_reset_token := none, user := none,
    rol := none }

/-- A request whose `Authorization` header is the scheme word alone. -/
def schemeOnlyRequest : Request :=
  { authorization := some [.raw "Bearer"], x_refresh_token := none, x_reset_token := none,
    user := none, rol := none }

/-- Stand-ins for the external functions on the sample data (plain ASCII text). -/
def sampleExternals : Externals :=
  { sanitizeHtml := fun s => s
    trim := fun s =>
      String.mk ((s.data.dropWhile Char.isWhitespace).reverse.dropWhile Char.isWhitespace).reverse
    toLowerCase := fun s => String.mk (s.data.map Char.toLower)
    isEmail := fun s => s.data.contains '@'
    integerOfString := fun s =>
      if s = "1" then some 1 else if s = "2" then some 2 else if s = "3" then some 3 else none
    iLike := fun value pattern => decide (value = pattern) }

/-- An update body with no key. -/
def emptyUpdate : UpdateData :=
  { email := none, password := none, first_name := none, last_name := none, role_id := none,
    is_blocked := none, reset_password_token := none, reset_password_token_used := none,
    created_by := none }

/-- A search query with no key. -/
def emptyQuery : UserQuery :=
  { page := none, limit := none, name := none, role_id := none, is_blocked := none }

/-- A creation body for a new user, asking for the role `role_id`. -/
def newUserBody (role_id : Option JsVal) : CreateBody :=
  { email := some (.str "Dora@Example.com "), password := some (.str "Abcd1234"),
    first_name := some (.str "Dora"), last_name := some (.str "Gil"), role_id := role_id }

/-- A stored state with no user. -/
def emptyDb : Db := { users := [], sessions := [], nextUserId := 1, nextSessionId := 1 }

/-- A second stored administrator (role 2) with id 4. -/
def admin2 : User :=
  { id := 4, email := "elsa@example.com", password := "hash:Otra7890",
    first_name := "Elsa", last_name := "Mar", role_id := 2, is_blocked := false,
    reset_password_token := .raw "", reset_password_token_used := false,
    created_by := some 1, updated_by := some 1, created_at := 0, updated_at := 0 }

/-- The sample state with the super administrator and the second administrator. -/
def adminsDb : Db := { sampleDb with users := [root, admin, guest, admin2], nextUserId := 5 }

/-- The validated creation data of a new user `Dora` with role `role_id`. -/
def doraData (role_id : Nat) : CreateData :=
  { email := "dora@example.com", password := "Abcd1234", first_name := "Dora",
    last_name := "Gil", role_id := role_id }

/-- An exception of a storage driver that carries a property `status` of its own. -/
def statusError : JsError :=
  { name := "ConnectionError", message := "connect ECONNREFUSED 10.0.0.5:5432",
    stack := "ConnectionError: connect ECONNREFUSED 10.0.0.5:5432\n    at pool.js:81",
    status := some 503, consoled := false }

/-- The call of `formatError` in the `catch` of `authenticateUser`. -/
def authCall : FormatCall :=
  { location := "authenticateUser-authService", status := 500, message := GENERAL.FAILURE }

/-- The sample state after the administrator logged in at second 50 from two devices: both
session rows hold the access token signed at second 50. -/
def twoDevicesDb : Db :=
  (authenticateUser sampleEnv sampleBcrypt 50
    (authenticateUser sampleEnv sampleBcrypt 50 sampleDb adminLogin).2
    { adminLogin with ip_address := some "9.9.9.9", device_info := some "UA-Z" }).2

/-- A request with the access token of the administrator signed at second 50. -/
def laterRequest : Request :=
  { adminRequest with
    authorization := some [.raw "Bearer", generateToken sampleEnv 50 admin.asSubject] }

/-- The sample state after a reset mail for the guest at second 100 and the reset of her
password at second `t1`. -/
def spentDb (t1 : Nat) : Db :=
  (resetPassword sampleEnv sampleBcrypt t1 "salt"
    (sendPasswordResetEmail sampleEnv 100 true sampleDb "caro@example.com").db
    guestWithToken "Nueva123").2

/-! ## Token codec: supporting lemmas -/

theorem verify_generate (now t0 : Nat) (u : TokenSubject) (key : String) (span : Nat)
    (h : now < t0 + span) :
    verify now (some (generate t0 u key span)) key
      = .ok { id := u.id, username := u.first_name } := by
  simp [verify, generate, jwtSign, jwtVerify, Nat.not_le.mpr h]

theorem verify_generate_other_key (now t0 : Nat) (u : TokenSubject) (key key2 : String)
    (span : Nat) (h : key ≠ key2) :
    verify now (some (generate t0 u key span)) key2 = .error .JsonWebTokenError := by
  simp [verify, generate, jwtSign, jwtVerify, h]

/-- On the renewal path `verifyToken` signs one access and one refresh token, both from the
decoded refresh payload, and returns without verifying either. -/
theorem verifyToken_renewal (env : Env) (now : Nat) (token refreshToken : Option Token)
    (p : UserPayload)
    (hexp : verify now token env.JWT_SECRET = .error .TokenExpiredError)
    (href : verify now refreshToken env.JWT_REFRESH_SECRET = .ok p) :
    verifyToken env now token refreshToken
      = .ok { user := p
              newToken := some (generateToken env now p.asSubject)
              newRefreshToken := some (generateRefreshToken env now p.asSubject) } := by
  simp [verifyToken, hexp, href]

/-- The pair signed on the renewal path verifies, each token under its own verifier, to the
id of the refresh payload with no `username`. -/
theorem verifyToken_renewal_identity (env : Env) (now : Nat) (p : UserPayload) :
    verifyToken env now (some (generateToken env now p.asSubject)) none
      = .ok { user := { id := p.id, username := none }, newToken := none,
              newRefreshToken := none }
    ∧ verifyRefreshToken env now (some (generateRefreshToken env now p.asSubject))
      = .ok { id := p.id, username := none } := by
  constructor
  · have hv := verify_generate now now p.asSubject env.JWT_SECRET oneHour
      (by simp [oneHour])
    simp only [verifyToken, generateToken, hv]
    rfl
  · have hv := verify_generate now now p.asSubject env.JWT_REFRESH_SECRET twoHours
      (by simp [twoHours])
    simp only [verifyRefreshToken, generateRefreshToken, hv]
    rfl

/-! ## Token codec: the claims -/

/-- C1, evaluated at the failing input. The access token of Ana (id 1), issued at second 0, is
presented at second 3600 (expired) with her refresh token of second 0 (still valid).
`verifyToken` returns her identity and one new pair, but the new tokens carry no `username`:
each verifies under its own verifier to the identity with id 1 and no name, which is not the
identity of the refresh token. -/
theorem verifyToken_renewal_drops_username :
    verifyToken sampleEnv 3600 (some (generateToken sampleEnv 0 ana))
        (some (generateRefreshToken sampleEnv 0 ana))
      = .ok { user := { id := 1, username := some "Ana" }
              newToken := some (.jwt "access-key"
                { user := { id := 1, username := none }, iat := 3600, exp := 7200 })
              newRefreshToken := some (.jwt "refresh-key"
                { user := { id := 1, username := none }, iat := 3600, exp := 10800 }) }
    ∧ verifyToken sampleEnv 3600 (some (.jwt "access-key"
          { user := { id := 1, username := none }, iat := 3600, exp := 7200 })) none
      = .ok { user := { id := 1, username := none }, newToken := none,
              newRefreshToken := none }
    ∧ verifyRefreshToken sampleEnv 3600 (some (.jwt "refresh-key"
          { user := { id := 1, username := none }, iat := 3600, exp := 10800 }))
      = .ok { id := 1, username := none }
    ∧ ({ id := 1, username := none } : UserPayload) ≠ { id := 1, username := some "Ana" } := by
  refine ⟨?_, ?_, ?_, ?_⟩
  · rfl
  · rfl
  · rfl
  · decide

/-- C2. `verifyToken` throws the error `Invalid or expired token`, so returns no identity and
no tokens, when the access token is malformed (any refresh token), when it is signed with
another key (any refresh token), and when it is expired and the refresh token is absent,
malformed, signed with another key, or expired. -/
theorem verifyToken_rejects (env : Env) (now : Nat) :
    (∀ text r, verifyToken env now (some (.raw text)) r = .error (JsError.new invalidOrExpired))
    ∧ (∀ key c r, key ≠ env.JWT_SECRET →
        verifyToken env now (some (.jwt key c)) r = .error (JsError.new invalidOrExpired))
    ∧ (∀ c, c.exp ≤ now →
        verifyToken env now (some (.jwt env.JWT_SECRET c)) none
          = .error (JsError.new invalidOrExpired))
    ∧ (∀ c text, c.exp ≤ now →
        verifyToken env now (some (.jwt env.JWT_SECRET c)) (some (.raw text))
          = .error (JsError.new invalidOrExpired))
    ∧ (∀ c key c2, c.exp ≤ now → key ≠ env.JWT_REFRESH_SECRET →
        verifyToken env now (some (.jwt env.JWT_SECRET c)) (some (.jwt key c2))
          = .error (JsError.new invalidOrExpired))
    ∧ (∀ c c2, c.exp ≤ now → c2.exp ≤ now →
        verifyToken env now (some (.jwt env.JWT_SECRET c))
            (some (.jwt env.JWT_REFRESH_SECRET c2))
          = .error (JsError.new invalidOrExpired)) := by
  refine ⟨?_, ?_, ?_, ?_, ?_, ?_⟩
  · intro text r
    simp [verifyToken, verify, jwtVerify]
  · intro key c r hkey
    simp [verifyToken, verify, jwtVerify, hkey]
  · intro c hc
    simp [verifyToken, verify, jwtVerify, hc]
  · intro c text hc
    simp [verifyToken, verify, jwtVerify, hc]
  · intro c key c2 hc hkey
    simp [verifyToken, verify, jwtVerify, hc, hkey]
  · intro c c2 hc hc2
    simp [verifyToken, verify, jwtVerify, hc, hc2]

/-- C2 at concrete tokens: a token signed with the reset key presented with a valid refresh
token, and an expired access token presented with an expired refresh token. -/
theorem verifyToken_rejects_witness :
    verifyToken sampleEnv 10 (some (generateResetToken sampleEnv 0 ana))
        (some (generateRefreshToken sampleEnv 0 ana))
      = .error (JsError.new invalidOrExpired)
    ∧ verifyToken sampleEnv 7200 (some (generateToken sampleEnv 0 ana))
        (some (generateRefreshToken sampleEnv 0 ana))
      = .error (JsError.new invalidOrExpired) :=
  ⟨(verifyToken_rejects sampleEnv 10).2.1 "reset-key" _ _ (by decide),
   (verifyToken_rejects sampleEnv 7200).2.2.2.2.2
     { user := { id := 1, username := some "Ana" }, iat := 0, exp := 3600 }
     { user := { id := 1, username := some "Ana" }, iat := 0, exp := 7200 }
     (by decide) (by decide)⟩

/-- C3. Within the validity window (one hour for access and reset tokens, two hours for
refresh tokens) each verifier returns exactly `{ id: u.id, username: u.first_name }` on the
token of its class; `verifyToken` does so with `newToken` and `newRefreshToken` null whatever
the refresh argument; and the token is a function of the id and first name alone, so no
other column of the user row (such as the role) is in it. -/
theorem token_round_trip (env : Env) (t0 now : Nat) (u : User) :
    (now < t0 + 3600 → ∀ r,
        verifyToken env now (some (generateToken env t0 u.asSubject)) r
          = .ok { user := { id := u.id, username := some u.first_name }
                  newToken := none, newRefreshToken := none })
    ∧ (now < t0 + 7200 →
        verifyRefreshToken env now (some (generateRefreshToken env t0 u.asSubject))
          = .ok { id := u.id, username := some u.first_name })
    ∧ (now < t0 + 3600 →
        verifyResetToken env now (some (generateResetToken env t0 u.asSubject))
          = .ok { id := u.id, username := some u.first_name })
    ∧ (∀ v : User, v.id = u.id → v.first_name = u.first_name →
        generateToken env t0 v.asSubject = generateToken env t0 u.asSubject
        ∧ generateRefreshToken env t0 v.asSubject = generateRefreshToken env t0 u.asSubject
        ∧ generateResetToken env t0 v.asSubject = generateResetToken env t0 u.asSubject) := by
  refine ⟨?_, ?_, ?_, ?_⟩
  · intro h r
    have hv := verify_generate now t0 u.asSubject env.JWT_SECRET oneHour h
    simp only [verifyToken, generateToken, hv]
    rfl
  · intro h
    have hv := verify_generate now t0 u.asSubject env.JWT_REFRESH_SECRET twoHours h
    simp only [verifyRefreshToken, generateRefreshToken, hv]
    rfl
  · intro h
    have hv := verify_generate now t0 u.asSubject env.JWT_RESET_PASSWORD_SECRET oneHour h
    simp only [verifyResetToken, generateResetToken, hv]
    rfl
  · intro v hid hname
    simp [User.asSubject, hid, hname]

/-- C3 at a concrete user: the tokens of the sample administrator issued at second 100 and
verified at second 3699. -/
theorem token_round_trip_witness :
    verifyToken sampleEnv 3699 (some (generateToken sampleEnv 100 admin.asSubject)) none
      = .ok { user := { id := 2, username := some "Berta" }
              newToken := none, newRefreshToken := none }
    ∧ verifyRefreshToken sampleEnv 3699
        (some (generateRefreshToken sampleEnv 100 admin.asSubject))
      = .ok { id := 2, username := some "Berta" }
    ∧ verifyResetToken sampleEnv 3699 (some (generateResetToken sampleEnv 100 admin.asSubject))
      = .ok { id := 2, username := some "Berta" } :=
  ⟨(token_round_trip sampleEnv 100 3699 admin).1 (by decide) none,
   (token_round_trip sampleEnv 100 3699 admin).2.1 (by decide),
   (token_round_trip sampleEnv 100 3699 admin).2.2.1 (by decide)⟩

/-- C4. When the three configured secrets are pairwise different, no token of one class
verifies as a token of another class: for every user, issue time, verification time and
refresh argument, a reset or refresh token presented as the access token makes `verifyToken`
throw, an access or reset token makes `verifyRefreshToken` throw, and an access or refresh
token makes `verifyResetToken` throw. -/
theorem token_classes_disjoint (env : Env) (t0 now : Nat) (u : TokenSubject)
    (h12 : env.JWT_SECRET ≠ env.JWT_REFRESH_SECRET)
    (h13 : env.JWT_SECRET ≠ env.JWT_RESET_PASSWORD_SECRET)
    (h23 : env.JWT_REFRESH_SECRET ≠ env.JWT_RESET_PASSWORD_SECRET) :
    (∀ r, verifyToken env now (some (generateResetToken env t0 u)) r
        = .error (JsError.new invalidOrExpired))
    ∧ (∀ r, verifyToken env now (some (generateRefreshToken env t0 u)) r
        = .error (JsError.new invalidOrExpired))
    ∧ verifyRefreshToken env now (some (generateToken env t0 u))
        = .error (JsError.new invalidOrExpired)
    ∧ verifyRefreshToken env now (some (generateResetToken env t0 u))
        = .error (JsError.new invalidOrExpired)
    ∧ verifyResetToken env now (some (generateToken env t0 u))
        = .error (JsError.new invalidOrExpired)
    ∧ verifyResetToken env now (some (generateRefreshToken env t0 u))
        = .error (JsError.new invalidOrExpired) := by
  refine ⟨?_, ?_, ?_, ?_, ?_, ?_⟩
  · intro r
    simp [verifyToken, generateResetToken, verify_generate_other_key _ _ _ _ _ _ (Ne.symm h13)]
  · intro r
    simp [verifyToken, generateRefreshToken,
      verify_generate_other_key _ _ _ _ _ _ (Ne.symm h12)]
  · simp [verifyRefreshToken, generateToken, verify_generate_other_key _ _ _ _ _ _ h12]
  · simp [verifyRefreshToken, generateResetToken,
      verify_generate_other_key _ _ _ _ _ _ (Ne.symm h23)]
  · simp [verifyResetToken, generateToken, verify_generate_other_key _ _ _ _ _ _ h13]
  · simp [verifyResetToken, generateRefreshToken, verify_generate_other_key _ _ _ _ _ _ h23]

/-- C4 in the sample environment, for tokens of Ana issued at second 0 and presented at
second 10 (the reset token together with a valid refresh token). -/
theorem token_classes_disjoint_witness :
    verifyToken sampleEnv 10 (some (generateResetToken sampleEnv 0 ana))
        (some (generateRefreshToken sampleEnv 0 ana))
      = .error (JsError.new invalidOrExpired)
    ∧ verifyRefreshToken sampleEnv 10 (some (generateToken sampleEnv 0 ana))
      = .error (JsError.new invalidOrExpired)
    ∧ verifyResetToken sampleEnv 10 (some (generateToken sampleEnv 0 ana))
      = .error (JsError.new invalidOrExpired) :=
  have h := token_classes_disjoint sampleEnv 0 10 ana (by decide) (by decide) (by decide)
  ⟨h.1 _, h.2.2.1, h.2.2.2.2.1⟩

/-! ## Authentication service: supporting lemmas -/

theorem filter_not_of_filter_length_eq_zero {α : Type} (p : α → Bool) (l : List α)
    (h : ¬ (l.filter p).length > 0) : l.filter (fun x => !p x) = l := by
  induction l with
  | nil => rfl
  | cons a l ih =>
    cases hp : p a with
    | true => simp [List.filter_cons, hp] at h
    | false =>
      simp only [List.filter_cons, hp, Bool.false_eq_true, if_false] at h
      simp [List.filter_cons, hp, ih h]

theorem filter_id_ne_eq_erase (l : List Session) (s : Session)
    (hnd : (l.map (fun x => x.id)).Nodup) (hs : s ∈ l) :
    l.filter (fun x => !decide (x.id = s.id)) = l.erase s := by
  induction l with
  | nil => cases hs
  | cons a l ih =>
    simp only [List.map_cons, List.nodup_cons, List.mem_map, not_exists, not_and] at hnd
    by_cases has : a = s
    · subst has
      have hrest : l.filter (fun x => !decide (x.id = a.id)) = l := by
        apply List.filter_eq_self.mpr
        intro x hx
        have := hnd.1 x hx
        simpa using this
      simp [List.filter_cons, hrest]
    · have hsl : s ∈ l := by
        rcases List.mem_cons.mp hs with h | h
        · exact absurd h.symm has
        · exact h
      have hid : a.id ≠ s.id := fun h => hnd.1 s hsl h.symm
      have hne : (a == s) = false := by simpa using has
      simp [List.filter_cons, hid, List.erase_cons, hne, ih hnd.2 hsl]

/-- What a successful login leaves in the table `sessions`. -/
theorem authenticateUser_ok (env : Env) (bcrypt : Bcrypt) (now : Nat) (db : Db)
    (data : LoginData) (u : User)
    (hfind : db.users.find? (fun x => decide (x.email = data.email)) = some u)
    (hpw : bcrypt.compare data.password u.password = true) :
    authenticateUser env bcrypt now db data
      = ({ status := 200, success := some true, message := none
           body := some { token := generateToken env now u.asSubject
                          refreshToken := generateRefreshToken env now u.asSubject } },
         { db with
           sessions :=
             db.sessions.filter (fun s => !sameDevice u.id (orElse data.ip_address "Desconocido")
               (orElse data.device_info "Desconocido") s) ++
             [{ id := db.nextSessionId, user_id := u.id
                access_token := generateToken env now u.asSubject
                refresh_token := generateRefreshToken env now u.asSubject
                device_info := some (orElse data.device_info "Desconocido")
                ip_address := some (orElse data.ip_address "Desconocido")
                created_at := now, updated_at := now }]
           nextSessionId := db.nextSessionId + 1 }) := by
  unfold authenticateUser
  simp only [hfind, hpw, Bool.not_true, Bool.false_eq_true, if_false]
  split
  · simp [Session.create, Session.destroyWhere, USER.AUTH_SUCCESS]
  · rename_i h
    simp [Session.create, USER.AUTH_SUCCESS, filter_not_of_filter_length_eq_zero _ _ h]

/-- Removing rows keeps the primary key of `sessions`. -/
theorem Session.destroyWhere_keyed (db : Db) (cond : Session → Bool) (h : db.SessionsKeyed) :
    (Session.destroyWhere db cond).SessionsKeyed := by
  constructor
  · exact List.Nodup.sublist (List.Sublist.map _ (List.filter_sublist _)) h.1
  · intro s hs
    exact h.2 s (List.mem_filter.mp hs).1

/-- Inserting a row with the next key keeps the primary key of `sessions`. -/
theorem Session.create_keyed (db : Db) (user_id : Nat) (a b : Token)
    (ip device : Option String) (now : Nat) (h : db.SessionsKeyed) :
    (Session.create db user_id a b ip device now).SessionsKeyed := by
  constructor
  · simp only [Session.create, List.map_append, List.map_cons, List.map_nil]
    apply List.Nodup.append h.1 (List.nodup_singleton _)
    intro i hi hi2
    simp only [List.mem_singleton] at hi2
    obtain ⟨s, hs, rfl⟩ := List.mem_map.mp hi
    have := h.2 s hs
    omega
  · intro s hs
    simp only [Session.create, List.mem_append, List.mem_singleton] at hs ⊢
    rcases hs with hs | hs
    · have := h.2 s hs
      omega
    · subst hs
      simp

/-- A login, successful or not, keeps the primary key of `sessions`. -/
theorem authenticateUser_keyed (env : Env) (bcrypt : Bcrypt) (now : Nat) (db : Db)
    (data : LoginData) (h : db.SessionsKeyed) :
    (authenticateUser env bcrypt now db data).2.SessionsKeyed := by
  cases hfind : db.users.find? (fun x => decide (x.email = data.email)) with
  | none => simpa [authenticateUser, hfind] using h
  | some u =>
    cases hpw : bcrypt.compare data.password u.password with
    | false => simpa [authenticateUser, hfind, hpw] using h
    | true =>
      rw [authenticateUser_ok env bcrypt now db data u hfind hpw]
      exact Session.create_keyed (Session.destroyWhere db _) u.id _ _ _ _ now
        (Session.destroyWhere_keyed db _ h)

/-- A logout keeps the primary key of `sessions`. -/
theorem logoutUser_keyed (db : Db) (token : Token) (h : db.SessionsKeyed) :
    (logoutUser db token).2.SessionsKeyed := by
  unfold logoutUser
  split
  · exact h
  · exact Session.destroyWhere_keyed db _ h

/-! ## Authentication service: the claims -/

/-- C5. A login whose email matches no user and a login whose email matches a user but whose
password does not match the stored hash get the same result, status 401 with success false
and `AUTH.INVALID_CREDENTIALS`, and the stored state (so every session) is left as it was. -/
theorem authenticateUser_invalid_credentials (env : Env) (bcrypt : Bcrypt) (now : Nat)
    (db : Db) (data : LoginData)
    (h : db.users.find? (fun x => decide (x.email = data.email)) = none
      ∨ ∃ u, db.users.find? (fun x => decide (x.email = data.email)) = some u
          ∧ bcrypt.compare data.password u.password = false) :
    authenticateUser env bcrypt now db data
      = ({ status := 401, success := some false, message := some AUTH.INVALID_CREDENTIALS,
           body := none }, db) := by
  rcases h with h | ⟨u, hu, hpw⟩
  · simp [authenticateUser, h]
  · simp [authenticateUser, hu, hpw]

/-- C5 on the sample state: an unknown email and a wrong password for a known email. -/
theorem authenticateUser_invalid_credentials_witness :
    authenticateUser sampleEnv sampleBcrypt 50 sampleDb
        { adminLogin with email := "nadie@example.com" }
      = ({ status := 401, success := some false, message := some AUTH.INVALID_CREDENTIALS,
           body := none }, sampleDb)
    ∧ authenticateUser sampleEnv sampleBcrypt 50 sampleDb
        { adminLogin with password := "otra" }
      = ({ status := 401, success := some false, message := some AUTH.INVALID_CREDENTIALS,
           body := none }, sampleDb) :=
  ⟨authenticateUser_invalid_credentials sampleEnv sampleBcrypt 50 sampleDb _ (Or.inl (by decide)),
   authenticateUser_invalid_credentials sampleEnv sampleBcrypt 50 sampleDb _
     (Or.inr ⟨admin, by decide, by decide⟩)⟩

/-- C6. A login with the email of a stored user and a password matching the stored hash
returns status 200 with the access and refresh token issued at that moment, and the table
`sessions` afterwards is the previous table without the rows of that user, ip and device
(absent ip or device counting as `Desconocido`), followed by one new row for that triple
holding the returned pair. Rows of other users, ips or devices stay, the table `users` is
untouched, exactly the new row matches the triple, and a second login with the same data
again leaves exactly one row for the triple. -/
theorem authenticateUser_success (env : Env) (bcrypt : Bcrypt) (now now2 : Nat) (db : Db)
    (data : LoginData) (u : User)
    (hfind : db.users.find? (fun x => decide (x.email = data.email)) = some u)
    (hpw : bcrypt.compare data.password u.password = true) :
    let ip := orElse data.ip_address "Desconocido"
    let device := orElse data.device_info "Desconocido"
    let token := generateToken env now u.asSubject
    let refreshToken := generateRefreshToken env now u.asSubject
    let created : Session :=
      { id := db.nextSessionId, user_id := u.id, access_token := token,
        refresh_token := refreshToken, device_info := some device, ip_address := some ip,
        created_at := now, updated_at := now }
    let run := authenticateUser env bcrypt now db data
    run.1 = { status := 200, success := some true, message := none,
              body := some { token := token, refreshToken := refreshToken } }
    ∧ run.2.sessions = db.sessions.filter (fun s => !sameDevice u.id ip device s) ++ [created]
    ∧ run.2.users = db.users
    ∧ run.2.sessions.filter (sameDevice u.id ip device) = [created]
    ∧ (∀ s ∈ db.sessions, sameDevice u.id ip device s = false → s ∈ run.2.sessions)
    ∧ ((authenticateUser env bcrypt now2 run.2 data).2.sessions.filter
        (sameDevice u.id ip device)).length = 1 := by
  intro ip device token refreshToken created run
  have h1 : run = _ := authenticateUser_ok env bcrypt now db data u hfind hpw
  have hfind2 : run.2.users.find? (fun x => decide (x.email = data.email)) = some u := by
    rw [h1]; exact hfind
  have h2 := authenticateUser_ok env bcrypt now2 run.2 data u hfind2 hpw
  have hcreated : sameDevice u.id ip device created = true := by
    simp [sameDevice, created]
  refine ⟨?_, ?_, ?_, ?_, ?_, ?_⟩
  · rw [h1]
  · rw [h1]
  · rw [h1]
  · rw [h1]
    simp only [List.filter_append, List.filter_filter]
    have : List.filter (fun a => sameDevice u.id ip device a && !sameDevice u.id ip device a)
        db.sessions = [] := by
      apply List.filter_eq_nil_iff.mpr
      intro a _
      cases sameDevice u.id ip device a <;> simp
    simp only [ip, device] at this
    rw [this]
    simpa [List.filter_cons] using hcreated
  · intro s hs hne
    rw [h1]
    apply List.mem_append_left
    exact List.mem_filter.mpr ⟨hs, by simp [hne]⟩
  · rw [h2]
    simp only [List.filter_append, List.filter_filter]
    have : ∀ l : List Session,
        List.filter (fun a => sameDevice u.id ip device a && !sameDevice u.id ip device a) l
          = [] := by
      intro l
      apply List.filter_eq_nil_iff.mpr
      intro a _
      cases sameDevice u.id ip device a <;> simp
    simp only [ip, device] at this
    rw [this]
    simp [List.filter_cons, sameDevice]

/-- C6 on the sample state: the administrator logs in at second 50 from the ip and device of
her stored session; that session is replaced and the session of the guest stays. -/
theorem authenticateUser_success_witness :
    (authenticateUser sampleEnv sampleBcrypt 50 sampleDb adminLogin).2.sessions
      = [guestSession,
         { id := 3, user_id := 2, access_token := generateToken sampleEnv 50 admin.asSubject,
           refresh_token := generateRefreshToken sampleEnv 50 admin.asSubject,
           device_info := some "UA-X", ip_address := some "1.2.3.4",
           created_at := 50, updated_at := 50 }] := by
  have h := (authenticateUser_success sampleEnv sampleBcrypt 50 60 sampleDb adminLogin admin
    (by decide) (by decide)).2.1
  rw [h]
  decide

/-- C7. On a table `sessions` with distinct ids: when no row has the given access token,
`logoutUser` returns status 404 with success false and `AUTH.SESSION_NOT_FOUND` and leaves the
stored state as it was; when some row has it, the first such row is removed, every other
row and the table `users` stay as they were, and the result is status 200 with success
true. -/
theorem logoutUser_spec (db : Db) (token : Token) (hkey : db.SessionsKeyed) :
    ((∀ s ∈ db.sessions, s.access_token ≠ token) →
      logoutUser db token
        = ({ status := 404, success := some false, message := some AUTH.SESSION_NOT_FOUND,
             body := none }, db))
    ∧ ((∃ s ∈ db.sessions, s.access_token = token) →
      ∃ s ∈ db.sessions, s.access_token = token
        ∧ db.sessions.find? (fun x => decide (x.access_token = token)) = some s
        ∧ (logoutUser db token).1
            = { status := 200, success := some true, message := some AUTH.LOGOUT_SUCCESS,
                body := none }
        ∧ (logoutUser db token).2.sessions = db.sessions.erase s
        ∧ s ∉ (logoutUser db token).2.sessions
        ∧ (∀ x ∈ db.sessions, x ≠ s → x ∈ (logoutUser db token).2.sessions)
        ∧ (logoutUser db token).2.users = db.users) := by
  constructor
  · intro hnone
    have : db.sessions.find? (fun x => decide (x.access_token = token)) = none := by
      apply List.find?_eq_none.mpr
      intro x hx
      simpa using hnone x hx
    simp [logoutUser, this]
  · rintro ⟨s0, hs0, ht0⟩
    cases hf : db.sessions.find? (fun x => decide (x.access_token = token)) with
    | none =>
      have := List.find?_eq_none.mp hf s0 hs0
      simp [ht0] at this
    | some s =>
      have hs : s ∈ db.sessions := List.mem_of_find?_eq_some hf
      have hts : s.access_token = token := by
        have := List.find?_some hf
        simpa using this
      have herase : (logoutUser db token).2.sessions = db.sessions.erase s := by
        simp only [logoutUser, hf, Session.destroy, Session.destroyWhere]
        exact filter_id_ne_eq_erase db.sessions s hkey.1 hs
      have hnd : db.sessions.Nodup := List.Nodup.of_map _ hkey.1
      refine ⟨s, hs, hts, rfl, ?_, herase, ?_, ?_, ?_⟩
      · simp [logoutUser, hf]
      · rw [herase]
        exact fun h => (List.Nodup.mem_erase_iff hnd).mp h |>.1 rfl
      · intro x hx hne
        rw [herase]
        exact (List.Nodup.mem_erase_iff hnd).mpr ⟨hne, hx⟩
      · simp [logoutUser, hf, Session.destroy, Session.destroyWhere]

/-- C7 on the sample state: logging out with an unknown token, and with the access token of
the administrator. -/
theorem logoutUser_spec_witness :
    logoutUser sampleDb (.raw "invalidToken")
      = ({ status := 404, success := some false, message := some AUTH.SESSION_NOT_FOUND,
           body := none }, sampleDb)
    ∧ ∃ s ∈ sampleDb.sessions,
        (logoutUser sampleDb adminSession.access_token).2.sessions = sampleDb.sessions.erase s :=
  ⟨(logoutUser_spec sampleDb (.raw "invalidToken") (by decide)).1 (by decide),
   let ⟨s, hs, _, _, _, he, _⟩ := (logoutUser_spec sampleDb adminSession.access_token
      (by decide)).2 ⟨adminSession, by decide, rfl⟩
   ⟨s, hs, he⟩⟩

/-! ## Request middlewares: supporting lemmas -/

/-- The role table read as an order: for roles 1 to 3, allowed means at most the required. -/
theorem roleAllowed_iff_le (rol role : Nat) (hrol : rol = 1 ∨ rol = 2 ∨ rol = 3)
    (hrole : role = 1 ∨ role = 2 ∨ role = 3) : roleAllowed rol role = true ↔ role ≤ rol := by
  rcases hrol with h | h | h <;> rcases hrole with h2 | h2 | h2 <;> subst h <;> subst h2 <;>
    decide

/-- What `verifyToken` can return: either no new token at all, or the pair signed on the
renewal path. -/
theorem verifyToken_ok_cases (env : Env) (now : Nat) (token refreshToken : Option Token)
    (result : VerifyResult) (h : verifyToken env now token refreshToken = .ok result) :
    (result.newToken = none ∧ result.newRefreshToken = none
      ∧ verify now token env.JWT_SECRET = .ok result.user)
    ∨ (result.newToken = some (generateToken env now result.user.asSubject)
      ∧ result.newRefreshToken = some (generateRefreshToken env now result.user.asSubject)
      ∧ verify now token env.JWT_SECRET = .error .TokenExpiredError
      ∧ verify now refreshToken env.JWT_REFRESH_SECRET = .ok result.user) := by
  unfold verifyToken at h
  cases h1 : verify now token env.JWT_SECRET with
  | ok user =>
    simp only [h1, Except.ok.injEq] at h
    subst h
    exact Or.inl ⟨rfl, rfl, rfl⟩
  | error e =>
    cases e with
    | JsonWebTokenError => simp [h1] at h
    | TokenExpiredError =>
      cases h2 : verify now refreshToken env.JWT_REFRESH_SECRET with
      | error e2 => simp [h1, h2] at h
      | ok user =>
        simp only [h1, h2, Except.ok.injEq] at h
        subst h
        exact Or.inr ⟨rfl, rfl, rfl, rfl⟩

/-- The middleware after its lookups succeeded, when the token needed no renewal. -/
theorem authenticateToken_plain (env : Env) (rol now : Nat) (db : Db) (req : Request)
    (token : Token) (result : VerifyResult) (userDb : User) (session : Session)
    (hmaint : env.MAINTENANCE_MODE ≠ some "true")
    (htoken : (req.authorization.bind (fun pieces => pieces[1]?)).filter Token.truthy
      = some token)
    (hverify : verifyToken env now (some token) req.x_refresh_token = .ok result)
    (huser : db.users.find? (fun u => decide (u.id = result.user.id)) = some userDb)
    (hsession : db.sessions.find?
      (fun s => decide (s.user_id = result.user.id) && decide (s.access_token = token))
      = some session)
    (hnew : result.newToken = none) :
    authenticateToken env rol now db req
      = if roleAllowed rol userDb.role_id then
          { outcome := .next, db := db
            req := { req with user := some userDb, rol := some userDb.role_id }
            resHeaders := [] }
        else respond db req 401 AUTH.UNAUTHORIZED := by
  unfold authenticateToken
  simp only [hmaint, if_false, htoken, hverify, huser, hsession, User.IsBlocked, hnew]
  cases roleAllowed rol userDb.role_id <;> simp

/-- The middleware after its lookups succeeded, when `verifyToken` returned a new pair. -/
theorem authenticateToken_renewed (env : Env) (rol now : Nat) (db : Db) (req : Request)
    (token : Token) (result : VerifyResult) (userDb : User) (session : Session)
    (newToken newRefreshToken : Token)
    (hmaint : env.MAINTENANCE_MODE ≠ some "true")
    (htoken : (req.authorization.bind (fun pieces => pieces[1]?)).filter Token.truthy
      = some token)
    (hverify : verifyToken env now (some token) req.x_refresh_token = .ok result)
    (huser : db.users.find? (fun u => decide (u.id = result.user.id)) = some userDb)
    (hsession : db.sessions.find?
      (fun s => decide (s.user_id = result.user.id) && decide (s.access_token = token))
      = some session)
    (hnew : result.newToken = some newToken)
    (hnewRefresh : result.newRefreshToken = some newRefreshToken) :
    authenticateToken env rol now db req
      = if roleAllowed rol userDb.role_id then
          { outcome := .next
            db := Session.update db session newToken newRefreshToken now
            req := { req with
              user := some userDb, rol := some userDb.role_id
              authorization := some [.raw "Bearer", newToken]
              x_refresh_token := some newRefreshToken }
            resHeaders :=
              [("x-new-token", .token newToken),
               ("x-new-refresh-token", .token newRefreshToken),
               ("x-user-permissions", .number userDb.role_id)] }
        else respond db req 401 AUTH.UNAUTHORIZED := by
  have htruthy : newToken.truthy = true := by
    rcases verifyToken_ok_cases env now _ _ result hverify with h | h
    · rw [h.1] at hnew; cases hnew
    · rw [h.1] at hnew
      cases hnew
      rfl
  unfold authenticateToken
  simp only [hmaint, if_false, htoken, hverify, huser, hsession, User.IsBlocked, hnew,
    hnewRefresh]
  cases roleAllowed rol userDb.role_id <;> simp [Option.filter, htruthy]

/-- The outcome of the role gate once token, user and session were found. -/
theorem authenticateToken_outcome (env : Env) (rol now : Nat) (db : Db) (req : Request)
    (token : Token) (result : VerifyResult) (userDb : User) (session : Session)
    (hmaint : env.MAINTENANCE_MODE ≠ some "true")
    (htoken : (req.authorization.bind (fun pieces => pieces[1]?)).filter Token.truthy
      = some token)
    (hverify : verifyToken env now (some token) req.x_refresh_token = .ok result)
    (huser : db.users.find? (fun u => decide (u.id = result.user.id)) = some userDb)
    (hsession : db.sessions.find?
      (fun s => decide (s.user_id = result.user.id) && decide (s.access_token = token))
      = some session) :
    (roleAllowed rol userDb.role_id = true →
      (authenticateToken env rol now db req).outcome = .next
      ∧ (authenticateToken env rol now db req).req.user = some userDb
      ∧ (authenticateToken env rol now db req).req.rol = some userDb.role_id)
    ∧ (roleAllowed rol userDb.role_id = false →
      authenticateToken env rol now db req = respond db req 401 AUTH.UNAUTHORIZED) := by
  rcases verifyToken_ok_cases env now _ _ result hverify with h | h
  · rw [authenticateToken_plain env rol now db req token result userDb session hmaint htoken
      hverify huser hsession h.1]
    constructor <;> intro hr <;> simp [hr]
  · rw [authenticateToken_renewed env rol now db req token result userDb session _ _ hmaint
      htoken hverify huser hsession h.1 h.2.1]
    constructor <;> intro hr <;> simp [hr]

/-! ## Request middlewares: the claims -/

/-- C8. With maintenance mode off, a token that `verifyToken` accepts (with or without
renewal), a stored user with the id of the token and a session for that id and token: for
required role `rol` and stored role `role_id`, both among 1, 2, 3, the request goes on to the
handler exactly when `role_id ≤ rol`, with `req.user` and `req.rol` taken from the stored
row; otherwise the answer is 401 `AUTH.UNAUTHORIZED` and nothing else changes. The decision
reads the stored row only: another request, at any time, whose token resolves to the same id
gets the same decision. -/
theorem authenticateToken_role_gate (env : Env) (rol now : Nat) (db : Db) (req : Request)
    (token : Token) (result : VerifyResult) (userDb : User) (session : Session)
    (hmaint : env.MAINTENANCE_MODE ≠ some "true")
    (htoken : (req.authorization.bind (fun pieces => pieces[1]?)).filter Token.truthy
      = some token)
    (hverify : verifyToken env now (some token) req.x_refresh_token = .ok result)
    (huser : db.users.find? (fun u => decide (u.id = result.user.id)) = some userDb)
    (hsession : db.sessions.find?
      (fun s => decide (s.user_id = result.user.id) && decide (s.access_token = token))
      = some session)
    (hrol : rol = 1 ∨ rol = 2 ∨ rol = 3)
    (hrole : userDb.role_id = 1 ∨ userDb.role_id = 2 ∨ userDb.role_id = 3) :
    ((authenticateToken env rol now db req).outcome = .next ↔ userDb.role_id ≤ rol)
    ∧ (userDb.role_id ≤ rol →
        (authenticateToken env rol now db req).req.user = some userDb
        ∧ (authenticateToken env rol now db req).req.rol = some userDb.role_id)
    ∧ (¬ userDb.role_id ≤ rol →
        authenticateToken env rol now db req = respond db req 401 AUTH.UNAUTHORIZED)
    ∧ (∀ (now2 : Nat) (req2 : Request) (token2 : Token) (result2 : VerifyResult)
        (session2 : Session),
        (req2.authorization.bind (fun pieces => pieces[1]?)).filter Token.truthy = some token2 →
        verifyToken env now2 (some token2) req2.x_refresh_token = .ok result2 →
        result2.user.id = result.user.id →
        db.sessions.find?
          (fun s => decide (s.user_id = result2.user.id) && decide (s.access_token = token2))
          = some session2 →
        ((authenticateToken env rol now2 db req2).outcome = .next
          ↔ (authenticateToken env rol now db req).outcome = .next)) := by
  have hgate : ∀ (now2 : Nat) (req2 : Request) (token2 : Token) (result2 : VerifyResult)
      (session2 : Session),
      (req2.authorization.bind (fun pieces => pieces[1]?)).filter Token.truthy = some token2 →
      verifyToken env now2 (some token2) req2.x_refresh_token = .ok result2 →
      result2.user.id = result.user.id →
      db.sessions.find?
        (fun s => decide (s.user_id = result2.user.id) && decide (s.access_token = token2))
        = some session2 →
      ((authenticateToken env rol now2 db req2).outcome = .next ↔ userDb.role_id ≤ rol) := by
    intro now2 req2 token2 result2 session2 ht hv hid hs
    have hu : db.users.find? (fun u => decide (u.id = result2.user.id)) = some userDb := by
      rw [hid]; exact huser
    have h := authenticateToken_outcome env rol now2 db req2 token2 result2 userDb session2
      hmaint ht hv hu hs
    rw [← roleAllowed_iff_le rol userDb.role_id hrol hrole]
    cases hr : roleAllowed rol userDb.role_id with
    | true => simp [(h.1 hr).1]
    | false => simp [h.2 hr, respond]
  have h := authenticateToken_outcome env rol now db req token result userDb session hmaint
    htoken hverify huser hsession
  have hle := roleAllowed_iff_le rol userDb.role_id hrol hrole
  refine ⟨hgate now req token result session htoken hverify rfl hsession, ?_, ?_, ?_⟩
  · intro hr
    exact (h.1 (hle.mpr hr)).2
  · intro hr
    apply h.2
    cases hq : roleAllowed rol userDb.role_id with
    | true => exact absurd (hle.mp hq) hr
    | false => rfl
  · intro now2 req2 token2 result2 session2 ht hv hid hs
    rw [hgate now2 req2 token2 result2 session2 ht hv hid hs,
      hgate now req token result session htoken hverify rfl hsession]

/-- C8 on the sample state at second 10: on a route requiring role 2 the administrator
(role 2) is passed on and the guest (role 3) is answered 401. -/
theorem authenticateToken_role_gate_witness :
    (authenticateToken sampleEnv 2 10 sampleDb adminRequest).outcome = .next
    ∧ authenticateToken sampleEnv 2 10 sampleDb guestRequest
      = respond sampleDb guestRequest 401 AUTH.UNAUTHORIZED :=
  ⟨(authenticateToken_role_gate sampleEnv 2 10 sampleDb adminRequest adminSession.access_token
      { user := { id := 2, username := some "Berta" }, newToken := none,
        newRefreshToken := none }
      admin adminSession (by decide) rfl rfl rfl rfl (by decide) (by decide)).1.mpr
      (by decide),
   (authenticateToken_role_gate sampleEnv 2 10 sampleDb guestRequest guestSession.access_token
      { user := { id := 3, username := some "Caro" }, newToken := none,
        newRefreshToken := none }
      guest guestSession (by decide) rfl rfl rfl rfl (by decide) (by decide)).2.2.1
      (by decide)⟩

/-- The row written by `session.update` is the only row changed, when ids are distinct. -/
theorem Session.update_sessions (db : Db) (session : Session) (a b : Token) (now : Nat)
    (hnd : (db.sessions.map (fun s => s.id)).Nodup) (hs : session ∈ db.sessions) :
    (Session.update db session a b now).sessions
      = db.sessions.map (fun s =>
          if s = session then
            { session with access_token := a, refresh_token := b, updated_at := now }
          else s) := by
  simp only [Session.update]
  apply List.map_congr_left
  intro s hsmem
  by_cases h : s = session
  · subst h
    simp
  · have hid : s.id ≠ session.id := fun hid => h (List.inj_on_of_nodup_map hnd hsmem hs hid)
    simp [h, hid]

/-- C9. On a table `sessions` with distinct ids. When the middleware renews silently
(`verifyToken` returned a new pair, user and session are found, the role gate passes), the
request goes on, the session found for (user id, presented token) is rewritten in place with
the new pair (its id, user, device and ip as before), every other row and the ids in the
table are as before, the table `users` is untouched, and the response headers are
`x-new-token`, `x-new-refresh-token` with the two tokens now stored in that row and
`x-user-permissions` with the stored role. In every other case the stored state is as before
and none of the three headers is set. -/
theorem authenticateToken_renewal_effects (env : Env) (rol now : Nat) (db : Db)
    (req : Request) (hkey : db.SessionsKeyed) :
    (∀ token result userDb session newToken newRefreshToken,
      SilentRenewal env rol now db req token result userDb session newToken newRefreshToken →
      (authenticateToken env rol now db req).outcome = .next
      ∧ (authenticateToken env rol now db req).db.sessions
          = db.sessions.map (fun s =>
              if s = session then
                { session with access_token := newToken, refresh_token := newRefreshToken,
                               updated_at := now }
              else s)
      ∧ ({ session with access_token := newToken, refresh_token := newRefreshToken,
                        updated_at := now } : Session)
          ∈ (authenticateToken env rol now db req).db.sessions
      ∧ (authenticateToken env rol now db req).db.sessions.map (fun s => s.id)
          = db.sessions.map (fun s => s.id)
      ∧ (∀ x ∈ db.sessions, x ≠ session →
          x ∈ (authenticateToken env rol now db req).db.sessions)
      ∧ (authenticateToken env rol now db req).db.users = db.users
      ∧ (authenticateToken env rol now db req).resHeaders
          = [("x-new-token", .token newToken), ("x-new-refresh-token", .token newRefreshToken),
             ("x-user-permissions", .number userDb.role_id)])
    ∧ ((¬ ∃ token result userDb session newToken newRefreshToken,
          SilentRenewal env rol now db req token result userDb session newToken
            newRefreshToken) →
      (authenticateToken env rol now db req).db = db
      ∧ ∀ h ∈ (authenticateToken env rol now db req).resHeaders,
          h.1 ≠ "x-new-token" ∧ h.1 ≠ "x-new-refresh-token" ∧ h.1 ≠ "x-user-permissions") := by
  constructor
  · rintro token result userDb session newToken newRefreshToken
      ⟨hmaint, htoken, hverify, hnew, hnewRefresh, huser, hsession, hallowed⟩
    have hrun := authenticateToken_renewed env rol now db req token result userDb session
      newToken newRefreshToken hmaint htoken hverify huser hsession hnew hnewRefresh
    simp only [hallowed, if_true] at hrun
    have hs : session ∈ db.sessions := List.mem_of_find?_eq_some hsession
    have hupd := Session.update_sessions db session newToken newRefreshToken now hkey.1 hs
    rw [hrun]
    refine ⟨rfl, hupd, ?_, ?_, ?_, rfl, rfl⟩
    · show _ ∈ (Session.update db session newToken newRefreshToken now).sessions
      rw [hupd]
      exact List.mem_map.mpr ⟨session, hs, by simp⟩
    · show List.map _ (Session.update db session newToken newRefreshToken now).sessions = _
      simp only [Session.update, List.map_map]
      apply List.map_congr_left
      intro s _
      by_cases h : s.id = session.id <;> simp [h]
    · intro x hx hne
      show _ ∈ (Session.update db session newToken newRefreshToken now).sessions
      rw [hupd]
      exact List.mem_map.mpr ⟨x, hx, by simp [hne]⟩
  · intro hno
    by_cases hmaint : env.MAINTENANCE_MODE = some "true"
    · simp [authenticateToken, hmaint]
    cases htoken : (req.authorization.bind (fun pieces => pieces[1]?)).filter Token.truthy with
    | none => simp [authenticateToken, hmaint, htoken]
    | some token =>
      cases hverify : verifyToken env now (some token) req.x_refresh_token with
      | error e =>
        by_cases he : e.message = invalidOrExpired <;>
          simp [authenticateToken, hmaint, htoken, hverify, he, respond]
      | ok result =>
        cases huser : db.users.find? (fun u => decide (u.id = result.user.id)) with
        | none => simp [authenticateToken, hmaint, htoken, hverify, huser, respond]
        | some userDb =>
          cases hsession : db.sessions.find?
            (fun s => decide (s.user_id = result.user.id) && decide (s.access_token = token))
            with
          | none =>
            simp [authenticateToken, hmaint, htoken, hverify, huser, hsession, respond,
              User.IsBlocked]
          | some session =>
            rcases verifyToken_ok_cases env now _ _ result hverify with h | h
            · rw [authenticateToken_plain env rol now db req token result userDb session
                hmaint htoken hverify huser hsession h.1]
              cases roleAllowed rol userDb.role_id <;> simp [respond]
            · rw [authenticateToken_renewed env rol now db req token result userDb session _ _
                hmaint htoken hverify huser hsession h.1 h.2.1]
              cases hallowed : roleAllowed rol userDb.role_id with
              | false => simp [respond]
              | true =>
                exact absurd ⟨token, result, userDb, session, _, _, hmaint, htoken, hverify,
                  h.1, h.2.1, huser, hsession, hallowed⟩ hno

/-- C9 on the sample state: at second 4000 the access token of the administrator has expired
and her refresh token has not; her session row is rewritten with the new pair, the row of
the guest stays, and the three headers are set. At second 10 nothing is renewed and the
stored state stays as it was. -/
theorem authenticateToken_renewal_effects_witness :
    (authenticateToken sampleEnv 2 4000 sampleDb adminRenewRequest).db.sessions
      = [{ adminSession with
           access_token := generateToken sampleEnv 4000 { id := 2, first_name := none }
           refresh_token := generateRefreshToken sampleEnv 4000 { id := 2, first_name := none }
           updated_at := 4000 }, guestSession]
    ∧ (authenticateToken sampleEnv 2 4000 sampleDb adminRenewRequest).resHeaders
      = [("x-new-token",
            .token (generateToken sampleEnv 4000 { id := 2, first_name := none })),
         ("x-new-refresh-token",
            .token (generateRefreshToken sampleEnv 4000 { id := 2, first_name := none })),
         ("x-user-permissions", .number 2)]
    ∧ (authenticateToken sampleEnv 2 10 sampleDb adminRequest).db = sampleDb := by
  have h := (authenticateToken_renewal_effects sampleEnv 2 4000 sampleDb adminRenewRequest
    (by decide)).1 adminSession.access_token
    { user := { id := 2, username := some "Berta" }
      newToken := some (generateToken sampleEnv 4000 { id := 2, first_name := none })
      newRefreshToken := some (generateRefreshToken sampleEnv 4000
        { id := 2, first_name := none }) }
    admin adminSession _ _ ⟨by decide, rfl, rfl, rfl, rfl, rfl, rfl, rfl⟩
  refine ⟨?_, h.2.2.2.2.2.2, ?_⟩
  · rw [h.2.1]
    decide
  · apply ((authenticateToken_renewal_effects sampleEnv 2 10 sampleDb adminRequest
      (by decide)).2 _).1
    rintro ⟨token, result, _, _, a, b, _, ht, hv, hn, _⟩
    have ht2 : adminSession.access_token = token := Option.some.inj ht
    subst ht2
    have hv2 : result.newToken = none := by
      rw [← Except.ok.inj hv]
    rw [hv2] at hn
    cases hn

/-! ## Password reset: supporting lemmas -/

theorem verifyResetToken_generate (env : Env) (t0 now : Nat) (u : TokenSubject) :
    verifyResetToken env now (some (generateResetToken env t0 u))
      = if t0 + oneHour ≤ now then .error (JsError.new invalidOrExpired)
        else .ok { id := u.id, username := u.first_name } := by
  by_cases h : t0 + oneHour ≤ now <;>
    simp [verifyResetToken, generateResetToken, verify, generate, jwtSign, jwtVerify, h]

theorem generateResetToken_truthy (env : Env) (t0 : Nat) (u : TokenSubject) :
    (generateResetToken env t0 u).truthy = true := rfl

/-- An instance update keeps a reset token spent when the values written keep it so. -/
theorem User.update_spent (db : Db) (user : User) (values : User → User) (now id : Nat)
    (t : Token) (hid : ∀ y, (values y).id = y.id)
    (hpres : ∀ y, (y.reset_password_token = t → y.reset_password_token_used = true) →
      (values y).reset_password_token = t → (values y).reset_password_token_used = true)
    (h : db.ResetSpent id t) : (User.update db user values now).ResetSpent id t := by
  intro x hx hxid hxt
  simp only [User.update, List.mem_map] at hx
  obtain ⟨y, hy, rfl⟩ := hx
  by_cases hyu : y.id = user.id
  · simp only [hyu, if_true] at hxid hxt ⊢
    have hyid : y.id = id := by rw [← hid y]; exact hxid
    exact hpres y (h y hy hyid) hxt
  · simp only [hyu, if_false] at hxid hxt ⊢
    exact h y hy hxid hxt

theorem authenticateUser_users (env : Env) (bcrypt : Bcrypt) (now : Nat) (db : Db)
    (data : LoginData) : (authenticateUser env bcrypt now db data).2.users = db.users := by
  cases hfind : db.users.find? (fun x => decide (x.email = data.email)) with
  | none => simp only [authenticateUser, hfind]
  | some u =>
    cases hpw : bcrypt.compare data.password u.password with
    | false => simp only [authenticateUser, hfind, hpw, Bool.not_false, if_true]
    | true => rw [authenticateUser_ok env bcrypt now db data u hfind hpw]

theorem logoutUser_users (db : Db) (token : Token) : (logoutUser db token).2.users = db.users := by
  unfold logoutUser
  cases db.sessions.find? (fun s => decide (s.access_token = token)) <;> rfl

theorem authenticateToken_users (env : Env) (rol now : Nat) (db : Db) (req : Request) :
    (authenticateToken env rol now db req).db.users = db.users := by
  unfold authenticateToken
  simp only []
  repeat' split
  all_goals rfl

/-- After `resetPassword(user, _)` no reset token of that user is unused. -/
theorem resetPassword_spent (env : Env) (bcrypt : Bcrypt) (now : Nat) (salt : String) (db : Db)
    (user : User) (p : String) (t : Token) :
    (resetPassword env bcrypt now salt db user p).2.ResetSpent user.id t := by
  intro x hx hxid _
  simp only [resetPassword, User.update, List.mem_map] at hx
  obtain ⟨y, _, rfl⟩ := hx
  by_cases hyu : y.id = user.id
  · simp [hyu]
  · simp only [hyu, if_false] at hxid

/-- A reset token issued in second `t0` that is spent stays spent through every operation
other than a reset mail in second `t0` and an update writing the two reset columns. -/
theorem applyOperation_spent (env : Env) (bcrypt : Bcrypt) (db : Db) (op : Operation)
    (t0 id : Nat) (subject : TokenSubject) (hop : op.leavesResetColumns t0 = true)
    (h : db.ResetSpent id (generateResetToken env t0 subject)) :
    (applyOperation env bcrypt db op).ResetSpent id (generateResetToken env t0 subject) := by
  cases op with
  | create now salt data user =>
    simp only [applyOperation, createUser]
    split
    · exact h
    · split
      · exact h
      · intro x hx hxid hxt
        simp only [List.mem_append, List.mem_singleton] at hx
        rcases hx with hx | hx
        · exact h x hx hxid hxt
        · subst hx
          simp [User.create, generateResetToken, generate, jwtSign] at hxt
  | update now updateId user data =>
    simp only [Operation.leavesResetColumns, Bool.and_eq_true, Option.isNone_iff_eq_none]
      at hop
    simp only [applyOperation, updateUser]
    split
    · exact h
    · split
      · exact h
      · split
        · exact h
        · split
          · exact h
          · refine User.update_spent _ _ _ _ _ _ ?_ ?_ h
            · intro y
              rfl
            · intro y hy hyt
              simp only [UpdateData.apply, hop.1, hop.2, Option.getD_none] at hyt ⊢
              exact hy hyt
  | passwordChange now salt userId data =>
    simp only [applyOperation, changePassword]
    split
    · exact h
    · split
      · exact h
      · refine User.update_spent _ _ _ _ _ _ ?_ ?_ h
        · intro y
          rfl
        · intro y hy hyt
          exact hy hyt
  | resetMail now delivered email =>
    have hne : now ≠ t0 := by simpa [Operation.leavesResetColumns] using hop
    simp only [applyOperation, sendPasswordResetEmail]
    split
    · exact h
    · have hup : ∀ user : User,
          (User.update db user (fun u => { u with
              reset_password_token := generateResetToken env now user.asSubject
              reset_password_token_used := false }) now).ResetSpent id
            (generateResetToken env t0 subject) := by
        intro user
        refine User.update_spent _ _ _ _ _ _ ?_ ?_ h
        · intro y
          rfl
        · intro y _ hyt
          simp [generateResetToken, generate, jwtSign, hne] at hyt
      cases delivered
      · exact hup _
      · exact hup _
  | passwordReset now salt user new_password =>
    refine User.update_spent _ _ _ _ _ _ ?_ ?_ h
    · intro y
      rfl
    · intro y _ _
      rfl
  | login now data =>
    intro x hx
    simp only [applyOperation, authenticateUser_users] at hx
    exact h x hx
  | logout token =>
    intro x hx
    simp only [applyOperation, logoutUser_users] at hx
    exact h x hx
  | request rol now req =>
    intro x hx
    simp only [applyOperation, authenticateToken_users] at hx
    exact h x hx

theorem applyOperations_spent (env : Env) (bcrypt : Bcrypt) (t0 id : Nat)
    (subject : TokenSubject) (ops : List Operation) :
    ∀ db : Db, (∀ op ∈ ops, op.leavesResetColumns t0 = true) →
      db.ResetSpent id (generateResetToken env t0 subject) →
      (applyOperations env bcrypt db ops).ResetSpent id (generateResetToken env t0 subject) := by
  induction ops with
  | nil => intro db _ h; exact h
  | cons op rest ih =>
    intro db hops h
    simp only [applyOperations, List.foldl_cons]
    exact ih _ (fun o ho => hops o (List.mem_cons_of_mem _ ho))
      (applyOperation_spent env bcrypt db op t0 id subject
        (hops op (List.mem_cons_self _ _)) h)

/-- A request presenting a spent reset token is answered 401 at every time. -/
theorem authenticateResetToken_spent (env : Env) (now : Nat) (db : Db) (req : Request)
    (t0 : Nat) (subject : TokenSubject)
    (hreq : req.x_reset_token = some (generateResetToken env t0 subject))
    (h : db.ResetSpent subject.id (generateResetToken env t0 subject)) :
    authenticateResetToken env now db req = respond db req 401 AUTH.RESET_INVALID := by
  unfold authenticateResetToken
  simp only [hreq, Option.filter, generateResetToken_truthy, if_true,
    verifyResetToken_generate]
  by_cases hexp : t0 + oneHour ≤ now
  · simp [hexp, JsError.new]
  · simp only [hexp, if_false]
    have hf : db.users.find? (fun x =>
          decide (x.id = subject.id)
            && decide (x.reset_password_token = generateResetToken env t0 subject)
            && decide (x.reset_password_token_used = false)) = none := by
      apply List.find?_eq_none.mpr
      intro x hx
      simp only [Bool.and_eq_true, decide_eq_true_eq, not_and, Bool.not_eq_false]
      intro hid
      exact h x hx hid.1 hid.2
    rw [hf]

/-! ## Password reset: the claim -/

/-- C10, the counterexample. The reset token issued for the guest at second 100 is used by
`resetPassword`, and a later request presenting it is passed on again: when the reset mail
is asked for again within second 100 (the same token is signed and stored unused), and when
the guest sends `{ reset_password_token_used: false }` for her own profile, which
`validateUserUpdate` lets through and `updateUser` stores. -/
theorem reset_token_passes_again :
    (resetPassword sampleEnv sampleBcrypt 100 "salt"
        (sendPasswordResetEmail sampleEnv 100 true sampleDb "caro@example.com").db
        guestWithToken "Nueva123").1.status = 200
    ∧ (authenticateResetToken sampleEnv 150
        (sendPasswordResetEmail sampleEnv 100 true (spentDb 100) "caro@example.com").db
        resetRequest).outcome = .next
    ∧ authenticateResetToken sampleEnv 300 (spentDb 200) resetRequest
      = respond (spentDb 200) resetRequest 401 AUTH.RESET_INVALID
    ∧ validateUserUpdate sampleExternals
        { emptyUpdate with reset_password_token_used := some false }
      = .next { emptyUpdate with reset_password_token_used := some false }
    ∧ (updateUser 250 (spentDb 200) guest.id guest
        { emptyUpdate with reset_password_token_used := some false }).1.status = 200
    ∧ (authenticateResetToken sampleEnv 300
        (updateUser 250 (spentDb 200) guest.id guest
          { emptyUpdate with reset_password_token_used := some false }).2
        resetRequest).outcome = .next := by
  refine ⟨rfl, by decide, by decide, rfl, rfl, by decide⟩

/-- C10, amended. (1) `authenticateResetToken` passes a request on only if its reset token verifies
under the reset secret and a stored user with the id of the token has that token as
`reset_password_token` with `reset_password_token_used` false; that row becomes `req.user`.
(2) When `sendPasswordResetEmail` finds user `u` at second `t0` it stores and returns the
token `t` issued for `u`, and a request presenting `t` within the hour is passed on.
(3) Once `resetPassword` has then run for that user, and after any sequence of later writes
to the tables among which there is no reset mail sent in the second `t0` of the issue and no
update whose data has `reset_password_token` or `reset_password_token_used`, a request
presenting `t` is answered 401 with `AUTH.RESET_INVALID` at every time, so it does not reach
the handler. -/
theorem reset_token_single_use (env : Env) (bcrypt : Bcrypt) :
    (∀ now db req, (authenticateResetToken env now db req).outcome = .next →
      ∃ token payload userDb, req.x_reset_token = some token
        ∧ verifyResetToken env now (some token) = .ok payload
        ∧ userDb ∈ db.users ∧ userDb.id = payload.id
        ∧ userDb.reset_password_token = token ∧ userDb.reset_password_token_used = false
        ∧ (authenticateResetToken env now db req).req.user = some userDb)
    ∧ (∀ t0 now db email u req,
        db.users.find? (fun x => decide (x.email = email)) = some u →
        req.x_reset_token = some (generateResetToken env t0 u.asSubject) →
        (sendPasswordResetEmail env t0 true db email).result
          = .ok { status := 200, success := some true, message := some USER.RESET_EMAIL_SENT,
                  body := some { resetToken := generateResetToken env t0 u.asSubject } }
        ∧ (now < t0 + 3600 → ∀ delivered,
            (authenticateResetToken env now (sendPasswordResetEmail env t0 delivered db email).db
              req).outcome = .next))
    ∧ (∀ t0 t1 now delivered salt db email u user p req (ops : List Operation),
        db.users.find? (fun x => decide (x.email = email)) = some u →
        user.id = u.id →
        req.x_reset_token = some (generateResetToken env t0 u.asSubject) →
        (∀ op ∈ ops, op.leavesResetColumns t0 = true) →
        authenticateResetToken env now
            (applyOperations env bcrypt
              (resetPassword env bcrypt t1 salt
                (sendPasswordResetEmail env t0 delivered db email).db user p).2 ops) req
          = respond
              (applyOperations env bcrypt
                (resetPassword env bcrypt t1 salt
                  (sendPasswordResetEmail env t0 delivered db email).db user p).2 ops)
              req 401 AUTH.RESET_INVALID) := by
  refine ⟨?_, ?_, ?_⟩
  · intro now db req hnext
    unfold authenticateResetToken at hnext
    cases htok : req.x_reset_token.filter Token.truthy with
    | none => simp [htok, respond] at hnext
    | some token =>
      have hreq : req.x_reset_token = some token := by
        cases hx : req.x_reset_token with
        | none => simp [hx] at htok
        | some t0 =>
          rw [hx] at htok
          simp only [Option.filter] at htok
          split at htok
          · exact htok
          · cases htok
      cases hver : verifyResetToken env now (some token) with
      | error e =>
        by_cases he : e.message = invalidOrExpired <;> simp [htok, hver, he, respond] at hnext
      | ok payload =>
        cases hfind : db.users.find? (fun u =>
            decide (u.id = payload.id) && decide (u.reset_password_token = token)
              && decide (u.reset_password_token_used = false)) with
        | none =>
          simp only [htok, hver, hfind] at hnext
          simp [respond] at hnext
        | some userDb =>
          have hmem : userDb ∈ db.users := List.mem_of_find?_eq_some hfind
          have hp := List.find?_some hfind
          simp only [Bool.and_eq_true, decide_eq_true_eq] at hp
          refine ⟨token, payload, userDb, hreq, hver, hmem, hp.1.1, hp.1.2, hp.2, ?_⟩
          simp only [authenticateResetToken, htok, hver, hfind]
  · intro t0 now db email u req hfind hreq
    constructor
    · simp [sendPasswordResetEmail, hfind]
    · intro hnow delivered
      have hmem : u ∈ db.users := List.mem_of_find?_eq_some hfind
      have hdb : (sendPasswordResetEmail env t0 delivered db email).db
          = User.update db u (fun x => { x with
              reset_password_token := generateResetToken env t0 u.asSubject
              reset_password_token_used := false }) t0 := by
        cases delivered <;> simp [sendPasswordResetEmail, hfind]
      rw [hdb]
      unfold authenticateResetToken
      have hnot : ¬ t0 + oneHour ≤ now := Nat.not_le.mpr hnow
      simp only [hreq, Option.filter, generateResetToken_truthy, if_true,
        verifyResetToken_generate, hnot, if_false]
      cases hf : (User.update db u (fun x => { x with
              reset_password_token := generateResetToken env t0 u.asSubject
              reset_password_token_used := false }) t0).users.find? (fun x =>
            decide (x.id = u.asSubject.id)
              && decide (x.reset_password_token = generateResetToken env t0 u.asSubject)
              && decide (x.reset_password_token_used = false)) with
      | some userDb => rfl
      | none =>
        exfalso
        have hall := List.find?_eq_none.mp hf
        have := hall _ (List.mem_map.mpr ⟨u, hmem, rfl⟩)
        simp [User.asSubject] at this
  · intro t0 t1 now delivered salt db email u user p req ops _ hid hreq hops
    apply authenticateResetToken_spent env now _ req t0 u.asSubject hreq
    apply applyOperations_spent env bcrypt t0 _ u.asSubject ops _ hops
    show Db.ResetSpent _ u.id _
    rw [← hid]
    exact resetPassword_spent env bcrypt t1 salt _ user p _

/-- C10 on the sample state: the reset token issued for the guest at second 100 is passed on
at second 150; after `resetPassword` at second 200, a login of the administrator at second
210 and a change of the first name of the guest at second 250, the same token is answered
401 at second 300. -/
theorem reset_token_single_use_witness :
    (authenticateResetToken sampleEnv 150
        (sendPasswordResetEmail sampleEnv 100 true sampleDb "caro@example.com").db
        resetRequest).outcome = .next
    ∧ authenticateResetToken sampleEnv 300
        (applyOperations sampleEnv sampleBcrypt
          (resetPassword sampleEnv sampleBcrypt 200 "salt"
            (sendPasswordResetEmail sampleEnv 100 true sampleDb "caro@example.com").db
            guestWithToken "Nueva123").2
          [.login 210 adminLogin,
           .update 250 3 guest { emptyUpdate with first_name := some "Carolina" }])
        resetRequest
      = respond
          (applyOperations sampleEnv sampleBcrypt
            (resetPassword sampleEnv sampleBcrypt 200 "salt"
              (sendPasswordResetEmail sampleEnv 100 true sampleDb "caro@example.com").db
              guestWithToken "Nueva123").2
            [.login 210 adminLogin,
             .update 250 3 guest { emptyUpdate with first_name := some "Carolina" }])
          resetRequest 401 AUTH.RESET_INVALID :=
  ⟨((reset_token_single_use sampleEnv sampleBcrypt).2.1 100 150 sampleDb "caro@example.com"
      guest resetRequest (by decide) rfl).2 (by decide) true,
   (reset_token_single_use sampleEnv sampleBcrypt).2.2 100 200 300 true "salt" sampleDb
      "caro@example.com" guest guestWithToken "Nueva123" resetRequest
      [.login 210 adminLogin,
       .update 250 3 guest { emptyUpdate with first_name := some "Carolina" }]
      (by decide) rfl rfl (by decide)⟩

/-! ## Blocked users and missing tokens: the claims -/

/-- The middleware passes a blocked user on: nothing in it reads the column `is_blocked`. -/
theorem authenticateToken_blocked_goes_on (env : Env) (rol now : Nat) (db : Db) (req : Request)
    (token : Token) (result : VerifyResult) (userDb : User) (session : Session)
    (hmaint : env.MAINTENANCE_MODE ≠ some "true")
    (htoken : (req.authorization.bind (fun pieces => pieces[1]?)).filter Token.truthy
      = some token)
    (hverify : verifyToken env now (some token) req.x_refresh_token = .ok result)
    (huser : db.users.find? (fun u => decide (u.id = result.user.id)) = some userDb)
    (hsession : db.sessions.find?
      (fun s => decide (s.user_id = result.user.id) && decide (s.access_token = token))
      = some session)
    (_hblocked : userDb.is_blocked = true)
    (hallowed : roleAllowed rol userDb.role_id = true) :
    (authenticateToken env rol now db req).outcome = .next :=
  ((authenticateToken_outcome env rol now db req token result userDb session hmaint htoken
    hverify huser hsession).1 hallowed).1

/-- C11, evaluated at the failing input. The guest of the sample state is blocked
(`is_blocked = true`), has a valid access token and a session; on a route requiring role 3
the middleware calls `next()` with her row as `req.user` instead of answering 401 with
`AUTH.BLOCKED`. -/
theorem authenticateToken_passes_blocked_user :
    blockedGuest.is_blocked = true
    ∧ (authenticateToken sampleEnv 3 10 blockedDb guestRequest).outcome = .next
    ∧ (authenticateToken sampleEnv 3 10 blockedDb guestRequest).req.user = some blockedGuest
    ∧ authenticateToken sampleEnv 3 10 blockedDb guestRequest
      ≠ respond blockedDb guestRequest 401 AUTH.BLOCKED := by
  refine ⟨rfl, rfl, rfl, ?_⟩
  intro h
  have h2 := congrArg MiddlewareRun.outcome h
  simp [respond] at h2
  exact absurd h2 (by decide)

/-- With maintenance mode off, a request that carries no token makes the middleware throw a
`ReferenceError`: the name `messages` is not bound in the file. -/
theorem authenticateToken_no_token (env : Env) (rol now : Nat) (db : Db) (req : Request)
    (hmaint : env.MAINTENANCE_MODE ≠ some "true")
    (htoken : (req.authorization.bind (fun pieces => pieces[1]?)).filter Token.truthy = none) :
    authenticateToken env rol now db req
      = { outcome := .threw { name := "ReferenceError", message := "messages is not defined",
                              stack := "ReferenceError: messages is not defined",
                              status := none, consoled := false }
          db := db, req := req, resHeaders := [] } := by
  unfold authenticateToken
  simp only [hmaint, if_false, htoken]

/-- C12, evaluated at the failing inputs. With maintenance mode off, a request without
`Authorization` header and a request whose header is the scheme word alone both make the
middleware throw a `ReferenceError`; no response with status 401 and `AUTH.NO_TOKEN` is
sent. -/
theorem authenticateToken_no_token_throws :
    (authenticateToken sampleEnv 3 10 sampleDb noHeaderRequest).outcome
      = .threw { name := "ReferenceError", message := "messages is not defined",
                 stack := "ReferenceError: messages is not defined",
                 status := none, consoled := false }
    ∧ (authenticateToken sampleEnv 3 10 sampleDb schemeOnlyRequest).outcome
      = .threw { name := "ReferenceError", message := "messages is not defined",
                 stack := "ReferenceError: messages is not defined",
                 status := none, consoled := false }
    ∧ authenticateToken sampleEnv 3 10 sampleDb noHeaderRequest
      ≠ respond sampleDb noHeaderRequest 401 AUTH.NO_TOKEN := by
  refine ⟨rfl, rfl, ?_⟩
  intro h
  have h2 := congrArg MiddlewareRun.outcome h
  exact absurd h2 (by decide)

/-! ## User updates: the claims -/

/-- A guest who names another id is refused before anything is read or written. -/
theorem updateUser_guest_other (now : Nat) (db : Db) (updateId : Nat) (user : User)
    (data : UpdateData) (hrole : user.role_id = 3) (hother : user.id ≠ updateId) :
    updateUser now db updateId user data
      = ({ status := 403, success := some false, message := some AUTH.UNAUTHORIZED,
           body := none }, db) := by
  simp [updateUser, hrole, hother]

/-- A body that only names a role among 1, 2, 3 passes `validateUserUpdate` unchanged,
whoever sends it: the schema chosen for 1 and 2 does not know `role_id`, and the one chosen
for 3 allows 3. -/
theorem validateUserUpdate_role_only (ext : Externals) (r : Nat)
    (hr : r = 1 ∨ r = 2 ∨ r = 3) :
    validateUserUpdate ext { emptyUpdate with role_id := some r }
      = .next { emptyUpdate with role_id := some r } := by
  rcases hr with h | h | h <;> subst h <;> rfl

/-- C13, evaluated at the failing inputs. The guest of the sample state (id 3, role 3) sends
`{ role_id: 1 }` for her own profile: `validateUserUpdate` calls `next()` with the body as it
came and `updateUser` answers 200 and stores role 1. The same happens with
`{ is_blocked: true }`, which is stored as well. -/
theorem guest_changes_own_role_and_block :
    guest.role_id = 3
    ∧ validateUserUpdate sampleExternals { emptyUpdate with role_id := some 1 }
      = .next { emptyUpdate with role_id := some 1 }
    ∧ (updateUser 20 sampleDb guest.id guest { emptyUpdate with role_id := some 1 }).1.status
      = 200
    ∧ (updateUser 20 sampleDb guest.id guest { emptyUpdate with role_id := some 1 }).2.users
      = [admin, { guest with role_id := 1, updated_by := some 3, updated_at := 20 }]
    ∧ validateUserUpdate sampleExternals { emptyUpdate with is_blocked := some true }
      = .next { emptyUpdate with is_blocked := some true }
    ∧ (updateUser 20 sampleDb guest.id guest { emptyUpdate with is_blocked := some true }).1.status
      = 200
    ∧ (updateUser 20 sampleDb guest.id guest { emptyUpdate with is_blocked := some true }).2.users
      = [admin, { guest with is_blocked := true, updated_by := some 3, updated_at := 20 }] := by
  refine ⟨rfl, rfl, rfl, rfl, rfl, rfl, rfl⟩

/-- C14, evaluated at the failing inputs. The administrator of the sample state (id 2,
role 2) sends `{ role_id: 1 }` for the guest (id 3): `validateUserUpdate` calls `next()` and
`updateUser` answers 200 and stores role 1 for the guest. Sent for her own record, the same
body makes herself a super administrator. -/
theorem admin_sets_role_superadmin :
    admin.role_id = 2
    ∧ validateUserUpdate sampleExternals { emptyUpdate with role_id := some 1 }
      = .next { emptyUpdate with role_id := some 1 }
    ∧ (updateUser 20 sampleDb guest.id admin { emptyUpdate with role_id := some 1 }).1.status
      = 200
    ∧ (updateUser 20 sampleDb guest.id admin { emptyUpdate with role_id := some 1 }).2.users
      = [admin, { guest with role_id := 1, updated_by := some 2, updated_at := 20 }]
    ∧ (updateUser 20 sampleDb admin.id admin { emptyUpdate with role_id := some 1 }).1.status
      = 200
    ∧ (updateUser 20 sampleDb admin.id admin { emptyUpdate with role_id := some 1 }).2.users
      = [{ admin with role_id := 1, updated_by := some 2, updated_at := 20 }, guest] := by
  refine ⟨rfl, rfl, rfl, rfl, rfl, rfl⟩

/-- What does hold of C14: an administrator is refused with 403, and nothing is written,
when the target is a super administrator or another administrator. -/
theorem updateUser_admin_refused (now : Nat) (db : Db) (updateId : Nat) (user target : User)
    (data : UpdateData) (hrole : user.role_id = 2)
    (hfind : db.users.find? (fun u => decide (u.id = updateId)) = some target)
    (htarget : target.role_id = 1 ∨ (target.role_id = 2 ∧ user.id ≠ updateId)) :
    updateUser now db updateId user data
      = ({ status := 403, success := some false, message := some AUTH.UNAUTHORIZED,
           body := none }, db) := by
  simp [updateUser, hrole, hfind, htarget]

/-- C15. For a requester with role 2, a target found by its id with role 1 and any update
data, `updateUser` returns status 403 with success false and `AUTH.UNAUTHORIZED`, and the
stored state, so every column of the target, is as before. -/
theorem updateUser_admin_on_superadmin (now : Nat) (db : Db) (updateId : Nat)
    (user target : User) (data : UpdateData) (hrole : user.role_id = 2)
    (hfind : db.users.find? (fun u => decide (u.id = updateId)) = some target)
    (htarget : target.role_id = 1) :
    updateUser now db updateId user data
      = ({ status := 403, success := some false, message := some AUTH.UNAUTHORIZED,
           body := none }, db) := by
  simp [updateUser, hrole, hfind, htarget]

/-- C15 on the sample state with the super administrator: the administrator tries to rename
her and to take her role. -/
theorem updateUser_admin_on_superadmin_witness :
    updateUser 20 fullDb 1 admin
        { emptyUpdate with first_name := some "Otra", role_id := some 3 }
      = ({ status := 403, success := some false, message := some AUTH.UNAUTHORIZED,
           body := none }, fullDb) :=
  updateUser_admin_on_superadmin 20 fullDb 1 admin root _ rfl rfl rfl

/-! ## Listing and reading users: the claims -/

/-- A guest gets 403 from `getAllUsers` whatever the query and the stored state. -/
theorem getAllUsers_guest (ext : Externals) (db : Db) (query : UserQuery) :
    getAllUsers ext db 3 query
      = .ok { status := 403, success := some false, message := some AUTH.UNAUTHORIZED,
              body := none } := by
  simp [getAllUsers]

/-- Without a `role_id` filter an administrator is shown and counted only rows with role 2
or 3. -/
theorem getAllUsers_admin_unfiltered (ext : Externals) (db : Db) (query : UserQuery)
    (result : Envelope UserPage) (page : UserPage) (hfilter : query.role_id = none)
    (hrun : getAllUsers ext db 2 query = .ok result) (hbody : result.body = some page) :
    (∀ u ∈ page.users, u.role_id = 2 ∨ u.role_id = 3)
    ∧ page.total = (db.users.filter (fun u =>
        (u.role_id = 2 ∨ u.role_id = 3) ∧ (whereCondition 2 query).holds ext u)).length := by
  unfold getAllUsers at hrun
  simp only [show (2 : Nat) ≠ 3 by decide, if_false] at hrun
  split at hrun
  · cases hrun
  · simp only [Except.ok.injEq] at hrun
    subst hrun
    simp only [Option.some.injEq] at hbody
    subst hbody
    have hrole : ∀ u, (whereCondition 2 query).holds ext u = true →
        u.role_id = 2 ∨ u.role_id = 3 := by
      intro u hu
      simp only [WhereCondition.holds, whereCondition, hfilter, Bool.and_eq_true] at hu
      have := hu.1.1
      simpa using this
    constructor
    · intro u hu
      have hmem := List.mem_of_mem_drop (List.mem_of_mem_take hu)
      exact hrole u (List.mem_filter.mp hmem).2
    · show (List.filter _ db.users).length = _
      congr 1
      apply List.filter_congr
      intro u _
      by_cases h : (whereCondition 2 query).holds ext u = true
      · simp [h, hrole u h]
      · simp [h]

/-- With no filter a super administrator selects every row: the count is the size of the
table and the rows are the requested page of it. -/
theorem getAllUsers_superadmin_unfiltered (ext : Externals) (db : Db) (page limit : Nat) :
    getAllUsers ext db 1
        { emptyQuery with page := some ((page : Int) + 1), limit := some (limit : Int) }
      = .ok { status := 200, success := some true, message := none
              body := some
                { users := (db.users.drop (page * limit)).take limit
                  total := db.users.length
                  page := (page : Int) + 1, limit := (limit : Int)
                  totalPages :=
                    if (limit : Int) = 0 then none
                    else some (((db.users.length : Int) + limit - 1) / limit) } } := by
  have hoff : ((page : Int) + 1 - 1) * (limit : Int) = ((page * limit : Nat) : Int) := by
    push_cast; ring
  have hnn : ¬ ((limit : Int) < 0 ∨ ((page : Int) + 1 - 1) * (limit : Int) < 0) := by
    rw [hoff]; omega
  have hall : db.users.filter ((whereCondition 1 emptyQuery).holds ext) = db.users := by
    apply List.filter_eq_self.mpr
    intro u _
    rfl
  have hw : whereCondition 1
      { emptyQuery with page := some ((page : Int) + 1), limit := some (limit : Int) }
      = whereCondition 1 emptyQuery := rfl
  unfold getAllUsers
  simp only [show (1 : Nat) ≠ 3 by decide, if_false, Option.getD_some, hw, hall]
  rw [if_neg hnn]
  simp only [hoff, Int.toNat_ofNat, USER.FOUND]

/-- C16, evaluated at the failing input. On the sample state with the super administrator,
an administrator (role 2) searching with the filter `role_id: 1` gets status 200 with the
row of the super administrator, counted in `total`: the filter replaces the restriction to
the roles 2 and 3. -/
theorem getAllUsers_admin_sees_superadmin :
    root.role_id = 1
    ∧ getAllUsers sampleExternals fullDb 2 { emptyQuery with role_id := some (.one 1) }
      = .ok { status := 200, success := some true, message := none
              body := some { users := [root], total := 1, page := 1, limit := 10,
                             totalPages := some 1 } }
    ∧ getAllUsers sampleExternals fullDb 2 { emptyQuery with role_id := some (.many [1, 2]) }
      = .ok { status := 200, success := some true, message := none
              body := some { users := [root, admin], total := 2, page := 1, limit := 10,
                             totalPages := some 1 } } := by
  refine ⟨rfl, rfl, rfl⟩

/-- C17. `getUserById` answers 403 to a guest asking for another id; 403 to an administrator
asking for a stored user with role 1; 404 to a requester not yet refused when no user has
the id; and 200 with a body in every other case: a guest on the own id, an administrator on
a target whose role is not 1, a super administrator on any stored user. -/
theorem getUserById_matrix (roles : List Role) (db : Db) (searchId : Nat) (user : User) :
    (user.role_id = 3 → user.id ≠ searchId →
      getUserById roles db searchId user
        = { status := 403, success := some false, message := some AUTH.UNAUTHORIZED,
            body := none })
    ∧ (user.role_id = 2 → ∀ row,
        db.users.find? (fun u => decide (u.id = searchId)) = some row → row.role_id = 1 →
        getUserById roles db searchId user
          = { status := 403, success := some false, message := some AUTH.UNAUTHORIZED,
              body := none })
    ∧ (¬ (user.role_id = 3 ∧ user.id ≠ searchId) →
        db.users.find? (fun u => decide (u.id = searchId)) = none →
        getUserById roles db searchId user
          = { status := 404, success := some false, message := some USER.NOT_FOUND,
              body := none })
    ∧ (∀ row, db.users.find? (fun u => decide (u.id = searchId)) = some row →
        (user.role_id = 3 ∧ user.id = searchId) ∨ (user.role_id = 2 ∧ row.role_id ≠ 1)
          ∨ user.role_id = 1 →
        (getUserById roles db searchId user).status = 200
        ∧ (getUserById roles db searchId user).success = some true
        ∧ (getUserById roles db searchId user).body.isSome = true) := by
  refine ⟨?_, ?_, ?_, ?_⟩
  · intro hrole hother
    simp [getUserById, hrole, hother]
  · intro hrole row hfind hrow
    simp [getUserById, hrole, hfind, hrow]
  · intro hnot hfind
    simp only [getUserById, hnot, if_false, hfind]
  · intro row hfind hcase
    rcases hcase with ⟨hrole, hown⟩ | ⟨hrole, hrow⟩ | hrole
    · simp [getUserById, hrole, hown, hfind]
    · simp [getUserById, hrole, hrow, hfind]
    · simp [getUserById, hrole, hfind]

/-- C17 on the sample state with the super administrator: the guest asks for the
administrator (403), the administrator for the super administrator (403), the super
administrator for an unknown id (404), and the administrator for the guest (200). -/
theorem getUserById_matrix_witness :
    (getUserById seededRoles fullDb 2 guest).status = 403
    ∧ (getUserById seededRoles fullDb 1 admin).status = 403
    ∧ (getUserById seededRoles fullDb 9 root).status = 404
    ∧ (getUserById seededRoles fullDb 3 admin).status = 200 :=
  ⟨by rw [(getUserById_matrix seededRoles fullDb 2 guest).1 rfl (by decide)],
   by rw [(getUserById_matrix seededRoles fullDb 1 admin).2.1 rfl root rfl rfl],
   by rw [(getUserById_matrix seededRoles fullDb 9 root).2.2.1 (by decide) rfl],
   ((getUserById_matrix seededRoles fullDb 3 admin).2.2.2 guest rfl
      (Or.inr (Or.inl ⟨rfl, by decide⟩))).1⟩

/-- C18. On success the body of `getUserById` holds, for a guest, exactly `first_name`,
`last_name` and `email` of the stored row; for an administrator these and `is_blocked`,
`created_by`, `updated_by` and the name of the role; for a super administrator the same and
the `id`. With the seeded roles the role name is that of the stored role. The stored
password is in no body: replacing every stored password changes no result. -/
theorem getUserById_projection (roles : List Role) (db : Db) (searchId : Nat)
    (user row : User)
    (hfind : db.users.find? (fun u => decide (u.id = searchId)) = some row) :
    (user.role_id = 3 → user.id = searchId →
      (getUserById roles db searchId user).body
        = some { id := none, first_name := row.first_name, last_name := row.last_name,
                 email := row.email, is_blocked := none, created_by := none,
                 updated_by := none, role := none })
    ∧ (user.role_id = 2 → row.role_id ≠ 1 →
      (getUserById roles db searchId user).body
        = some { id := none, first_name := row.first_name, last_name := row.last_name,
                 email := row.email, is_blocked := some row.is_blocked,
                 created_by := some row.created_by, updated_by := some row.updated_by,
                 role := some { role_name :=
                   (roles.find? (fun r => decide (r.id = row.role_id))).map (fun r => r.name) } })
    ∧ (user.role_id = 1 →
      (getUserById roles db searchId user).body
        = some { id := some row.id, first_name := row.first_name, last_name := row.last_name,
                 email := row.email, is_blocked := some row.is_blocked,
                 created_by := some row.created_by, updated_by := some row.updated_by,
                 role := some { role_name :=
                   (roles.find? (fun r => decide (r.id = row.role_id))).map (fun r => r.name) } })
    ∧ (∀ r ∈ seededRoles, r.id = row.role_id →
        (seededRoles.find? (fun x => decide (x.id = row.role_id))).map (fun x => x.name)
          = some r.name)
    ∧ (∀ password : String,
        getUserById roles
            { db with users := db.users.map (fun u => { u with password := password }) }
            searchId user
          = getUserById roles db searchId user) := by
  refine ⟨?_, ?_, ?_, ?_, ?_⟩
  · intro hrole hown
    simp [getUserById, hrole, hown, hfind]
  · intro hrole hrow
    simp [getUserById, hrole, hrow, hfind]
  · intro hrole
    simp [getUserById, hrole, hfind]
  · intro r hr hid
    simp only [seededRoles, List.mem_cons, List.mem_singleton, List.not_mem_nil,
      or_false] at hr
    rcases hr with h | h | h <;> subst h <;> rw [← hid] <;> rfl
  · intro password
    have hmap : (db.users.map (fun u => { u with password := password })).find?
        (fun u => decide (u.id = searchId))
        = some { row with password := password } := by
      rw [List.find?_map]
      have : ((fun u : User => decide (u.id = searchId)) ∘
          fun u : User => { u with password := password })
          = fun u => decide (u.id = searchId) := rfl
      rw [this, hfind]
      rfl
    simp only [getUserById, hmap, hfind]

/-- C18 on the sample state with the super administrator: what the guest reads of herself,
and what the administrator reads of her. -/
theorem getUserById_projection_witness :
    (getUserById seededRoles fullDb 3 guest).body
      = some { id := none, first_name := "Caro", last_name := "Paz",
               email := "caro@example.com", is_blocked := none, created_by := none,
               updated_by := none, role := none }
    ∧ (getUserById seededRoles fullDb 3 admin).body
      = some { id := none, first_name := "Caro", last_name := "Paz",
               email := "caro@example.com", is_blocked := some false,
               created_by := some (some 2), updated_by := some (some 2),
               role := some { role_name := some "Guest" } } :=
  ⟨(getUserById_projection seededRoles fullDb 3 guest guest rfl).1 rfl rfl,
   (getUserById_projection seededRoles fullDb 3 admin guest rfl).2.1 rfl (by decide)⟩

/-! ## User creation: supporting lemmas -/

/-- A role accepted by the rule of `role_id` is one of the allowed values. -/
theorem joiRole_mem (ext : Externals) (allowed : List Nat) (v : Option JsVal) (r : Nat)
    (h : joiRole ext allowed v = some r) : r ∈ allowed := by
  unfold joiRole at h
  split at h
  · split at h
    · rename_i hc
      cases h
      simpa using hc.2
    · cases h
  · split at h
    · split at h
      · rename_i hc
        cases h
        simpa using hc.2
      · cases h
    · cases h
  · cases h

/-- A value produced by a creation schema carries the converted fields. -/
theorem CreateSchema.validate_eq_some (ext : Externals) (schema : CreateSchema)
    (body : CreateBody) (data : CreateData) (h : schema.validate ext body = some data) :
    joiEmail ext body.email = some data.email
    ∧ joiPassword body.password = some data.password
    ∧ joiName ext body.first_name = some data.first_name
    ∧ joiName ext body.last_name = some data.last_name
    ∧ joiRole ext schema.roles body.role_id = some data.role_id := by
  unfold CreateSchema.validate at h
  split at h
  · rename_i h1 h2 h3 h4 h5
    cases h
    exact ⟨h1, h2, h3, h4, h5⟩
  · cases h

/-- A body whose five fields pass their rules is accepted with the converted fields. -/
theorem CreateSchema.validate_of_fields (ext : Externals) (schema : CreateSchema)
    (body : CreateBody) (email password first_name last_name : String) (role_id : Nat)
    (h1 : joiEmail ext body.email = some email)
    (h2 : joiPassword body.password = some password)
    (h3 : joiName ext body.first_name = some first_name)
    (h4 : joiName ext body.last_name = some last_name)
    (h5 : joiRole ext schema.roles body.role_id = some role_id) :
    schema.validate ext body
      = some { email := email, password := password, first_name := first_name,
               last_name := last_name, role_id := role_id } := by
  simp [CreateSchema.validate, h1, h2, h3, h4, h5]

/-- The body and schema `validateUserCreation` validates, by table size and caller. -/
theorem validateUserCreation_eq (ext : Externals) (db : Db) (rol : Option Nat)
    (body : CreateBody) :
    validateUserCreation ext db rol body
      = match
          (if db.users.length = 0 then
            firstUserSchema.validate ext
              { sanitizeInput ext body with role_id := some (.num 1) }
          else if !truthyNat rol then
            baseUserSchema.validate ext
              { sanitizeInput ext body with role_id := some (.num 3) }
          else if rol = some 2 then adminUserSchema.validate ext (sanitizeInput ext body)
          else if rol = some 1 then superAdminUserSchema.validate ext (sanitizeInput ext body)
          else baseUserSchema.validate ext (sanitizeInput ext body)) with
        | none => .badRequest
        | some value => .next value := by
  unfold validateUserCreation
  by_cases h0 : db.users.length = 0
  · simp only [h0, if_true]
  · by_cases h1 : (!truthyNat rol) = true
    · simp only [h0, h1, if_true, if_false]
    · by_cases h2 : rol = some 2
      · subst h2
        simp only [h0, if_false]
        rfl
      · by_cases h3 : rol = some 1
        · subst h3
          simp only [h0, if_false]
          rfl
        · simp only [h0, h1, h2, h3, if_false, Bool.false_eq_true]

/-- The validator for an administrator on a table that is not empty. -/
theorem validateUserCreation_admin (ext : Externals) (db : Db) (body : CreateBody)
    (hlen : db.users.length ≠ 0) :
    validateUserCreation ext db (some 2) body
      = match adminUserSchema.validate ext (sanitizeInput ext body) with
        | none => .badRequest
        | some value => .next value := by
  rw [validateUserCreation_eq, if_neg hlen]
  rfl

/-- The validator for a super administrator on a table that is not empty. -/
theorem validateUserCreation_superAdmin (ext : Externals) (db : Db) (body : CreateBody)
    (hlen : db.users.length ≠ 0) :
    validateUserCreation ext db (some 1) body
      = match superAdminUserSchema.validate ext (sanitizeInput ext body) with
        | none => .badRequest
        | some value => .next value := by
  rw [validateUserCreation_eq, if_neg hlen]
  rfl

/-- The validator without caller on a table that is not empty. -/
theorem validateUserCreation_anonymous (ext : Externals) (db : Db) (body : CreateBody)
    (hlen : db.users.length ≠ 0) :
    validateUserCreation ext db none body
      = match baseUserSchema.validate ext
          { sanitizeInput ext body with role_id := some (.num 3) } with
        | none => .badRequest
        | some value => .next value := by
  rw [validateUserCreation_eq, if_neg hlen]
  rfl

/-- The validator on an empty table, whoever calls. -/
theorem validateUserCreation_first (ext : Externals) (db : Db) (rol : Option Nat)
    (body : CreateBody) (hlen : db.users.length = 0) :
    validateUserCreation ext db rol body
      = match firstUserSchema.validate ext
          { sanitizeInput ext body with role_id := some (.num 1) } with
        | none => .badRequest
        | some value => .next value := by
  rw [validateUserCreation_eq, if_pos hlen]

/-- The rule of `role_id` on a number: accepted exactly when it is allowed. -/
theorem joiRole_num (ext : Externals) (allowed : List Nat) (role : Nat) :
    joiRole ext allowed (some (.num (role : Int)))
      = if allowed.contains role then some role else none := by
  simp [joiRole]

/-- What `createUser` does for a caller who is no guest, when the email is new. -/
theorem createUser_created (env : Env) (bcrypt : Bcrypt) (now : Nat) (salt : String) (db : Db)
    (data : CreateData) (user : Option User)
    (hcaller : user.map (fun u => u.role_id) ≠ some 3)
    (hnew : db.users.find? (fun u => decide (u.email = data.email)) = none) :
    createUser env bcrypt now salt db data user
      = ({ status := 201, success := some true, message := some USER.CREATED
           body := some (User.create db data.email
             (bcrypt.hash data.password (SALT_ROUNDS env) salt) data.first_name
             data.last_name data.role_id (callerId user) now) },
         { db with
           users := db.users ++ [User.create db data.email
             (bcrypt.hash data.password (SALT_ROUNDS env) salt) data.first_name
             data.last_name data.role_id (callerId user) now]
           nextUserId := db.nextUserId + 1 }) := by
  simp [createUser, hcaller, hnew]

/-! ## User creation: the claims -/

/-- C19. On a table `users` that is not empty: (1) `createUser` called by a guest returns
status 403 with success false and stores nothing; (2) a creation request of an administrator
that passes `validateUserCreation` carries role 3, and one whose `role_id` is absent or a
number other than 3 is answered 400 by the validator, so `createUser` is not called;
(3) a creation request of an administrator for role 3, or of a super administrator for a
role among 1, 2, 3, whose other fields pass their rules and whose email is new, passes the
validator and `createUser` answers 201 and adds one row with that role. -/
theorem creation_permissions (ext : Externals) (env : Env) (bcrypt : Bcrypt) (now : Nat)
    (salt : String) (db : Db) (hne : db.users ≠ []) :
    (∀ data user, user.role_id = 3 →
      createUser env bcrypt now salt db data (some user)
        = ({ status := 403, success := some false, message := some AUTH.UNAUTHORIZED,
             body := none }, db))
    ∧ (∀ body data, validateUserCreation ext db (some 2) body = .next data → data.role_id = 3)
    ∧ (∀ body, body.role_id = none ∨ (∃ n : Int, n ≠ 3 ∧ body.role_id = some (.num n)) →
        validateUserCreation ext db (some 2) body = .badRequest)
    ∧ (∀ (body : CreateBody) (user : User) (role : Nat)
        (email password first_name last_name : String),
        (user.role_id = 2 ∧ role = 3) ∨ (user.role_id = 1 ∧ (role = 1 ∨ role = 2 ∨ role = 3)) →
        body.role_id = some (.num (role : Int)) →
        joiEmail ext (sanitizeInput ext body).email = some email →
        joiPassword (sanitizeInput ext body).password = some password →
        joiName ext (sanitizeInput ext body).first_name = some first_name →
        joiName ext (sanitizeInput ext body).last_name = some last_name →
        db.users.find? (fun u => decide (u.email = email)) = none →
        validateUserCreation ext db (some user.role_id) body
          = .next { email := email, password := password, first_name := first_name,
                    last_name := last_name, role_id := role }
        ∧ (createUser env bcrypt now salt db
            { email := email, password := password, first_name := first_name,
              last_name := last_name, role_id := role } (some user)).1.status = 201
        ∧ ∃ created : User, created.role_id = role ∧ created.email = email
            ∧ (createUser env bcrypt now salt db
                { email := email, password := password, first_name := first_name,
                  last_name := last_name, role_id := role } (some user)).2.users
              = db.users ++ [created]) := by
  have hlen : db.users.length ≠ 0 := by
    intro h
    exact hne (List.length_eq_zero.mp h)
  refine ⟨?_, ?_, ?_, ?_⟩
  · intro data user hrole
    simp [createUser, hrole]
  · intro body data h
    rw [validateUserCreation_admin ext db body hlen] at h
    cases hv : adminUserSchema.validate ext (sanitizeInput ext body) with
    | none => simp [hv] at h
    | some value =>
      simp only [hv, Validated.next.injEq] at h
      subst h
      have := joiRole_mem ext _ _ _ (CreateSchema.validate_eq_some ext _ _ _ hv).2.2.2.2
      simpa [adminUserSchema] using this
  · intro body hbody
    rw [validateUserCreation_admin ext db body hlen]
    have hrole : joiRole ext adminUserSchema.roles (sanitizeInput ext body).role_id = none := by
      rcases hbody with h | ⟨n, hn, h⟩
      · simp [sanitizeInput, h, joiRole]
      · simp only [sanitizeInput, h, Option.map_some', sanitizeValue, joiRole, adminUserSchema]
        split
        · rename_i hc
          exfalso
          have h3 : n.toNat = 3 := by simpa using hc.2
          omega
        · rfl
    cases hv : adminUserSchema.validate ext (sanitizeInput ext body) with
    | none => rfl
    | some value =>
      have := (CreateSchema.validate_eq_some ext _ _ _ hv).2.2.2.2
      rw [hrole] at this
      cases this
  · intro body user role email password first_name last_name hcase hbody h1 h2 h3 h4 hnew
    have hsan : (sanitizeInput ext body).role_id = some (.num (role : Int)) := by
      simp [sanitizeInput, hbody, sanitizeValue]
    have hnotguest : (some user).map (fun u => u.role_id) ≠ some 3 := by
      rcases hcase with ⟨h, _⟩ | ⟨h, _⟩ <;> simp [h]
    have hcreate := createUser_created env bcrypt now salt db
      { email := email, password := password, first_name := first_name,
        last_name := last_name, role_id := role } (some user) hnotguest hnew
    refine ⟨?_, ?_, ?_⟩
    · rcases hcase with ⟨hu, hr⟩ | ⟨hu, hr⟩
      · subst hr
        have h5 : joiRole ext adminUserSchema.roles (sanitizeInput ext body).role_id
            = some 3 := by
          rw [hsan, joiRole_num]; rfl
        rw [hu, validateUserCreation_admin ext db body hlen,
          CreateSchema.validate_of_fields ext _ _ _ _ _ _ _ h1 h2 h3 h4 h5]
      · have h5 : joiRole ext superAdminUserSchema.roles (sanitizeInput ext body).role_id
            = some role := by
          rw [hsan, joiRole_num]
          rcases hr with h | h | h <;> subst h <;> rfl
        rw [hu, validateUserCreation_superAdmin ext db body hlen,
          CreateSchema.validate_of_fields ext _ _ _ _ _ _ _ h1 h2 h3 h4 h5]
    · rw [hcreate]
    · exact ⟨_, rfl, rfl, by rw [hcreate]⟩

/-- C19 on the sample state with the super administrator: the guest is refused by
`createUser`; the administrator asking for role 1 is answered 400 by the validator; the super
administrator asking for role 2 passes the validator and `createUser` answers 201. -/
theorem creation_permissions_witness :
    (createUser sampleEnv sampleBcrypt 30 "salt" fullDb
        { email := "dora@example.com", password := "Abcd1234", first_name := "Dora",
          last_name := "Gil", role_id := 3 } (some guest)).1.status = 403
    ∧ validateUserCreation sampleExternals fullDb (some 2) (newUserBody (some (.num 1)))
      = .badRequest
    ∧ validateUserCreation sampleExternals fullDb (some 1) (newUserBody (some (.num 2)))
      = .next { email := "dora@example.com", password := "Abcd1234", first_name := "Dora",
                last_name := "Gil", role_id := 2 }
    ∧ (createUser sampleEnv sampleBcrypt 30 "salt" fullDb
        { email := "dora@example.com", password := "Abcd1234", first_name := "Dora",
          last_name := "Gil", role_id := 2 } (some root)).1.status = 201 :=
  have h := creation_permissions sampleExternals sampleEnv sampleBcrypt 30 "salt" fullDb
    (by decide)
  have hsuper := h.2.2.2 (newUserBody (some (.num 2))) root 2 "dora@example.com" "Abcd1234"
    "Dora" "Gil" (Or.inr ⟨rfl, Or.inr (Or.inl rfl)⟩) rfl rfl rfl rfl rfl rfl
  ⟨by rw [h.1 _ guest rfl], h.2.2.1 _ (Or.inr ⟨1, by decide, rfl⟩), hsuper.1, hsuper.2.1⟩

/-- C20. For a creation request with no authenticated caller (`req.rol` undefined): when the
table `users` is empty every body that passes `validateUserCreation` goes on with role 1,
and when it is not empty with role 3; the outcome of the validator is the same whatever the
body holds under `role_id`, also nothing; and a body whose other four fields pass their
rules does pass, with that role. -/
theorem self_registration_role (ext : Externals) (db : Db) (body : CreateBody) :
    (db.users = [] → ∀ data,
      validateUserCreation ext db none body = .next data → data.role_id = 1)
    ∧ (db.users ≠ [] → ∀ data,
      validateUserCreation ext db none body = .next data → data.role_id = 3)
    ∧ (∀ requested : Option JsVal,
      validateUserCreation ext db none { body with role_id := requested }
        = validateUserCreation ext db none body)
    ∧ (∀ email password first_name last_name : String,
      joiEmail ext (sanitizeInput ext body).email = some email →
      joiPassword (sanitizeInput ext body).password = some password →
      joiName ext (sanitizeInput ext body).first_name = some first_name →
      joiName ext (sanitizeInput ext body).last_name = some last_name →
      validateUserCreation ext db none body
        = .next { email := email, password := password, first_name := first_name,
                  last_name := last_name, role_id := if db.users = [] then 1 else 3 }) := by
  refine ⟨?_, ?_, ?_, ?_⟩
  · intro hempty data h
    have hlen : db.users.length = 0 := by rw [hempty]; rfl
    rw [validateUserCreation_first ext db none body hlen] at h
    cases hv : firstUserSchema.validate ext
        { sanitizeInput ext body with role_id := some (.num 1) } with
    | none => simp [hv] at h
    | some value =>
      simp only [hv, Validated.next.injEq] at h
      subst h
      have := joiRole_mem ext _ _ _ (CreateSchema.validate_eq_some ext _ _ _ hv).2.2.2.2
      simpa [firstUserSchema] using this
  · intro hne data h
    have hlen : db.users.length ≠ 0 := fun h0 => hne (List.length_eq_zero.mp h0)
    rw [validateUserCreation_anonymous ext db body hlen] at h
    cases hv : baseUserSchema.validate ext
        { sanitizeInput ext body with role_id := some (.num 3) } with
    | none => simp [hv] at h
    | some value =>
      simp only [hv, Validated.next.injEq] at h
      subst h
      have := joiRole_mem ext _ _ _ (CreateSchema.validate_eq_some ext _ _ _ hv).2.2.2.2
      simpa [baseUserSchema] using this
  · intro requested
    by_cases hlen : db.users.length = 0
    · rw [validateUserCreation_first ext db none _ hlen,
        validateUserCreation_first ext db none body hlen]
      rfl
    · rw [validateUserCreation_anonymous ext db _ hlen,
        validateUserCreation_anonymous ext db body hlen]
      rfl
  · intro email password first_name last_name h1 h2 h3 h4
    by_cases hempty : db.users = []
    · have hlen : db.users.length = 0 := by rw [hempty]; rfl
      rw [validateUserCreation_first ext db none body hlen,
        CreateSchema.validate_of_fields ext firstUserSchema
          { sanitizeInput ext body with role_id := some (.num 1) } email password first_name
          last_name 1 h1 h2 h3 h4 (by simp [joiRole, firstUserSchema])]
      simp [hempty]
    · have hlen : db.users.length ≠ 0 := fun h0 => hempty (List.length_eq_zero.mp h0)
      rw [validateUserCreation_anonymous ext db body hlen,
        CreateSchema.validate_of_fields ext baseUserSchema
          { sanitizeInput ext body with role_id := some (.num 3) } email password first_name
          last_name 3 h1 h2 h3 h4 (by simp [joiRole, baseUserSchema])]
      simp [hempty]

/-- C20 on the sample data: a body asking for role 2 goes on with role 1 on the empty state
and with role 3 on the sample state. -/
theorem self_registration_role_witness :
    validateUserCreation sampleExternals emptyDb none (newUserBody (some (.num 2)))
      = .next { email := "dora@example.com", password := "Abcd1234", first_name := "Dora",
                last_name := "Gil", role_id := 1 }
    ∧ validateUserCreation sampleExternals sampleDb none (newUserBody (some (.num 2)))
      = .next { email := "dora@example.com", password := "Abcd1234", first_name := "Dora",
                last_name := "Gil", role_id := 3 } :=
  ⟨(self_registration_role sampleExternals emptyDb (newUserBody (some (.num 2)))).2.2.2
      "dora@example.com" "Abcd1234" "Dora" "Gil" rfl rfl rfl rfl,
   (self_registration_role sampleExternals sampleDb (newUserBody (some (.num 2)))).2.2.2
      "dora@example.com" "Abcd1234" "Dora" "Gil" rfl rfl rfl rfl⟩

/-! ## Passwords in results and unique emails: the claims -/

/-- C21, evaluated at the failing inputs. On the sample state with the super administrator:
`createUser` returns as body the new row with the stored hash of the password; `getAllUsers`
returns the rows with their stored hashes; `updateUser` with a `password` in the data
returns the row with that password as sent, which is also what it stores. -/
theorem services_return_password :
    (createUser sampleEnv sampleBcrypt 30 "salt" fullDb (doraData 2) (some root)).1.body.map
        (fun u => u.password) = some "hash:Abcd1234"
    ∧ getAllUsers sampleExternals fullDb 1 emptyQuery
      = .ok { status := 200, success := some true, message := none
              body := some { users := [root, admin, guest], total := 3, page := 1,
                             limit := 10, totalPages := some 1 } }
    ∧ [root, admin, guest].map (fun u => u.password)
      = ["hash:Clave123", "hash:Secreta123", "hash:Clave456"]
    ∧ (updateUser 20 fullDb 3 root { emptyUpdate with password := some "Nueva1234" }).1.body.map
        (fun u => u.password) = some "Nueva1234"
    ∧ ((updateUser 20 fullDb 3 root { emptyUpdate with password := some "Nueva1234" }).2.users.map
        (fun u => u.password)) = ["hash:Clave123", "hash:Secreta123", "Nueva1234"] := by
  refine ⟨rfl, rfl, rfl, rfl, rfl⟩

/-- Replacing in a table with distinct ids and distinct emails the email of the row with key
`id` by `e` keeps the emails distinct, when every holder of `e` has that key. -/
theorem nodup_emails_replace (l : List User) (id : Nat) (e : String)
    (hid : (l.map (fun u => u.id)).Nodup) (hem : (l.map (fun u => u.email)).Nodup)
    (hfresh : ∀ u ∈ l, u.email = e → u.id = id) :
    (l.map (fun u => if u.id = id then e else u.email)).Nodup := by
  induction l with
  | nil => simp
  | cons a l ih =>
    simp only [List.map_cons, List.nodup_cons, List.mem_map, not_exists, not_and] at hid hem ⊢
    refine ⟨?_, ih hid.2 hem.2 (fun u hu => hfresh u (List.mem_cons_of_mem _ hu))⟩
    intro u hu
    by_cases ha : a.id = id
    · have hu_id : u.id ≠ id := fun h => hid.1 u hu (h.trans ha.symm)
      simp only [ha, if_true, hu_id, if_false]
      intro h
      exact hu_id (hfresh u (List.mem_cons_of_mem _ hu) h)
    · simp only [ha, if_false]
      by_cases hui : u.id = id
      · simp only [hui, if_true]
        intro h
        exact ha (hfresh a (List.mem_cons_self _ _) h.symm)
      · simp only [hui, if_false]
        exact hem.1 u hu

/-- The emails of the table after `userToUpdate.update(data)` in `updateUser`. -/
theorem updateUser_emails (now : Nat) (db : Db) (target : User) (data : UpdateData)
    (by_ : Nat) (hid : (db.users.map (fun u => u.id)).Nodup) (hmem : target ∈ db.users) :
    (User.update db target (data.apply by_) now).users.map (fun u => u.email)
      = db.users.map (fun u =>
          if u.id = target.id then data.email.getD target.email else u.email) := by
  simp only [User.update, List.map_map]
  apply List.map_congr_left
  intro u hu
  by_cases h : u.id = target.id
  · have : u = target := List.inj_on_of_nodup_map hid hu hmem h
    subst this
    simp [UpdateData.apply]
  · simp [h]

/-- The keys of the table after an instance update are the keys before. -/
theorem User.update_ids (db : Db) (user : User) (values : User → User) (now : Nat)
    (hval : ∀ u, (values u).id = u.id) :
    (User.update db user values now).users.map (fun u => u.id)
      = db.users.map (fun u => u.id) := by
  simp only [User.update, List.map_map]
  apply List.map_congr_left
  intro u _
  by_cases h : u.id = user.id
  · simp [h, hval]
  · simp [h]

/-- A row found by `findByPk` is a row of the table with that key. -/
theorem find_id_spec (db : Db) (id : Nat) (u : User)
    (h : db.users.find? (fun u => decide (u.id = id)) = some u) : u ∈ db.users ∧ u.id = id :=
  ⟨List.mem_of_find?_eq_some h, by simpa using List.find?_some h⟩

/-- Without a conflict found by `emailTaken`, every holder of the email written by the update
is the updated row itself. -/
theorem emailTaken_false_holder (db : Db) (updateId : Nat) (target : User) (data : UpdateData)
    (huniq : db.EmailsUnique) (htarget : target ∈ db.users) (hid : target.id = updateId)
    (hne : data.email ≠ some "") (hfree : emailTaken db updateId target data = false) :
    ∀ u ∈ db.users, u.email = data.email.getD target.email → u.id = target.id := by
  intro u hu hemail
  have hinj := List.inj_on_of_nodup_map huniq
  cases hd : data.email with
  | none =>
    rw [hd] at hemail
    exact congrArg _ (hinj hu htarget hemail)
  | some e =>
    rw [hd] at hemail
    simp only [Option.getD_some] at hemail
    by_cases he : e = target.email
    · exact congrArg _ (hinj hu htarget (hemail.trans he))
    · have he0 : e ≠ "" := fun h => hne (by rw [hd, h])
      simp only [emailTaken, hd, he0, he, ne_eq, not_false_eq_true, and_self, if_true] at hfree
      cases hf : db.users.find? (fun u => decide (u.email = e)) with
      | none =>
        have := List.find?_eq_none.mp hf u hu
        simp [hemail] at this
      | some ex =>
        rw [hf] at hfree
        have hex : ex ∈ db.users := List.mem_of_find?_eq_some hf
        have hexe : ex.email = e := by simpa using List.find?_some hf
        have : u = ex := hinj hu hex (hemail.trans hexe.symm)
        subst this
        have : u.id = updateId := by simpa using hfree
        exact this.trans hid.symm

/-- C22. On a table with distinct keys below the next key and distinct emails: `createUser`
leaves the emails (and keys) distinct; `updateUser` with data whose email is not the empty
string leaves them distinct; `createUser` by a caller that is not a Guest with an email held
by a stored user returns 400 with success false and `USER.EXISTED_ERROR` and leaves the
state as it was; `updateUser` that passes the role checks, with a non-empty email other than
the one of the target and held by a user with another id, returns 409 with
`USER.EMAIL_EXIST` and leaves the state as it was. -/
theorem email_uniqueness_invariant (env : Env) (bcrypt : Bcrypt) (now : Nat) (salt : String)
    (db : Db) (hkey : db.UsersKeyed) (huniq : db.EmailsUnique) :
    (∀ data user, (createUser env bcrypt now salt db data user).2.EmailsUnique
        ∧ (createUser env bcrypt now salt db data user).2.UsersKeyed)
    ∧ (∀ updateId user data, data.email ≠ some "" →
        (updateUser now db updateId user data).2.EmailsUnique
        ∧ (updateUser now db updateId user data).2.UsersKeyed)
    ∧ (∀ data user held, user.map (fun u => u.role_id) ≠ some 3 → held ∈ db.users →
        held.email = data.email →
        createUser env bcrypt now salt db data user
          = ({ status := 400, success := some false, message := some USER.EXISTED_ERROR,
               body := none }, db))
    ∧ (∀ updateId user data target email held,
        ¬ (user.role_id = 3 ∧ user.id ≠ updateId) →
        db.users.find? (fun u => decide (u.id = updateId)) = some target →
        ¬ (user.role_id = 2 ∧
            (target.role_id = 1 ∨ (target.role_id = 2 ∧ user.id ≠ updateId))) →
        data.email = some email → email ≠ "" → email ≠ target.email →
        held ∈ db.users → held.email = email → held.id ≠ updateId →
        updateUser now db updateId user data
          = ({ status := 409, success := some false, message := some USER.EMAIL_EXIST,
               body := none }, db)) := by
  have hinj := List.inj_on_of_nodup_map huniq
  refine ⟨?_, ?_, ?_, ?_⟩
  · intro data user
    unfold createUser
    split
    · exact ⟨huniq, hkey⟩
    · split
      · exact ⟨huniq, hkey⟩
      · rename_i hnone
        have hfresh : ∀ u ∈ db.users, u.email ≠ data.email := by
          intro u hu
          simpa using List.find?_eq_none.mp hnone u hu
        constructor
        · simp only [Db.EmailsUnique, List.map_append, List.map_cons, List.map_nil]
          refine List.Nodup.append huniq (List.nodup_singleton _) ?_
          intro e he1 he2
          simp only [List.mem_map] at he1
          obtain ⟨u, hu, rfl⟩ := he1
          simp only [User.create, List.mem_singleton] at he2
          exact hfresh u hu he2
        · refine ⟨?_, ?_⟩
          · simp only [List.map_append, List.map_cons, List.map_nil]
            refine List.Nodup.append hkey.1 (List.nodup_singleton _) ?_
            intro i hi1 hi2
            simp only [List.mem_map] at hi1
            obtain ⟨u, hu, rfl⟩ := hi1
            simp only [User.create, List.mem_singleton] at hi2
            exact absurd (hkey.2 u hu) (by omega)
          · intro u hu
            simp only [List.mem_append, List.mem_singleton] at hu
            rcases hu with hu | hu
            · exact Nat.lt_succ_of_lt (hkey.2 u hu)
            · subst hu
              simp [User.create]
  · intro updateId user data hne
    unfold updateUser
    split
    · exact ⟨huniq, hkey⟩
    · split
      · exact ⟨huniq, hkey⟩
      · rename_i target hfind
        obtain ⟨htarget, hid⟩ := find_id_spec db updateId target hfind
        split
        · exact ⟨huniq, hkey⟩
        · split
          · exact ⟨huniq, hkey⟩
          · rename_i hfree
            have hfree' : emailTaken db updateId target data = false := by
              simpa using hfree
            have hids := User.update_ids db target (data.apply user.id) now
              (fun u => by simp [UpdateData.apply])
            refine ⟨?_, ?_, ?_⟩
            · show ((User.update db target (data.apply user.id) now).users.map
                (fun u => u.email)).Nodup
              rw [updateUser_emails now db target data user.id hkey.1 htarget]
              exact nodup_emails_replace db.users target.id _ hkey.1 huniq
                (emailTaken_false_holder db updateId target data huniq htarget hid hne hfree')
            · show ((User.update db target (data.apply user.id) now).users.map
                (fun u => u.id)).Nodup
              rw [hids]
              exact hkey.1
            · intro u hu
              have : u.id ∈ (User.update db target (data.apply user.id) now).users.map
                  (fun u => u.id) := List.mem_map_of_mem _ hu
              rw [hids, List.mem_map] at this
              obtain ⟨v, hv, hvu⟩ := this
              rw [← hvu]
              exact hkey.2 v hv
  · intro data user held hrole hheld hemail
    unfold createUser
    rw [if_neg hrole]
    cases hf : db.users.find? (fun u => decide (u.email = data.email)) with
    | none =>
      have := List.find?_eq_none.mp hf held hheld
      simp [hemail] at this
    | some ex => rfl
  · intro updateId user data target email held h1 hfind h2 hdata he0 het hheld hhe hhid
    unfold updateUser
    rw [if_neg h1]
    simp only [hfind]
    rw [if_neg h2]
    have htaken : emailTaken db updateId target data = true := by
      simp only [emailTaken, hdata, he0, het, ne_eq, not_false_eq_true, and_self, if_true]
      cases hf : db.users.find? (fun u => decide (u.email = email)) with
      | none =>
        have := List.find?_eq_none.mp hf held hheld
        simp [hhe] at this
      | some ex =>
        have hex : ex ∈ db.users := List.mem_of_find?_eq_some hf
        have hexe : ex.email = email := by simpa using List.find?_some hf
        have : held = ex := hinj hheld hex (hhe.trans hexe.symm)
        subst this
        simpa using hhid
    simp [htaken]

/-- The witness of C22 on the sample state with the super administrator: creating `Dora` keeps
the emails distinct, creating a user with the email of the guest gives 400, and giving the
administrator the email of the guest gives 409. -/
theorem email_uniqueness_invariant_witness :
    fullDb.UsersKeyed ∧ fullDb.EmailsUnique
    ∧ (createUser sampleEnv sampleBcrypt 30 "salt" fullDb (doraData 2) (some root)).2.EmailsUnique
    ∧ createUser sampleEnv sampleBcrypt 30 "salt" fullDb
        { doraData 2 with email := "caro@example.com" } (some root)
      = ({ status := 400, success := some false, message := some USER.EXISTED_ERROR,
           body := none }, fullDb)
    ∧ updateUser 20 fullDb 2 root { emptyUpdate with email := some "caro@example.com" }
      = ({ status := 409, success := some false, message := some USER.EMAIL_EXIST,
           body := none }, fullDb) :=
  have h := email_uniqueness_invariant sampleEnv sampleBcrypt 30 "salt" fullDb
    (by decide) (by decide)
  ⟨by decide, by decide, (h.1 (doraData 2) (some root)).1,
   h.2.2.1 { doraData 2 with email := "caro@example.com" } (some root) guest
     (by decide) (by decide) rfl,
   h.2.2.2 2 root { emptyUpdate with email := some "caro@example.com" } admin
     "caro@example.com" guest (by decide) rfl (by decide) rfl (by decide) (by decide)
     (by decide) rfl (by decide)⟩

/-! ## Password change and reset mail: the claims -/

/-- C23, the counterexample. A successful `changePassword` of the guest at second 20 changes
three fields of the row: `password`, `updated_by` and also `updated_at`, which was 0. -/
theorem changePassword_touches_updated_at :
    (changePassword sampleEnv sampleBcrypt 20 "salt" sampleDb 3
        { currentPassword := "Clave456", newPassword := "Nueva1234" }).1.status = 200
    ∧ (changePassword sampleEnv sampleBcrypt 20 "salt" sampleDb 3
        { currentPassword := "Clave456", newPassword := "Nueva1234" }).2.users
      = [admin, { guest with password := "hash:Nueva1234", updated_by := some 3,
                             updated_at := 20 }]
    ∧ guest.updated_at = 0
    ∧ { guest with password := "hash:Nueva1234", updated_by := some 3, updated_at := 20 }
      ≠ { guest with password := "hash:Nueva1234", updated_by := some 3 } := by
  refine ⟨rfl, rfl, rfl, by decide⟩

/-- C23, amended. On a table with distinct keys, `changePassword(userId, data)` at second
`now`: returns 404 with `USER.NOT_FOUND` and the state as it was when no row has the key;
returns 401 with `AUTH.INVALID_CREDENTIALS` and the state as it was when `bcrypt.compare`
rejects the current password; otherwise returns 200 and the state differs only in the row of
that user, where `password` is `bcrypt.hash` of the new password, `updated_by` is `userId`
and `updated_at` is `now`, every other field and every other row being as before. -/
theorem changePassword_spec (env : Env) (bcrypt : Bcrypt) (now : Nat) (salt : String) (db : Db)
    (userId : Nat) (data : ChangePasswordData)
    (hkey : (db.users.map (fun u => u.id)).Nodup) :
    (db.users.find? (fun u => decide (u.id = userId)) = none →
      changePassword env bcrypt now salt db userId data
        = ({ status := 404, success := some false, message := some USER.NOT_FOUND,
             body := none }, db))
    ∧ (∀ user, db.users.find? (fun u => decide (u.id = userId)) = some user →
        bcrypt.compare data.currentPassword user.password = false →
        changePassword env bcrypt now salt db userId data
          = ({ status := 401, success := some false, message := some AUTH.INVALID_CREDENTIALS,
               body := none }, db))
    ∧ (∀ user, db.users.find? (fun u => decide (u.id = userId)) = some user →
        bcrypt.compare data.currentPassword user.password = true →
        changePassword env bcrypt now salt db userId data
          = ({ status := 200, success := some true,
               message := some USER.PASSWORD_CHANGED_SUCCES, body := none },
             { db with
               users := db.users.map (fun u =>
                 if u = user then
                   { user with
                     password := bcrypt.hash data.newPassword (SALT_ROUNDS env) salt
                     updated_by := some userId
                     updated_at := now }
                 else u) })) := by
  refine ⟨?_, ?_, ?_⟩
  · intro hfind
    simp only [changePassword, hfind]
  · intro user hfind hpw
    simp only [changePassword, hfind, hpw, Bool.not_false, if_true]
  · intro user hfind hpw
    obtain ⟨hmem, hid⟩ := find_id_spec db userId user hfind
    simp only [changePassword, hfind, hpw, Bool.not_true, Bool.false_eq_true, if_false,
      User.update]
    refine Prod.ext rfl ?_
    show ({ db with users := _ } : Db) = { db with users := _ }
    congr 1
    apply List.map_congr_left
    intro u hu
    by_cases h : u.id = user.id
    · have hu' : u = user := List.inj_on_of_nodup_map hkey hu hmem h
      subst hu'
      simp [hid]
    · have hne : u ≠ user := fun e => h (by rw [e])
      simp [h, hne]

/-- The witness of C23 at the guest of the sample state. -/
theorem changePassword_spec_witness :
    (sampleDb.users.map (fun u => u.id)).Nodup
    ∧ changePassword sampleEnv sampleBcrypt 20 "salt" sampleDb 3
        { currentPassword := "Clave456", newPassword := "Nueva1234" }
      = ({ status := 200, success := some true,
           message := some USER.PASSWORD_CHANGED_SUCCES, body := none },
         { sampleDb with
           users := sampleDb.users.map (fun u =>
             if u = guest then
               { guest with
                 password := sampleBcrypt.hash "Nueva1234" (SALT_ROUNDS sampleEnv) "salt"
                 updated_by := some 3
                 updated_at := 20 }
             else u) }) :=
  ⟨by decide,
   (changePassword_spec sampleEnv sampleBcrypt 20 "salt" sampleDb 3
      { currentPassword := "Clave456", newPassword := "Nueva1234" } (by decide)).2.2
      guest rfl rfl⟩

/-- What `sendPasswordResetEmail` does for a stored email when the mail is accepted: the token
issued is stored on the rows with the key of the user with the flag lowered, one mail with
the token goes to the address, and the result is 200 with the token as `body.resetToken`. -/
theorem sendPasswordResetEmail_found (env : Env) (now : Nat) (db : Db) (email : String)
    (user : User) (hfind : db.users.find? (fun u => decide (u.email = email)) = some user) :
    (sendPasswordResetEmail env now true db email).result
      = .ok { status := 200, success := some true, message := some USER.RESET_EMAIL_SENT,
              body := some { resetToken := generateResetToken env now user.asSubject } }
    ∧ (sendPasswordResetEmail env now true db email).db
      = User.update db user (fun u =>
          { u with reset_password_token := generateResetToken env now user.asSubject
                   reset_password_token_used := false }) now
    ∧ (sendPasswordResetEmail env now true db email).sent.map (fun m => (m.to_, m.token))
      = [(email, generateResetToken env now user.asSubject)] := by
  simp only [sendPasswordResetEmail, hfind]
  exact ⟨rfl, rfl, rfl⟩

/-- C24, evaluated at the failing input. For an email no user has, the result of
`sendPasswordResetEmail` is status 404 with success false and no message at all (the key
`INVALID_EMAIL` read from `messages.AUTH` is not defined), so the response sent has no
`message`; no row changes and no mail is sent. -/
theorem sendPasswordResetEmail_unknown_no_message :
    (sendPasswordResetEmail sampleEnv 100 true sampleDb "unknown@email.com").result
      = .ok { status := 404, success := some false, message := none, body := none }
    ∧ serverResponse
        ({ status := 404, success := some false, message := AUTH.INVALID_EMAIL, body := none } :
          Envelope ResetBody)
      = { status := 404, json := .object false none none }
    ∧ (sendPasswordResetEmail sampleEnv 100 true sampleDb "unknown@email.com").db = sampleDb
    ∧ (sendPasswordResetEmail sampleEnv 100 true sampleDb "unknown@email.com").sent = [] := by
  refine ⟨rfl, rfl, rfl, rfl⟩

/-! ## Updates by an administrator and login by email: the claims -/

/-- C25, the counterexample. An administrator (id 2, role 2) updating only `first_name` of
another administrator (id 4, role 2) is answered 403 and nothing changes. -/
theorem admin_cannot_update_other_admin :
    admin.role_id = 2 ∧ admin2.role_id = 2 ∧ admin.id ≠ admin2.id
    ∧ updateUser 20 adminsDb 4 admin { emptyUpdate with first_name := some "Otro" }
      = ({ status := 403, success := some false, message := some AUTH.UNAUTHORIZED,
           body := none }, adminsDb) := by
  refine ⟨rfl, rfl, by decide, rfl⟩

/-- C25, amended. For a requester with role 2 and a stored target with key `updateId`: when
the target has role 3, or is the own record of the requester, and `emailTaken` finds no
conflict, `updateUser` returns 200 with the target after the data is applied, `updated_by`
being the id of the requester and `updated_at` the time, and stores that on the rows with the
key; when the target is another user with role 2 it returns 403 whatever the data and
nothing changes. -/
theorem updateUser_admin_permitted (now : Nat) (db : Db) (updateId : Nat) (user target : User)
    (data : UpdateData) (hrole : user.role_id = 2)
    (hfind : db.users.find? (fun u => decide (u.id = updateId)) = some target) :
    ((target.role_id = 3 ∨ (target.role_id = 2 ∧ user.id = updateId)) →
      emailTaken db updateId target data = false →
      updateUser now db updateId user data
        = ({ status := 200, success := some true, message := none,
             body := some { data.apply user.id target with updated_at := now } },
           User.update db target (data.apply user.id) now)
      ∧ (data.apply user.id target).updated_by = some user.id)
    ∧ (target.role_id = 2 → user.id ≠ updateId →
      updateUser now db updateId user data
        = ({ status := 403, success := some false, message := some AUTH.UNAUTHORIZED,
             body := none }, db)) := by
  refine ⟨?_, ?_⟩
  · intro hcase hfree
    refine ⟨?_, rfl⟩
    have h1 : ¬ (user.role_id = 3 ∧ user.id ≠ updateId) := by
      rw [hrole]
      simp
    have h2 : ¬ (user.role_id = 2 ∧
        (target.role_id = 1 ∨ (target.role_id = 2 ∧ user.id ≠ updateId))) := by
      rcases hcase with h | ⟨h, h'⟩
      · rw [h]
        simp
      · rw [h]
        simp [h']
    unfold updateUser
    rw [if_neg h1]
    simp only [hfind]
    rw [if_neg h2]
    simp [hfree, USER.UPDATED]
  · intro htr hne
    have h1 : ¬ (user.role_id = 3 ∧ user.id ≠ updateId) := by
      rw [hrole]
      simp
    unfold updateUser
    rw [if_neg h1]
    simp only [hfind]
    rw [if_pos ⟨hrole, Or.inr ⟨htr, hne⟩⟩]

/-- The witness of C25: the administrator renames the guest of the sample state. -/
theorem updateUser_admin_permitted_witness :
    admin.role_id = 2
    ∧ updateUser 20 fullDb 3 admin { emptyUpdate with first_name := some "Carolina" }
      = ({ status := 200, success := some true, message := none,
           body := some { guest with first_name := "Carolina", updated_by := some 2,
                                     updated_at := 20 } },
         { fullDb with
           users := [root, admin, { guest with first_name := "Carolina", updated_by := some 2,
                                               updated_at := 20 }] }) :=
  ⟨rfl,
   ((updateUser_admin_permitted 20 fullDb 3 admin guest
      { emptyUpdate with first_name := some "Carolina" } rfl rfl).1 (Or.inl rfl) rfl).1⟩

/-- C26, evaluated at the failing input. The stored administrator has the email
`berta@example.com` and the password `Secreta123`. `validateLoginRequest` passes the body
with the email `Berta@example.com` on as it is (for every library, the email passed on is the
one sent), `authenticateUser` then answers 401 with `AUTH.INVALID_CREDENTIALS` and opens no
session, while the login with the stored spelling answers 200. -/
theorem login_email_case_sensitive :
    validateLoginRequest sampleExternals
        { email := some (.str "Berta@example.com"), password := some (.str "Secreta123") }
      = .next { email := "Berta@example.com", password := "Secreta123" }
    ∧ authenticateUser sampleEnv sampleBcrypt 50 sampleDb
        (loginData { email := "Berta@example.com", password := "Secreta123" }
          (some "1.2.3.4") (some "UA-X"))
      = ({ status := 401, success := some false, message := some AUTH.INVALID_CREDENTIALS,
           body := none }, sampleDb)
    ∧ (authenticateUser sampleEnv sampleBcrypt 50 sampleDb
        (loginData { email := "berta@example.com", password := "Secreta123" }
          (some "1.2.3.4") (some "UA-X"))).1.status = 200
    ∧ (∀ (ext : Externals) (body : LoginRequestBody),
        validateLoginRequest ext body = .badRequest
        ∨ ∃ credentials, validateLoginRequest ext body = .next credentials
            ∧ body.email = some (.str credentials.email)) := by
  refine ⟨rfl, rfl, rfl, ?_⟩
  intro ext body
  unfold validateLoginRequest
  split
  · split
    · rename_i email password he _ _
      exact Or.inr ⟨_, rfl, he⟩
    · exact Or.inl rfl
  · exact Or.inl rfl

/-! ## Errors and responses: supporting lemmas -/

theorem formatError_consoled (e : JsError) (l : String) (s : Nat) (m : String) :
    (formatError e l s m).1.consoled = true := by
  unfold formatError
  cases h1 : truthyNat e.status <;> cases h2 : e.consoled <;> simp [h2]

theorem formatError_of_consoled (e : JsError) (l : String) (s : Nat) (m : String)
    (h : e.consoled = true) : (formatError e l s m).2 = [] := by
  unfold formatError
  cases h1 : truthyNat e.status <;> simp [h]

theorem formatError_tagged (e : JsError) (l : String) (s : Nat) (m : String)
    (h : truthyNat e.status = false) :
    (formatError e l s m).1.status = some s ∧ (formatError e l s m).1.message = m := by
  unfold formatError
  cases h2 : e.consoled <;> simp [h, h2]

theorem formatError_kept (e : JsError) (l : String) (s : Nat) (m : String)
    (h : truthyNat e.status = true) :
    (formatError e l s m).1.status = e.status ∧ (formatError e l s m).1.message = e.message := by
  unfold formatError
  cases h2 : e.consoled <;> simp [h, h2]

/-- An error with a status and already logged passes through `formatError` as it is. -/
theorem formatError_fixed (e : JsError) (l : String) (s : Nat) (m : String)
    (h : truthyNat e.status = true) (hc : e.consoled = true) : formatError e l s m = (e, []) := by
  unfold formatError
  simp [h, hc]

theorem formatErrors_of_consoled (calls : List FormatCall) :
    ∀ e : JsError, e.consoled = true → (formatErrors e calls).2 = [] := by
  induction calls with
  | nil => intro e _; rfl
  | cons call rest ih =>
    intro e h
    simp only [formatErrors]
    rw [formatError_of_consoled e _ _ _ h, ih _ (formatError_consoled e _ _ _)]
    rfl

theorem formatErrors_kept (calls : List FormatCall) :
    ∀ e : JsError, truthyNat e.status = true →
      (formatErrors e calls).1.status = e.status
      ∧ (formatErrors e calls).1.message = e.message := by
  induction calls with
  | nil => intro e _; exact ⟨rfl, rfl⟩
  | cons call rest ih =>
    intro e h
    have hk := formatError_kept e call.location call.status call.message h
    have hr := ih (formatError e call.location call.status call.message).1 (by rw [hk.1]; exact h)
    simp only [formatErrors]
    exact ⟨hr.1.trans hk.1, hr.2.trans hk.2⟩

theorem truthyNat_some (n : Nat) (h : n ≠ 0) : truthyNat (some n) = true := by
  simp [truthyNat, h]

/-! ## Errors and responses: the claims -/

/-- C27, the counterexample. An exception that carries a truthy `status` (503) keeps its own
message through `formatError` with the generic message, and `errorHandler` answers with
that original message. -/
theorem formatError_keeps_message_of_status_error :
    (errorHandler (formatError statusError "authenticateUser-authService" 500
        GENERAL.FAILURE).1).1
      = { status := 503,
          json := .object false (some "connect ECONNREFUSED 10.0.0.5:5432") none }
    ∧ statusError.message = "connect ECONNREFUSED 10.0.0.5:5432"
    ∧ statusError.message ≠ GENERAL.FAILURE
    ∧ statusError.message ≠ "Error interno del servidor" := by
  refine ⟨rfl, rfl, by decide, by decide⟩

/-- C27, amended. For an exception that carries no truthy `status`, passed through one or
more nested calls of `formatError` whose first call supplies a status other than 0 and a
message other than the empty string, `errorHandler` answers with that status and that
message; the message of the exception is not in the response. -/
theorem errorHandler_generic_message (e : JsError) (call : FormatCall) (rest : List FormatCall)
    (hstatus : truthyNat e.status = false) (hs : call.status ≠ 0) (hm : call.message ≠ "") :
    (errorHandler (formatErrors e (call :: rest)).1).1
      = { status := call.status, json := .object false (some call.message) none } := by
  have ht := formatError_tagged e call.location call.status call.message hstatus
  have htr : truthyNat (formatError e call.location call.status call.message).1.status
      = true := by
    rw [ht.1]
    exact truthyNat_some _ hs
  have hk := formatErrors_kept rest _ htr
  have h1 : (formatErrors e (call :: rest)).1.status = some call.status := by
    simp only [formatErrors]
    exact hk.1.trans ht.1
  have h2 : (formatErrors e (call :: rest)).1.message = call.message := by
    simp only [formatErrors]
    exact hk.2.trans ht.2
  simp only [errorHandler, serverResponse, h1, h2, truthyNat_some _ hs, if_true, if_neg hm,
    Option.getD_some]

/-- The witness of C27: a connection error without status thrown inside `authenticateUser`. -/
theorem errorHandler_generic_message_witness :
    truthyNat (JsError.new "connect ECONNREFUSED 10.0.0.5:5432").status = false
    ∧ (errorHandler (formatErrors (JsError.new "connect ECONNREFUSED 10.0.0.5:5432")
        [authCall]).1).1
      = { status := 500, json := .object false (some GENERAL.FAILURE) none } :=
  ⟨rfl, errorHandler_generic_message (JsError.new "connect ECONNREFUSED 10.0.0.5:5432")
    authCall [] rfl (by decide) (by decide)⟩

/-- C28. For a call `formatError(e, l1, s1, m1)` with `s1` other than 0: an error not yet
marked `consoled` is logged once (the line with the location and the error, and the stack);
an error marked `consoled` is not logged; the result is marked `consoled`; through any
further nested calls nothing more is logged; status and message become `s1` and `m1` when
the error carried no truthy status and stay as they were when it did; and a second call
`formatError(_, l2, s2, m2)` on the result returns it as it is and logs nothing. -/
theorem formatError_idempotent (e : JsError) (l1 l2 : String) (s1 s2 : Nat) (m1 m2 : String)
    (hs1 : s1 ≠ 0) :
    (e.consoled = false →
      (formatError e l1 s1 m1).2
        = ["❌ Error en " ++ l1 ++ ": " ++ e.name ++ ": " ++ (formatError e l1 s1 m1).1.message,
           e.stack])
    ∧ (e.consoled = true → (formatError e l1 s1 m1).2 = [])
    ∧ (formatError e l1 s1 m1).1.consoled = true
    ∧ (∀ rest : List FormatCall,
        (formatErrors e ({ location := l1, status := s1, message := m1 } :: rest)).2
          = (formatError e l1 s1 m1).2)
    ∧ (truthyNat e.status = false →
        (formatError e l1 s1 m1).1.status = some s1 ∧ (formatError e l1 s1 m1).1.message = m1)
    ∧ (truthyNat e.status = true →
        (formatError e l1 s1 m1).1.status = e.status
        ∧ (formatError e l1 s1 m1).1.message = e.message)
    ∧ formatError (formatError e l1 s1 m1).1 l2 s2 m2 = ((formatError e l1 s1 m1).1, []) := by
  refine ⟨?_, formatError_of_consoled e l1 s1 m1, formatError_consoled e l1 s1 m1, ?_,
    formatError_tagged e l1 s1 m1, formatError_kept e l1 s1 m1, ?_⟩
  · intro hc
    unfold formatError
    cases h1 : truthyNat e.status <;> simp [hc]
  · intro rest
    simp only [formatErrors]
    rw [formatErrors_of_consoled rest _ (formatError_consoled e l1 s1 m1)]
    simp
  · apply formatError_fixed _ _ _ _ _ (formatError_consoled e l1 s1 m1)
    cases h : truthyNat e.status with
    | true =>
      rw [(formatError_kept e l1 s1 m1 h).1]
      exact h
    | false =>
      rw [(formatError_tagged e l1 s1 m1 h).1]
      exact truthyNat_some _ hs1

/-- The witness of C28: a new error tagged in a service and again in a controller. -/
theorem formatError_idempotent_witness :
    (500 : Nat) ≠ 0
    ∧ formatError (formatError (JsError.new "boom") "authenticateUser-authService" 500
        GENERAL.FAILURE).1 "logIn-controller" 400 "otro"
      = ({ name := "Error", message := GENERAL.FAILURE, stack := "Error: boom",
           status := some 500, consoled := true }, []) :=
  ⟨by decide,
   (formatError_idempotent (JsError.new "boom") "authenticateUser-authService"
      "logIn-controller" 500 400 GENERAL.FAILURE "otro" (by decide)).2.2.2.2.2.2⟩

/-- C29, evaluated at the failing input. Without `success` the first argument of
`Object.assign` is `false`, and what is sent is the JSON value `false`: the `message` given
is not a key of an object. With `success` given, the JSON object has `success` and those of
`message` and `body` that are given, and the status code is only the HTTP status. -/
theorem serverResponse_without_success :
    serverResponse ({ status := 200, success := none, message := some "OK", body := none } :
        Envelope Unit)
      = { status := 200, json := .wrappedFalse }
    ∧ (∀ (β : Type) (status : Nat) (success : Bool) (message : Option String)
        (body : Option β),
        serverResponse { status := status, success := some success, message := message,
                         body := body }
          = { status := status, json := .object success message body }) := by
  exact ⟨rfl, fun _ _ _ _ _ => rfl⟩

/-! ## Sessions behind the middleware: supporting lemmas -/

theorem verify_generate_expired (now t0 : Nat) (u : TokenSubject) (key : String) (span : Nat)
    (h : t0 + span ≤ now) :
    verify now (some (generate t0 u key span)) key = .error .TokenExpiredError := by
  simp [verify, generate, jwtSign, jwtVerify, h]

/-- A token that `verify` accepts under a key carries the id it returns. -/
theorem verify_subject (now : Nat) (t : Token) (key : String) (p : UserPayload)
    (h : verify now (some t) key = .ok p) : t.subject = some p.id := by
  cases t with
  | raw text => simp [verify, jwtVerify] at h
  | jwt secret claims =>
    simp only [verify, jwtVerify] at h
    split at h
    · rename_i d hd
      split at hd
      · split at hd
        · cases hd
        · cases hd
          cases h
          rfl
      · cases hd
    · cases h

/-- Every error thrown by `verifyToken` has the one message of the verifiers. -/
theorem verifyToken_error (env : Env) (now : Nat) (token refreshToken : Option Token)
    (e : JsError) (h : verifyToken env now token refreshToken = .error e) :
    e.message = invalidOrExpired := by
  unfold verifyToken at h
  cases h1 : verify now token env.JWT_SECRET with
  | ok user => simp [h1] at h
  | error e1 =>
    cases e1 with
    | JsonWebTokenError =>
      simp only [h1, Except.error.injEq] at h
      rw [← h]
      rfl
    | TokenExpiredError =>
      cases h2 : verify now refreshToken env.JWT_REFRESH_SECRET with
      | ok user => simp [h1, h2] at h
      | error e2 =>
        simp only [h1, h2, Except.error.injEq] at h
        rw [← h]
        rfl

/-- A request is passed on only after a session row for the resolved id and the presented
token was found. -/
theorem authenticateToken_next_session (env : Env) (rol now : Nat) (db : Db) (req : Request)
    (token : Token)
    (htoken : (req.authorization.bind (fun pieces => pieces[1]?)).filter Token.truthy
      = some token)
    (h : (authenticateToken env rol now db req).outcome = .next) :
    ∃ result session, verifyToken env now (some token) req.x_refresh_token = .ok result
      ∧ session ∈ db.sessions ∧ session.user_id = result.user.id
      ∧ session.access_token = token := by
  unfold authenticateToken at h
  simp only [htoken] at h
  by_cases hm : env.MAINTENANCE_MODE = some "true"
  · simp [hm] at h
  · simp only [hm, if_false] at h
    cases hv : verifyToken env now (some token) req.x_refresh_token with
    | error e =>
      simp only [hv] at h
      split at h <;> simp [respond] at h
    | ok result =>
      simp only [hv] at h
      cases hu : db.users.find? (fun u => decide (u.id = result.user.id)) with
      | none => simp [hu, respond] at h
      | some userDb =>
        simp only [hu] at h
        cases hs : db.sessions.find?
            (fun s => decide (s.user_id = result.user.id) && decide (s.access_token = token)) with
        | none => simp [hs, respond, User.IsBlocked] at h
        | some session =>
          have hp := List.find?_some hs
          simp only [Bool.and_eq_true, decide_eq_true_eq] at hp
          exact ⟨result, session, rfl, List.mem_of_find?_eq_some hs, hp.1, hp.2⟩

/-- With maintenance off, a request with a token for which the session lookup finds no row,
whatever `verifyToken` resolves, is answered 401. -/
theorem authenticateToken_no_session (env : Env) (rol now : Nat) (db : Db) (req : Request)
    (token : Token)
    (htoken : (req.authorization.bind (fun pieces => pieces[1]?)).filter Token.truthy
      = some token)
    (hmaint : env.MAINTENANCE_MODE ≠ some "true")
    (hnone : ∀ result, verifyToken env now (some token) req.x_refresh_token = .ok result →
      db.sessions.find?
        (fun s => decide (s.user_id = result.user.id) && decide (s.access_token = token))
        = none) :
    ∃ message, authenticateToken env rol now db req = respond db req 401 message := by
  unfold authenticateToken
  simp only [htoken, hmaint, if_false]
  cases hv : verifyToken env now (some token) req.x_refresh_token with
  | error e =>
    simp only [verifyToken_error env now _ _ e hv, if_true]
    exact ⟨_, rfl⟩
  | ok result =>
    simp only []
    cases hu : db.users.find? (fun u => decide (u.id = result.user.id)) with
    | none => exact ⟨_, rfl⟩
    | some userDb =>
      simp only [hnone result hv, User.IsBlocked]
      exact ⟨AUTH.SESSION_NOT_FOUND, by simp⟩

/-- When at most one key of `sessions` holds the token, no row holds it after `logoutUser`. -/
theorem logoutUser_removes_token (db0 : Db) (token : Token)
    (honly : ∀ s1 ∈ db0.sessions, ∀ s2 ∈ db0.sessions,
      s1.access_token = token → s2.access_token = token → s1.id = s2.id) :
    ∀ s ∈ (logoutUser db0 token).2.sessions, s.access_token ≠ token := by
  unfold logoutUser
  cases hf : db0.sessions.find? (fun s => decide (s.access_token = token)) with
  | none =>
    intro s hs
    simpa using List.find?_eq_none.mp hf s hs
  | some session =>
    intro s hs ht
    simp only [Session.destroy, Session.destroyWhere, List.mem_filter, Bool.not_eq_true,
      decide_eq_false_iff_not, Bool.not_eq_eq_eq_not, Bool.not_true] at hs
    have hsession : session.access_token = token := by simpa using List.find?_some hf
    exact hs.2 (honly s hs.1 session (List.mem_of_find?_eq_some hf) ht hsession)

/-- When at most one key of `sessions` holds the token, no row holds it after the silent
renewal of the session found for it. -/
theorem renewal_removes_token (env : Env) (rol now : Nat) (db : Db) (req : Request)
    (token : Token) (result : VerifyResult) (userDb : User) (session : Session)
    (newToken newRefreshToken : Token)
    (h : SilentRenewal env rol now db req token result userDb session newToken newRefreshToken)
    (honly : ∀ s1 ∈ db.sessions, ∀ s2 ∈ db.sessions,
      s1.access_token = token → s2.access_token = token → s1.id = s2.id) :
    ∀ s ∈ (authenticateToken env rol now db req).db.sessions, s.access_token ≠ token := by
  obtain ⟨hmaint, htoken, hverify, hnew, hnewRefresh, huser, hsession, hrole⟩ := h
  have hne : newToken ≠ token := by
    rcases verifyToken_ok_cases env now _ _ result hverify with hc | hc
    · rw [hc.1] at hnew
      cases hnew
    · intro heq
      have h1 := hc.1
      rw [hnew] at h1
      have h2 := hc.2.2.1
      rw [← heq, Option.some.inj h1, generateToken,
        verify_generate now now _ _ oneHour (by simp [oneHour])] at h2
      cases h2
  rw [authenticateToken_renewed env rol now db req token result userDb session newToken
    newRefreshToken hmaint htoken hverify huser hsession hnew hnewRefresh, if_pos hrole]
  intro s hs ht
  simp only [Session.update, List.mem_map] at hs
  obtain ⟨s0, hs0, rfl⟩ := hs
  have hp := List.find?_some hsession
  simp only [Bool.and_eq_true, decide_eq_true_eq] at hp
  by_cases hid : s0.id = session.id
  · simp only [hid, if_true] at ht
    exact hne ht
  · simp only [hid, if_false] at ht
    exact hid (honly s0 hs0 session (List.mem_of_find?_eq_some hsession) ht hp.2)

/-- A login keeps every session row holding an access token of its own user. -/
theorem authenticateUser_ownTokens (env : Env) (bcrypt : Bcrypt) (now : Nat) (db : Db)
    (data : LoginData) (h : db.SessionsOwnTokens) :
    (authenticateUser env bcrypt now db data).2.SessionsOwnTokens := by
  cases hfind : db.users.find? (fun x => decide (x.email = data.email)) with
  | none =>
    simp only [authenticateUser, hfind]
    exact h
  | some u =>
    cases hpw : bcrypt.compare data.password u.password with
    | false =>
      simp only [authenticateUser, hfind, hpw, Bool.not_false, if_true]
      exact h
    | true =>
      rw [authenticateUser_ok env bcrypt now db data u hfind hpw]
      intro s hs
      simp only [List.mem_append, List.mem_filter, List.mem_singleton] at hs
      rcases hs with hs | hs
      · exact h s hs.1
      · subst hs
        rfl

/-- A logout keeps every session row holding an access token of its own user. -/
theorem logoutUser_ownTokens (db : Db) (token : Token) (h : db.SessionsOwnTokens) :
    (logoutUser db token).2.SessionsOwnTokens := by
  unfold logoutUser
  cases hf : db.sessions.find? (fun s => decide (s.access_token = token)) with
  | none => exact h
  | some session =>
    intro s hs
    simp only [Session.destroy, Session.destroyWhere, List.mem_filter] at hs
    exact h s hs.1

/-- The middleware keeps every session row holding an access token of its own user, when
the keys of `sessions` are distinct. -/
theorem authenticateToken_ownTokens (env : Env) (rol now : Nat) (db : Db) (req : Request)
    (hk : (db.sessions.map (fun s => s.id)).Nodup) (h : db.SessionsOwnTokens) :
    (authenticateToken env rol now db req).db.SessionsOwnTokens := by
  unfold authenticateToken
  simp only []
  split
  · exact h
  · split
    · exact h
    · rename_i token htoken
      split
      · split <;> exact h
      · rename_i result hverify
        split
        · exact h
        · split
          · exact h
          · split
            · exact h
            · rename_i session hsession
              split
              · exact h
              · split
                · exact h
                · rename_i newToken hnew
                  split
                  · exact h
                  · rename_i newRefreshToken hnewRefresh
                    have hp := List.find?_some hsession
                    simp only [Bool.and_eq_true, decide_eq_true_eq] at hp
                    have hsub : newToken.subject = some session.user_id := by
                      have hn : result.newToken = some newToken := by
                        cases hr : result.newToken with
                        | none => simp [hr, Option.filter] at hnew
                        | some t =>
                          rw [hr] at hnew
                          simp only [Option.filter] at hnew
                          split at hnew
                          · exact hnew
                          · cases hnew
                      rcases verifyToken_ok_cases env now _ _ result hverify with hc | hc
                      · rw [hc.1] at hn
                        cases hn
                      · rw [hc.1] at hn
                        cases hn
                        rw [hp.1]
                        rfl
                    intro s hs
                    simp only [Session.update, List.mem_map] at hs
                    obtain ⟨s0, hs0, rfl⟩ := hs
                    by_cases hid : s0.id = session.id
                    · have : s0 = session :=
                        List.inj_on_of_nodup_map hk hs0 (List.mem_of_find?_eq_some hsession) hid
                      subst this
                      simp only [if_true]
                      exact hsub
                    · simp only [hid, if_false]
                      exact h s0 hs0

/-! ## Sessions behind the middleware: the claims -/

/-- C30, the counterexample. The administrator logs in at second 50 from two devices, so two
session rows hold the same access token; `logoutUser` with that token answers 200 and
deletes one row; a later request presenting the token is still passed on to the handler. -/
theorem token_passes_after_logout :
    (twoDevicesDb.sessions.filter
        (fun s => decide (s.access_token = generateToken sampleEnv 50 admin.asSubject))).length
      = 2
    ∧ (logoutUser twoDevicesDb (generateToken sampleEnv 50 admin.asSubject)).1.status = 200
    ∧ (authenticateToken sampleEnv 2 60
        (logoutUser twoDevicesDb (generateToken sampleEnv 50 admin.asSubject)).2
        laterRequest).outcome = .next := by
  refine ⟨by decide, by decide, by decide⟩

/-- C30, amended. For a request presenting the access token `token`: (1) it is passed on only
if `verifyToken` resolves an identity and a session row with that `user_id` and that
`access_token` is stored; with maintenance mode off it is answered 401 and nothing changes
(2) when no session row holds the token, (3) after `logoutUser` with the token on a state
where at most one session key held it, (4) after a silent renewal of the session found for
the token on a state where at most one session key held it, and (5), on a state whose
session rows hold access tokens of their own users, when the token is an expired access
token of one user and the refresh token is one signed for a user with another id. -/
theorem authenticateToken_needs_session (env : Env) (rol now : Nat) (db : Db) (req : Request)
    (token : Token)
    (htoken : (req.authorization.bind (fun pieces => pieces[1]?)).filter Token.truthy
      = some token) :
    ((authenticateToken env rol now db req).outcome = .next →
      ∃ result session, verifyToken env now (some token) req.x_refresh_token = .ok result
        ∧ session ∈ db.sessions ∧ session.user_id = result.user.id
        ∧ session.access_token = token)
    ∧ (env.MAINTENANCE_MODE ≠ some "true" → (∀ s ∈ db.sessions, s.access_token ≠ token) →
      ∃ message, authenticateToken env rol now db req = respond db req 401 message)
    ∧ (env.MAINTENANCE_MODE ≠ some "true" →
      ∀ db0 : Db,
        (∀ s1 ∈ db0.sessions, ∀ s2 ∈ db0.sessions,
          s1.access_token = token → s2.access_token = token → s1.id = s2.id) →
        ∃ message, authenticateToken env rol now (logoutUser db0 token).2 req
          = respond (logoutUser db0 token).2 req 401 message)
    ∧ (∀ (rol0 now0 : Nat) (db0 : Db) (req0 : Request) (result : VerifyResult) (userDb : User)
        (session : Session) (newToken newRefreshToken : Token),
        SilentRenewal env rol0 now0 db0 req0 token result userDb session newToken
          newRefreshToken →
        (∀ s1 ∈ db0.sessions, ∀ s2 ∈ db0.sessions,
          s1.access_token = token → s2.access_token = token → s1.id = s2.id) →
        ∃ message, authenticateToken env rol now (authenticateToken env rol0 now0 db0 req0).db req
          = respond (authenticateToken env rol0 now0 db0 req0).db req 401 message)
    ∧ (env.MAINTENANCE_MODE ≠ some "true" → db.SessionsOwnTokens →
      ∀ (a b : TokenSubject) (t0 t1 : Nat), a.id ≠ b.id →
        token = generateToken env t0 a →
        req.x_refresh_token = some (generateRefreshToken env t1 b) →
        t0 + oneHour ≤ now →
        ∃ message, authenticateToken env rol now db req = respond db req 401 message) := by
  have hmissing : ∀ db1 : Db, env.MAINTENANCE_MODE ≠ some "true" →
      (∀ s ∈ db1.sessions, s.access_token ≠ token) →
      ∃ message, authenticateToken env rol now db1 req = respond db1 req 401 message := by
    intro db1 hmaint hno
    apply authenticateToken_no_session env rol now db1 req token htoken hmaint
    intro result _
    apply List.find?_eq_none.mpr
    intro s hs
    simp [hno s hs]
  refine ⟨authenticateToken_next_session env rol now db req token htoken, hmissing db, ?_, ?_,
    ?_⟩
  · intro hmaint db0 honly
    exact hmissing _ hmaint (logoutUser_removes_token db0 token honly)
  · intro rol0 now0 db0 req0 result userDb session newToken newRefreshToken hren honly
    exact hmissing _ hren.1
      (renewal_removes_token env rol0 now0 db0 req0 token result userDb session newToken
        newRefreshToken hren honly)
  · intro hmaint hown a b t0 t1 hab htok href hexp
    apply authenticateToken_no_session env rol now db req token htoken hmaint
    intro result hv
    have hexpired : verify now (some token) env.JWT_SECRET = .error .TokenExpiredError := by
      rw [htok]
      exact verify_generate_expired now t0 a env.JWT_SECRET oneHour hexp
    have hid : result.user.id = b.id := by
      rcases verifyToken_ok_cases env now _ _ result hv with hc | hc
      · rw [hexpired] at hc
        cases hc.2.2
      · have h2 := hc.2.2.2
        rw [href] at h2
        have := verify_subject now _ _ _ h2
        simpa [generateRefreshToken, generate, jwtSign, Token.subject] using this.symm
    apply List.find?_eq_none.mpr
    intro s hs
    simp only [Bool.and_eq_true, decide_eq_true_eq, not_and]
    intro huid htk
    have hsub := hown s hs
    rw [htk, htok, huid, hid] at hsub
    simp only [generateToken, generate, jwtSign, Token.subject, Option.some.injEq] at hsub
    exact hab hsub

/-- The witness of C30: after the logout of the administrator of the sample state, whose
token one session row held, the request with that token is answered 401. -/
theorem authenticateToken_needs_session_witness :
    (adminRequest.authorization.bind (fun pieces => pieces[1]?)).filter Token.truthy
      = some adminSession.access_token
    ∧ ∃ message, authenticateToken sampleEnv 2 10
          (logoutUser sampleDb adminSession.access_token).2 adminRequest
        = respond (logoutUser sampleDb adminSession.access_token).2 adminRequest 401 message :=
  ⟨rfl,
   (authenticateToken_needs_session sampleEnv 2 10 sampleDb adminRequest
      adminSession.access_token rfl).2.2.1 (by decide) sampleDb (by decide)⟩

end Lodgerin
